import Mathlib

/-!
# vulkan-drafts: the swapchain lifecycle and render loop of `src/d/src/main.cpp`

A shallow embedding of the tutorial program `d`: the pure helpers
(`find_memory_type`, the queue-family search of `main`) are Lean functions, and the
call-sequencing code (`create_basically_everything`, `destroy_basically_everything`,
the render loop and `main`) is written in a small trace monad in which every call
into Vulkan/GLFW is recorded as an event and every result that the driver returns
is read from an explicit environment.
-/

namespace VulkanDrafts

/-! ## Results of Vulkan calls -/

/-- A `VkResult` is a 32-bit signed enum; it is kept as an integer so that "any other
result" ranges over every value the driver may return. -/
abbrev VkResult := Int

/-- `VK_SUCCESS` of `vulkan_core.h`. -/
def VK_SUCCESS : VkResult := 0
/-- `VK_SUBOPTIMAL_KHR` of `vulkan_core.h`. -/
def VK_SUBOPTIMAL_KHR : VkResult := 1000001003
/-- `VK_ERROR_OUT_OF_DATE_KHR` of `vulkan_core.h`. -/
def VK_ERROR_OUT_OF_DATE_KHR : VkResult := -1000001004
/-- `VK_ERROR_DEVICE_LOST` of `vulkan_core.h`. -/
def VK_ERROR_DEVICE_LOST : VkResult := -4

/-! ## `find_memory_type` -/

/-- The part of `VkPhysicalDeviceMemoryProperties` that `find_memory_type` reads:
`memoryTypeCount` and, for every slot of the `memoryTypes` array, its `propertyFlags`
(a 32-bit mask). Slots that are not listed read as `0`. -/
structure VkPhysicalDeviceMemoryProperties where
  memoryTypeCount : Nat
  memoryTypes : List Nat
  deriving DecidableEq, Repr

/-- The test in the body of the loop of `find_memory_type`:
`(type_filter & (1 << i)) && (memoryTypes[i].propertyFlags & props) == props`.
The shifted `int` is converted to `uint32_t` for the `&`. -/
def find_memory_type_test (mem_props : VkPhysicalDeviceMemoryProperties)
    (type_filter props i : Nat) : Bool :=
  (type_filter &&& ((1 <<< i) % 2 ^ 32) != 0) &&
    ((mem_props.memoryTypes.getD i 0) &&& props == props)

/-- The `for (uint32_t i = 0; i < memoryTypeCount; i++)` loop of `find_memory_type`,
entered at index `i` with `fuel = memoryTypeCount - i` iterations left; `some i` is the
early `return i`, `none` is falling out of the loop. -/
def find_memory_type_loop (mem_props : VkPhysicalDeviceMemoryProperties)
    (type_filter props : Nat) : Nat → Nat → Option Nat
  | 0, _ => none
  | fuel + 1, i =>
    if find_memory_type_test mem_props type_filter props i then some i
    else find_memory_type_loop mem_props type_filter props fuel (i + 1)

/-- The function `find_memory_type` of `src/d/src/main.cpp`, applied to the table that
`vkGetPhysicalDeviceMemoryProperties` wrote: the index returned, or the message of
the `fatal` that ends the program. -/
def find_memory_type (mem_props : VkPhysicalDeviceMemoryProperties)
    (type_filter props : Nat) : Except String Nat :=
  match find_memory_type_loop mem_props type_filter props mem_props.memoryTypeCount 0 with
  | some i => .ok i
  | none => .error "Failed to find suitable memory type"

/-- A suitable memory type index: inside the table, selected by the filter, and carrying
every requested property flag. -/
def SuitableMemoryType (mem_props : VkPhysicalDeviceMemoryProperties)
    (type_filter props i : Nat) : Prop :=
  i < mem_props.memoryTypeCount ∧ type_filter.testBit i = true ∧
    (mem_props.memoryTypes.getD i 0) &&& props = props

/-! ## The queue-family search of `main` -/

/-- `VK_QUEUE_GRAPHICS_BIT` of `vulkan_core.h`. -/
def VK_QUEUE_GRAPHICS_BIT : Nat := 1

/-- One queue family as the search sees it: the `queueFlags` of
`VkQueueFamilyProperties` and the `VkBool32` that
`vkGetPhysicalDeviceSurfaceSupportKHR` wrote for the family's index. -/
structure QueueFamily where
  queueFlags : Nat
  present_support : Nat
  deriving DecidableEq, Repr

/-- The condition `(queue_families[i].queueFlags & VK_QUEUE_GRAPHICS_BIT) && present_support`. -/
def QueueFamily.graphics_and_present (q : QueueFamily) : Bool :=
  (q.queueFlags &&& VK_QUEUE_GRAPHICS_BIT != 0) && (q.present_support != 0)

/-- The loop `for (size_t i = 0; i < queue_families.size(); i++)` of `main`, entered at
index `i` with the families from `i` on still to visit and `idx` the current value of
`vk_graphics_queue_family_index`; the assignment narrows `size_t` to `uint32_t`. -/
def find_graphics_queue_loop : List QueueFamily → Nat → Nat → Nat
  | [], _, idx => idx
  | q :: rest, i, idx =>
    find_graphics_queue_loop rest (i + 1)
      (if q.graphics_and_present then i % 2 ^ 32 else idx)

/-- The value of `vk_graphics_queue_family_index` after the search: it starts at `0`. -/
def find_graphics_queue (queue_families : List QueueFamily) : Nat :=
  find_graphics_queue_loop queue_families 0 0

/-! ## Handles, calls and traces -/

/-- The variable of the program that a handle was first stored in. It names the kind of
object behind a handle: the locals of `main`, the locals of
`create_basically_everything` and `create_shader_module`, and the fields of
`g_TempVulkan`. -/
inductive Site
  | null
  | window
  | vk_instance
  | vk_surface
  | vk_physical_device
  | vk_device
  | vk_graphics_queue
  | vk_vertex_buffer
  | vk_vertex_buffer_memory
  | vk_index_buffer
  | vk_index_buffer_memory
  | vk_command_pool
  | vk_command_buffer
  | swapchain
  | vk_swapchain_images
  | image_views
  | framebuffers
  | render_pass
  | uniform_buffer
  | uniform_buffer_memory
  | vk_texture_staging_buffer
  | vk_texture_staging_buffer_memory
  | texture_image
  | texture_image_memory
  | vk_texture_command_buffer
  | texture_image_view
  | texture_sampler
  | descriptor_set_layout
  | descriptor_pool
  | descriptor_set
  | vk_vert_shader_module
  | vk_frag_shader_module
  | pipeline_layout
  | pipeline
  | image_available_semaphore
  | render_finished_semaphore
  deriving DecidableEq, Repr

/-- An object handle as the driver hands it out: `serial` is the running number of the
hand-out (no two handles share it), `site` the variable it was written to, and `index`
the element for the three vectors. `VK_NULL_HANDLE` is `⟨.null, 0, 0⟩`. -/
structure Handle where
  site : Site
  index : Nat
  serial : Nat
  deriving DecidableEq, Repr

/-- The zero-initialised handle. -/
def VK_NULL_HANDLE : Handle := ⟨.null, 0, 0⟩

/-- The functions that the program calls: the Vulkan, GLFW, stb_image and libc entry
points, and the program's own `create_basically_everything`,
`destroy_basically_everything`, `create_shader_module` and `find_memory_type` (an event
of these four marks the entry into the function). -/
inductive Fn
  | glfwInit | glfwWindowHint | glfwCreateWindow | glfwGetRequiredInstanceExtensions
  | glfwCreateWindowSurface | glfwGetWindowSize | glfwGetFramebufferSize
  | glfwWindowShouldClose | glfwPollEvents | glfwDestroyWindow | glfwTerminate
  | vkCreateInstance | vkEnumeratePhysicalDevices
  | vkGetPhysicalDeviceQueueFamilyProperties | vkGetPhysicalDeviceSurfaceSupportKHR
  | vkCreateDevice | vkGetDeviceQueue
  | vkCreateBuffer | vkGetBufferMemoryRequirements | vkGetPhysicalDeviceMemoryProperties
  | vkAllocateMemory | vkBindBufferMemory | vkMapMemory | memcpy | vkUnmapMemory
  | vkCreateCommandPool | vkAllocateCommandBuffers
  | vkGetPhysicalDeviceSurfaceCapabilitiesKHR | vkGetPhysicalDeviceSurfaceFormatsKHR
  | vkCreateSwapchainKHR | vkGetSwapchainImagesKHR | vkCreateImageView
  | vkCreateRenderPass | vkCreateFramebuffer
  | stbi_set_flip_vertically_on_load | stbi_load | free
  | vkCreateImage | vkGetImageMemoryRequirements | vkBindImageMemory
  | vkBeginCommandBuffer | vkCmdPipelineBarrier | vkCmdCopyBufferToImage
  | vkEndCommandBuffer | vkQueueSubmit | vkQueueWaitIdle
  | vkFreeMemory | vkDestroyBuffer | vkCreateSampler
  | vkCreateDescriptorSetLayout | vkCreateDescriptorPool | vkAllocateDescriptorSets
  | vkUpdateDescriptorSets
  | fopen | malloc | fread | fclose | vkCreateShaderModule
  | vkCreatePipelineLayout | vkCreateGraphicsPipelines | vkDestroyShaderModule
  | vkCreateSemaphore
  | vkDestroySampler | vkDestroyImage | vkDestroyImageView | vkDestroyDescriptorPool
  | vkDestroyDescriptorSetLayout | vkDestroyPipeline | vkDestroyPipelineLayout
  | vkDestroyFramebuffer | vkDestroyRenderPass | vkDestroySwapchainKHR
  | vkDestroySemaphore
  | vkDeviceWaitIdle | vkAcquireNextImageKHR | vkResetCommandBuffer
  | vkCmdBeginRenderPass | vkCmdBindDescriptorSets | vkCmdBindPipeline
  | vkCmdBindVertexBuffers | vkCmdBindIndexBuffer | vkCmdDrawIndexed | vkCmdEndRenderPass
  | vkQueuePresentKHR
  | vkDestroyCommandPool | vkDestroyDevice | vkDestroySurfaceKHR | vkDestroyInstance
  | create_basically_everything | destroy_basically_everything
  | create_shader_module | find_memory_type
  deriving DecidableEq, Repr

/-- One call, as it appears in the trace of a run: the function, the handles passed to
it (direct arguments first, in the order of the source, then the handles inside the
structures it is given), the handles it wrote through its output pointers, scalar
arguments or outputs worth keeping, and the `VkResult` it returned (`none` for a
function that does not return one). -/
structure Event where
  fn : Fn
  args : List Handle
  out : List Handle
  data : List Nat
  result : Option VkResult
  deriving DecidableEq, Repr

/-- The struct `VulkanBasicallyEverything`; `swapchain_extent` is kept as
(width, height). -/
structure VulkanBasicallyEverything where
  swapchain : Handle
  swapchain_extent : Nat × Nat
  image_views : List Handle
  framebuffers : List Handle
  render_pass : Handle
  uniform_buffer : Handle
  uniform_buffer_memory : Handle
  texture_image : Handle
  texture_image_memory : Handle
  texture_image_view : Handle
  texture_sampler : Handle
  descriptor_set_layout : Handle
  descriptor_pool : Handle
  descriptor_set : Handle
  pipeline_layout : Handle
  pipeline : Handle
  image_available_semaphore : Handle
  render_finished_semaphore : Handle
  deriving DecidableEq, Repr

/-- The mutable state of a run: the static `g_TempVulkan`, the local
`recreate_everything` of `main`, and the serial number of the next handle that the
driver will hand out. -/
structure World where
  g_TempVulkan : VulkanBasicallyEverything
  recreate_everything : Bool
  next : Nat
  deriving DecidableEq, Repr

/-- The zero-initialised `g_TempVulkan`. -/
def VulkanBasicallyEverything.zero : VulkanBasicallyEverything :=
  { swapchain := VK_NULL_HANDLE, swapchain_extent := (0, 0), image_views := [],
    framebuffers := [], render_pass := VK_NULL_HANDLE, uniform_buffer := VK_NULL_HANDLE,
    uniform_buffer_memory := VK_NULL_HANDLE, texture_image := VK_NULL_HANDLE,
    texture_image_memory := VK_NULL_HANDLE, texture_image_view := VK_NULL_HANDLE,
    texture_sampler := VK_NULL_HANDLE, descriptor_set_layout := VK_NULL_HANDLE,
    descriptor_pool := VK_NULL_HANDLE, descriptor_set := VK_NULL_HANDLE,
    pipeline_layout := VK_NULL_HANDLE, pipeline := VK_NULL_HANDLE,
    image_available_semaphore := VK_NULL_HANDLE,
    render_finished_semaphore := VK_NULL_HANDLE }

/-- The state in which `main` starts. -/
def World.initial : World :=
  { g_TempVulkan := VulkanBasicallyEverything.zero, recreate_everything := false,
    next := 1 }

/-- The ways a run ends early: `fatal` (with its message), a failed `assert`, and a
vector read outside its bounds, where the C++ program has no defined behaviour. -/
inductive Abort
  | fatal (msg : String)
  | assert_failed
  | out_of_bounds
  deriving DecidableEq, Repr

/-- What running a piece of the program gives: the calls it issued, in order, and
either the abort that ended it or its value and the state it left. -/
structure Result (α : Type) where
  trace : List Event
  out : Except Abort (α × World)

/-- A piece of the program: from the state it starts in to its `Result`. -/
def Prog (α : Type) : Type := World → Result α

/-- Sequencing: the second piece runs in the state the first one left, unless the first
one aborted; the traces are concatenated. -/
def Prog.bind {α β : Type} (m : Prog α) (f : α → Prog β) : Prog β := fun w =>
  match (m w).out with
  | .ok (a, w1) => ⟨(m w).trace ++ (f a w1).trace, (f a w1).out⟩
  | .error e => ⟨(m w).trace, .error e⟩

/-- A piece that does nothing and yields `a`. -/
def Prog.pure {α : Type} (a : α) : Prog α := fun w => ⟨[], .ok (a, w)⟩

instance : Monad Prog where
  pure := Prog.pure
  bind := Prog.bind

/-- Record one call in the trace. -/
def emit (e : Event) : Prog Unit := fun w => ⟨[e], .ok ((), w)⟩

/-- The macro `fatal`: print the message and `exit(EXIT_FAILURE)`. -/
def fatal {α : Type} (msg : String) : Prog α := fun _ => ⟨[], .error (.fatal msg)⟩

/-- The macro `assert` of `main.cpp`: `exit(EXIT_FAILURE)` when the condition fails. -/
def assert (cond : Bool) : Prog Unit := fun w =>
  if cond then ⟨[], .ok ((), w)⟩ else ⟨[], .error .assert_failed⟩

/-- The statement `if (result != VK_SUCCESS) fatal(msg);` that follows the calls. -/
def check (result : VkResult) (msg : String) : Prog Unit :=
  if result ≠ VK_SUCCESS then fatal msg else pure ()

/-- A read `v[i]` of a vector. -/
def index {α : Type} (v : List α) (i : Nat) : Prog α := fun w =>
  match v[i]? with
  | some h => ⟨[], .ok (h, w)⟩
  | none => ⟨[], .error .out_of_bounds⟩

/-- Read the state. -/
def getWorld : Prog World := fun w => ⟨[], .ok (w, w)⟩

/-- Update `g_TempVulkan`. -/
def modifyG (f : VulkanBasicallyEverything → VulkanBasicallyEverything) : Prog Unit :=
  fun w => ⟨[], .ok ((), { w with g_TempVulkan := f w.g_TempVulkan })⟩

/-- Assign the local `recreate_everything`. -/
def setRecreate (b : Bool) : Prog Unit :=
  fun w => ⟨[], .ok ((), { w with recreate_everything := b })⟩

/-- A call that returns a `VkResult`: it is recorded, and the result the driver gave
is returned to the program. -/
def vk (fn : Fn) (args : List Handle) (data : List Nat) (r : VkResult) : Prog VkResult :=
  fun w => ⟨[⟨fn, args, [], data, some r⟩], .ok (r, w)⟩

/-- A call that returns no `VkResult`. -/
def call (fn : Fn) (args : List Handle) (data : List Nat) : Prog Unit :=
  emit ⟨fn, args, [], data, none⟩

/-- A call that returns a `VkResult` and, on `VK_SUCCESS`, writes one new handle
through its output pointer. The new handle carries the next serial number. On any other
result nothing is written and the variable reads as `VK_NULL_HANDLE`. -/
def vkNew (fn : Fn) (args : List Handle) (site : Site) (i : Nat) (r : VkResult) :
    Prog (VkResult × Handle) := fun w =>
  if r = VK_SUCCESS then
    ⟨[⟨fn, args, [⟨site, i, w.next⟩], [], some r⟩],
      .ok ((r, ⟨site, i, w.next⟩), { w with next := w.next + 1 })⟩
  else
    ⟨[⟨fn, args, [], [], some r⟩], .ok ((r, VK_NULL_HANDLE), w)⟩

/-- A call without `VkResult` that hands out one handle (`glfwCreateWindow`,
`vkGetDeviceQueue`). -/
def callNew (fn : Fn) (args : List Handle) (data : List Nat) (site : Site) : Prog Handle :=
  fun w =>
    ⟨[⟨fn, args, [⟨site, 0, w.next⟩], data, none⟩],
      .ok (⟨site, 0, w.next⟩, { w with next := w.next + 1 })⟩

/-- The handles `⟨site, 0, s⟩, ⟨site, 1, s + 1⟩, …` of an array of `n` objects that one
call hands out. -/
def newHandles (site : Site) (s : Nat) : Nat → Nat → List Handle
  | 0, _ => []
  | n + 1, i => ⟨site, i, s + i⟩ :: newHandles site s n (i + 1)

/-- A call that returns a `VkResult` and, on `VK_SUCCESS`, fills an array with `n`
handles. -/
def vkNewArray (fn : Fn) (args : List Handle) (site : Site) (n : Nat) (r : VkResult) :
    Prog (VkResult × List Handle) := fun w =>
  if r = VK_SUCCESS then
    ⟨[⟨fn, args, newHandles site w.next n 0, [n], some r⟩],
      .ok ((r, newHandles site w.next n 0), { w with next := w.next + n })⟩
  else
    ⟨[⟨fn, args, [], [n], some r⟩], .ok ((r, []), w)⟩

/-- `std::vector::resize` on a vector of handles: cut, or fill up with null handles. -/
def resize (v : List Handle) (n : Nat) : List Handle :=
  v.take n ++ List.replicate (n - v.length) VK_NULL_HANDLE

/-! ## What the driver answers during `create_basically_everything` -/

/-- `VK_FORMAT_B8G8R8A8_UNORM` of `vulkan_core.h`. -/
def VK_FORMAT_B8G8R8A8_UNORM : Nat := 44
/-- `VK_COLOR_SPACE_SRGB_NONLINEAR_KHR` of `vulkan_core.h`. -/
def VK_COLOR_SPACE_SRGB_NONLINEAR_KHR : Nat := 0
/-- `VK_MEMORY_PROPERTY_DEVICE_LOCAL_BIT` of `vulkan_core.h`. -/
def VK_MEMORY_PROPERTY_DEVICE_LOCAL_BIT : Nat := 1
/-- `VK_MEMORY_PROPERTY_HOST_VISIBLE_BIT` of `vulkan_core.h`. -/
def VK_MEMORY_PROPERTY_HOST_VISIBLE_BIT : Nat := 2
/-- `VK_MEMORY_PROPERTY_HOST_COHERENT_BIT` of `vulkan_core.h`. -/
def VK_MEMORY_PROPERTY_HOST_COHERENT_BIT : Nat := 4

/-- A `VkSurfaceFormatKHR`. -/
structure VkSurfaceFormatKHR where
  format : Nat
  colorSpace : Nat
  deriving DecidableEq, Repr

/-- What the outside world answers during one call of `create_shader_module`. -/
structure ShaderEnv where
  file_opened : Bool
  buffer_allocated : Bool
  vkCreateShaderModule : VkResult

/-- What the outside world answers during one call of `create_basically_everything`:
one field for every call whose result or output the function reads, named after the
call and, where a function is called more than once, the object it is called for. -/
structure CreateEnv where
  vkGetPhysicalDeviceSurfaceCapabilitiesKHR : VkResult
  currentExtent : Nat × Nat
  vkGetPhysicalDeviceSurfaceFormatsKHR_count : VkResult
  vkGetPhysicalDeviceSurfaceFormatsKHR_data : VkResult
  formats : List VkSurfaceFormatKHR
  vkCreateSwapchainKHR : VkResult
  vkGetSwapchainImagesKHR_count : VkResult
  image_count_queried : Nat
  vkGetSwapchainImagesKHR_data : VkResult
  image_count_written : Nat
  vkCreateImageView : Nat → VkResult
  vkCreateRenderPass : VkResult
  vkCreateFramebuffer : Nat → VkResult
  mem_props : VkPhysicalDeviceMemoryProperties
  vkCreateBuffer_uniform : VkResult
  memoryTypeBits_uniform : Nat
  vkAllocateMemory_uniform : VkResult
  vkBindBufferMemory_uniform : VkResult
  vkMapMemory_uniform : VkResult
  tex_w : Int
  tex_h : Int
  vkCreateBuffer_staging : VkResult
  memoryTypeBits_staging : Nat
  vkAllocateMemory_staging : VkResult
  vkBindBufferMemory_staging : VkResult
  vkMapMemory_staging : VkResult
  vkCreateImage : VkResult
  memoryTypeBits_texture : Nat
  vkAllocateMemory_texture : VkResult
  vkBindImageMemory : VkResult
  vkAllocateCommandBuffers : VkResult
  vkBeginCommandBuffer : VkResult
  vkEndCommandBuffer : VkResult
  vkQueueSubmit : VkResult
  vkQueueWaitIdle : VkResult
  vkCreateImageView_texture : VkResult
  vkCreateSampler : VkResult
  vkCreateDescriptorSetLayout : VkResult
  vkCreateDescriptorPool : VkResult
  vkAllocateDescriptorSets : VkResult
  vert_shader : ShaderEnv
  frag_shader : ShaderEnv
  vkCreatePipelineLayout : VkResult
  vkCreateGraphicsPipelines : VkResult
  vkCreateSemaphore_image_available : VkResult
  vkCreateSemaphore_render_finished : VkResult

/-! ## The structures that `create_basically_everything` fills in

The constants are those of `vulkan_core.h`; of every structure only the members that the
theorems below speak of are kept. -/

/-- `VK_IMAGE_LAYOUT_UNDEFINED` of `vulkan_core.h`. -/
def VK_IMAGE_LAYOUT_UNDEFINED : Nat := 0
/-- `VK_IMAGE_LAYOUT_SHADER_READ_ONLY_OPTIMAL` of `vulkan_core.h`. -/
def VK_IMAGE_LAYOUT_SHADER_READ_ONLY_OPTIMAL : Nat := 5
/-- `VK_IMAGE_LAYOUT_TRANSFER_DST_OPTIMAL` of `vulkan_core.h`. -/
def VK_IMAGE_LAYOUT_TRANSFER_DST_OPTIMAL : Nat := 7
/-- `VK_ACCESS_SHADER_READ_BIT` of `vulkan_core.h`. -/
def VK_ACCESS_SHADER_READ_BIT : Nat := 0x20
/-- `VK_ACCESS_TRANSFER_WRITE_BIT` of `vulkan_core.h`. -/
def VK_ACCESS_TRANSFER_WRITE_BIT : Nat := 0x1000
/-- `VK_DESCRIPTOR_TYPE_COMBINED_IMAGE_SAMPLER` of `vulkan_core.h`. -/
def VK_DESCRIPTOR_TYPE_COMBINED_IMAGE_SAMPLER : Nat := 1
/-- `VK_DESCRIPTOR_TYPE_UNIFORM_BUFFER` of `vulkan_core.h`. -/
def VK_DESCRIPTOR_TYPE_UNIFORM_BUFFER : Nat := 6
/-- `VK_SHADER_STAGE_VERTEX_BIT` of `vulkan_core.h`. -/
def VK_SHADER_STAGE_VERTEX_BIT : Nat := 0x1
/-- `VK_SHADER_STAGE_FRAGMENT_BIT` of `vulkan_core.h`. -/
def VK_SHADER_STAGE_FRAGMENT_BIT : Nat := 0x10
/-- `VK_FORMAT_R32G32_SFLOAT` of `vulkan_core.h`. -/
def VK_FORMAT_R32G32_SFLOAT : Nat := 103
/-- `VK_FORMAT_R32G32B32_SFLOAT` of `vulkan_core.h`. -/
def VK_FORMAT_R32G32B32_SFLOAT : Nat := 106

/-- The members of `VkImageMemoryBarrier` that the texture upload sets. -/
structure VkImageMemoryBarrier where
  oldLayout : Nat
  newLayout : Nat
  srcAccessMask : Nat
  dstAccessMask : Nat
  deriving DecidableEq, Repr

/-- The barrier `texture_image_memory_barrier1` of the texture upload. -/
def texture_image_memory_barrier1 : VkImageMemoryBarrier :=
  { oldLayout := VK_IMAGE_LAYOUT_UNDEFINED
    newLayout := VK_IMAGE_LAYOUT_TRANSFER_DST_OPTIMAL
    srcAccessMask := 0
    dstAccessMask := VK_ACCESS_TRANSFER_WRITE_BIT }

/-- The barrier `texture_image_memory_barrier2`: a copy of the first with four members
assigned anew. -/
def texture_image_memory_barrier2 : VkImageMemoryBarrier :=
  { texture_image_memory_barrier1 with
    oldLayout := VK_IMAGE_LAYOUT_TRANSFER_DST_OPTIMAL
    newLayout := VK_IMAGE_LAYOUT_SHADER_READ_ONLY_OPTIMAL
    srcAccessMask := VK_ACCESS_TRANSFER_WRITE_BIT
    dstAccessMask := VK_ACCESS_SHADER_READ_BIT }

/-- The members of `VkDescriptorSetLayoutBinding` that the source sets. -/
structure VkDescriptorSetLayoutBinding where
  binding : Nat
  descriptorType : Nat
  descriptorCount : Nat
  stageFlags : Nat
  deriving DecidableEq, Repr

/-- The binding `uniform_buffer_descriptor_set_layout_binding`. -/
def uniform_buffer_descriptor_set_layout_binding : VkDescriptorSetLayoutBinding :=
  { binding := 0, descriptorType := VK_DESCRIPTOR_TYPE_UNIFORM_BUFFER, descriptorCount := 1,
    stageFlags := VK_SHADER_STAGE_VERTEX_BIT }

/-- The binding `texture_sampler_descriptor_set_layout_binding`. -/
def texture_sampler_descriptor_set_layout_binding : VkDescriptorSetLayoutBinding :=
  { binding := 1, descriptorType := VK_DESCRIPTOR_TYPE_COMBINED_IMAGE_SAMPLER,
    descriptorCount := 1, stageFlags := VK_SHADER_STAGE_FRAGMENT_BIT }

/-- The array `descriptor_set_layout_bindings` given to `vkCreateDescriptorSetLayout`
(`bindingCount = 2`). -/
def descriptor_set_layout_bindings : List VkDescriptorSetLayoutBinding :=
  [uniform_buffer_descriptor_set_layout_binding,
    texture_sampler_descriptor_set_layout_binding]

/-- The structure `VkDescriptorPoolSize`. -/
structure VkDescriptorPoolSize where
  type : Nat
  descriptorCount : Nat
  deriving DecidableEq, Repr

/-- The array `descriptor_pool_sizes` given to `vkCreateDescriptorPool`
(`poolSizeCount = 2`). -/
def descriptor_pool_sizes : List VkDescriptorPoolSize :=
  [ { type := VK_DESCRIPTOR_TYPE_UNIFORM_BUFFER, descriptorCount := 1 },
    { type := VK_DESCRIPTOR_TYPE_COMBINED_IMAGE_SAMPLER, descriptorCount := 1 } ]

/-- The member `maxSets` of `decriptor_pool_create_info`. -/
def descriptor_pool_maxSets : Nat := 1

/-- The member `descriptorSetCount` of `descriptor_set_allocate_info`. -/
def descriptor_set_allocate_descriptorSetCount : Nat := 1

/-- The members of `VkWriteDescriptorSet` that the source sets, and the `imageLayout` of
the `VkDescriptorImageInfo` it points to (`none` for a write that points to a buffer). -/
structure VkWriteDescriptorSet where
  dstBinding : Nat
  dstArrayElement : Nat
  descriptorType : Nat
  descriptorCount : Nat
  imageLayout : Option Nat
  deriving DecidableEq, Repr

/-- The write `uniform_buffer_write_descriptor_set`. -/
def uniform_buffer_write_descriptor_set : VkWriteDescriptorSet :=
  { dstBinding := 0, dstArrayElement := 0,
    descriptorType := VK_DESCRIPTOR_TYPE_UNIFORM_BUFFER, descriptorCount := 1,
    imageLayout := none }

/-- The write `texture_sampler_write_descriptor_set`, with the layout of
`texture_sampler_descriptor_image_info`. -/
def texture_sampler_write_descriptor_set : VkWriteDescriptorSet :=
  { dstBinding := 1, dstArrayElement := 0,
    descriptorType := VK_DESCRIPTOR_TYPE_COMBINED_IMAGE_SAMPLER, descriptorCount := 1,
    imageLayout := some VK_IMAGE_LAYOUT_SHADER_READ_ONLY_OPTIMAL }

/-- The scalars by which a write appears in the trace: binding, descriptor type,
descriptor count and, for an image, the layout. -/
def VkWriteDescriptorSet.data (x : VkWriteDescriptorSet) : List Nat :=
  [x.dstBinding, x.descriptorType, x.descriptorCount] ++ x.imageLayout.toList

/-- The members of `struct Vertex`, in the order of their declaration; every one of them
is a `float`. -/
def Vertex.members : List String := ["x", "y", "u", "v", "r", "g", "b"]

/-- The value of `sizeof(float)`: four bytes. -/
def sizeof_float : Nat := 4

/-- The value of `offsetof(Vertex, member)`: the members are all `float`, so none is
padded and a member lies behind the members declared before it. -/
def Vertex.offsetof (member : String) : Nat :=
  (Vertex.members.takeWhile (· != member)).length * sizeof_float

/-- The value of `sizeof(Vertex)`. -/
def Vertex.sizeof : Nat := Vertex.members.length * sizeof_float

/-- The structure `VkVertexInputBindingDescription`, without the input rate. -/
structure VkVertexInputBindingDescription where
  binding : Nat
  stride : Nat
  deriving DecidableEq, Repr

/-- The structure `VkVertexInputAttributeDescription`. -/
structure VkVertexInputAttributeDescription where
  location : Nat
  binding : Nat
  format : Nat
  offset : Nat
  deriving DecidableEq, Repr

/-- The variable `vertex_input_binding_description`. -/
def vertex_input_binding_description : VkVertexInputBindingDescription :=
  { binding := 0, stride := Vertex.sizeof }

/-- The vector `vertex_input_attribute_descriptions`. -/
def vertex_input_attribute_descriptions : List VkVertexInputAttributeDescription :=
  [ { location := 0, binding := 0, format := VK_FORMAT_R32G32_SFLOAT,
      offset := Vertex.offsetof "x" },
    { location := 1, binding := 0, format := VK_FORMAT_R32G32_SFLOAT,
      offset := Vertex.offsetof "u" },
    { location := 2, binding := 0, format := VK_FORMAT_R32G32B32_SFLOAT,
      offset := Vertex.offsetof "r" } ]

/-- The number of bytes that a vertex attribute of a format reads, for the two formats of
the source: two and three 32-bit floats. -/
def format_size (format : Nat) : Nat :=
  if format = VK_FORMAT_R32G32_SFLOAT then 8
  else if format = VK_FORMAT_R32G32B32_SFLOAT then 12
  else 0

/-- The bytes of a vertex that an attribute reads: from its offset, as many as its format
has. -/
def VkVertexInputAttributeDescription.bytes (a : VkVertexInputAttributeDescription) :
    List Nat :=
  (List.range (format_size a.format)).map (a.offset + ·)

/-- A 32-bit `int` value of a product that left the range, as two's complement. -/
def wrap_int32 (x : Int) : Int := (x + 2 ^ 31) % 2 ^ 32 - 2 ^ 31

/-- The statement `VkDeviceSize image_size = tex_w * tex_h * 4;`: two `int`
multiplications, then the conversion to the unsigned 64-bit `VkDeviceSize`. -/
def image_size (tex_w tex_h : Int) : Nat :=
  ((wrap_int32 (wrap_int32 (tex_w * tex_h) * 4)) % 2 ^ 64).toNat

/-! ## `create_shader_module`, `find_memory_type` as called, and the two loops -/

/-- The function `create_shader_module`; `site` is the variable the caller stores the
module in. -/
def create_shader_module (env : ShaderEnv) (device : Handle) (site : Site) : Prog Handle := do
  call .create_shader_module [device] []
  call .fopen [] []
  assert env.file_opened
  call .malloc [] []
  assert env.buffer_allocated
  call .fread [] []
  call .fclose [] []
  let (result, module) ← vkNew .vkCreateShaderModule [device] site 0 env.vkCreateShaderModule
  check result "Failed to create shader module"
  call .free [] []
  return module

/-- A call of `find_memory_type`: it reads the table through
`vkGetPhysicalDeviceMemoryProperties` and searches it. -/
def run_find_memory_type (mem_props : VkPhysicalDeviceMemoryProperties)
    (physical_device : Handle) (type_filter props : Nat) : Prog Nat := do
  call .find_memory_type [physical_device] [type_filter, props]
  call .vkGetPhysicalDeviceMemoryProperties [physical_device] []
  match find_memory_type mem_props type_filter props with
  | .ok i => return i
  | .error msg => fatal msg

/-- The loop `for (uint32_t i = 0; i < vk_image_count; i++)` that creates the image
views, entered at index `i` with `fuel = vk_image_count - i`. -/
def create_image_views_loop (env : CreateEnv) (vk_device : Handle)
    (vk_swapchain_images : List Handle) : Nat → Nat → Prog Unit
  | 0, _ => pure ()
  | fuel + 1, i => do
    let image ← index vk_swapchain_images i
    let (result, view) ←
      vkNew .vkCreateImageView [vk_device, image] .image_views i (env.vkCreateImageView i)
    modifyG fun g => { g with image_views := g.image_views.set i view }
    check result "Failed to create image view"
    create_image_views_loop env vk_device vk_swapchain_images fuel (i + 1)

/-- The loop `for (uint32_t i = 0; i < vk_image_count; i++)` that creates the
framebuffers, entered at index `i` with `fuel = vk_image_count - i`. -/
def create_framebuffers_loop (env : CreateEnv) (vk_device : Handle) : Nat → Nat → Prog Unit
  | 0, _ => pure ()
  | fuel + 1, i => do
    let w ← getWorld
    let attachment ← index w.g_TempVulkan.image_views i
    let (result, framebuffer) ←
      vkNew .vkCreateFramebuffer [vk_device, w.g_TempVulkan.render_pass, attachment]
        .framebuffers i (env.vkCreateFramebuffer i)
    modifyG fun g => { g with framebuffers := g.framebuffers.set i framebuffer }
    check result "Failed to create framebuffer"
    create_framebuffers_loop env vk_device fuel (i + 1)

/-! ## `create_basically_everything` and `destroy_basically_everything` -/

/-- Steps 1 to 5 of `create_basically_everything`: surface capabilities and formats,
swapchain, swapchain images, image views, render pass and framebuffers. -/
def create_swapchain_part (env : CreateEnv)
    (vk_physical_device vk_surface vk_device : Handle) : Prog Unit := do
  let mut result ← vk .vkGetPhysicalDeviceSurfaceCapabilitiesKHR
    [vk_physical_device, vk_surface] [] env.vkGetPhysicalDeviceSurfaceCapabilitiesKHR
  check result "Failed to get physical device-surface capabilities"
  result ← vk .vkGetPhysicalDeviceSurfaceFormatsKHR
    [vk_physical_device, vk_surface] [] env.vkGetPhysicalDeviceSurfaceFormatsKHR_count
  check result "Failed to get physical device-surface formats"
  result ← vk .vkGetPhysicalDeviceSurfaceFormatsKHR
    [vk_physical_device, vk_surface] [] env.vkGetPhysicalDeviceSurfaceFormatsKHR_data
  check result "Failed to get physical device-surface formats 2"
  let vk_surface_format ← index env.formats 0
  assert (vk_surface_format.format == VK_FORMAT_B8G8R8A8_UNORM &&
    vk_surface_format.colorSpace == VK_COLOR_SPACE_SRGB_NONLINEAR_KHR)
  modifyG fun g => { g with swapchain_extent := env.currentExtent }
  let vk_image_count := 2
  let (r, swapchain) ← vkNew .vkCreateSwapchainKHR [vk_device, vk_surface] .swapchain 0
    env.vkCreateSwapchainKHR
  modifyG fun g => { g with swapchain := swapchain }
  check r "Failed to create swapchain"
  -- Get swapchain images
  result ← vk .vkGetSwapchainImagesKHR [vk_device, swapchain] [env.image_count_queried]
    env.vkGetSwapchainImagesKHR_count
  check result "Failed to get swapchain images"
  let (r, images) ← vkNewArray .vkGetSwapchainImagesKHR [vk_device, swapchain]
    .vk_swapchain_images env.image_count_written env.vkGetSwapchainImagesKHR_data
  let vk_swapchain_images := resize images env.image_count_queried
  let actual_image_count := env.image_count_written
  check r "Failed to get swapchain images 2"
  assert (vk_image_count == actual_image_count)
  -- Image views
  modifyG fun g => { g with image_views := resize g.image_views vk_image_count }
  create_image_views_loop env vk_device vk_swapchain_images vk_image_count 0
  -- Render pass
  let (r, render_pass) ← vkNew .vkCreateRenderPass [vk_device] .render_pass 0
    env.vkCreateRenderPass
  modifyG fun g => { g with render_pass := render_pass }
  check r "Failed to create render pass"
  -- Framebuffers
  modifyG fun g => { g with framebuffers := resize g.framebuffers vk_image_count }
  create_framebuffers_loop env vk_device vk_image_count 0

/-- Step 6 of `create_basically_everything`: the uniform buffer, its memory, and the
upload of the projection matrix. -/
def create_uniform_buffer_part (env : CreateEnv)
    (window vk_physical_device vk_device : Handle) : Prog Unit := do
  call .glfwGetWindowSize [window] []
  let (r, uniform_buffer) ← vkNew .vkCreateBuffer [vk_device] .uniform_buffer 0
    env.vkCreateBuffer_uniform
  modifyG fun g => { g with uniform_buffer := uniform_buffer }
  check r "Failed to create uniform buffer"
  -- Allocate memory for uniform buffer
  call .vkGetBufferMemoryRequirements [vk_device, uniform_buffer] []
  let _memoryTypeIndex ← run_find_memory_type env.mem_props vk_physical_device
    env.memoryTypeBits_uniform
    (VK_MEMORY_PROPERTY_HOST_VISIBLE_BIT ||| VK_MEMORY_PROPERTY_HOST_COHERENT_BIT)
  let (r, uniform_buffer_memory) ← vkNew .vkAllocateMemory [vk_device]
    .uniform_buffer_memory 0 env.vkAllocateMemory_uniform
  modifyG fun g => { g with uniform_buffer_memory := uniform_buffer_memory }
  check r "Failed to allocate memory for uniform buffer"
  let mut result ← vk .vkBindBufferMemory [vk_device, uniform_buffer, uniform_buffer_memory]
    [] env.vkBindBufferMemory_uniform
  check result "Failed to bind memory to uniform buffer"
  -- Upload data to the uniform buffer
  result ← vk .vkMapMemory [vk_device, uniform_buffer_memory] [] env.vkMapMemory_uniform
  check result "Failed to map uniform buffer memory"
  call .memcpy [] []
  call .vkUnmapMemory [vk_device, uniform_buffer_memory] []

/-- Step 7 of `create_basically_everything`: the texture. The staging buffer and its
memory, the texture image and its memory, the one-time command buffer that copies the
one into the other, the release of the staging buffer, the image view and the sampler. -/
def create_texture_part (env : CreateEnv)
    (vk_physical_device vk_device vk_graphics_queue vk_command_pool : Handle) :
    Prog Unit := do
  call .stbi_set_flip_vertically_on_load [] []
  call .stbi_load [] []
  let image_size := image_size env.tex_w env.tex_h
  -- Texture staging buffer
  let (r, vk_texture_staging_buffer) ← vkNew .vkCreateBuffer [vk_device]
    .vk_texture_staging_buffer 0 env.vkCreateBuffer_staging
  check r "Failed to create texture staging buffer"
  call .vkGetBufferMemoryRequirements [vk_device, vk_texture_staging_buffer] []
  let _memoryTypeIndex ← run_find_memory_type env.mem_props vk_physical_device
    env.memoryTypeBits_staging
    (VK_MEMORY_PROPERTY_HOST_VISIBLE_BIT ||| VK_MEMORY_PROPERTY_HOST_COHERENT_BIT)
  let (r, vk_texture_staging_buffer_memory) ← vkNew .vkAllocateMemory [vk_device]
    .vk_texture_staging_buffer_memory 0 env.vkAllocateMemory_staging
  check r "Failed to allocate memory for texture staging buffer"
  let mut result ← vk .vkBindBufferMemory
    [vk_device, vk_texture_staging_buffer, vk_texture_staging_buffer_memory] []
    env.vkBindBufferMemory_staging
  check result "Failed to bind memory to texture staging buffer"
  -- Upload image to the texture staging buffer
  result ← vk .vkMapMemory [vk_device, vk_texture_staging_buffer_memory] [image_size]
    env.vkMapMemory_staging
  check result "Failed to map texture staging buffer memory"
  call .memcpy [] [image_size]
  call .vkUnmapMemory [vk_device, vk_texture_staging_buffer_memory] []
  -- Can free the texture in RAM now
  call .free [] []
  -- Create image for the texture
  let (r, texture_image) ← vkNew .vkCreateImage [vk_device] .texture_image 0
    env.vkCreateImage
  modifyG fun g => { g with texture_image := texture_image }
  check r "Failed to create texture image"
  call .vkGetImageMemoryRequirements [vk_device, texture_image] []
  let _memoryTypeIndex ← run_find_memory_type env.mem_props vk_physical_device
    env.memoryTypeBits_texture VK_MEMORY_PROPERTY_DEVICE_LOCAL_BIT
  let (r, texture_image_memory) ← vkNew .vkAllocateMemory [vk_device]
    .texture_image_memory 0 env.vkAllocateMemory_texture
  modifyG fun g => { g with texture_image_memory := texture_image_memory }
  check r "Failed to allocate memory for texture image"
  result ← vk .vkBindImageMemory [vk_device, texture_image, texture_image_memory] []
    env.vkBindImageMemory
  check result "Failed to bind memory to texture image"
  -- Command buffer
  let (r, vk_texture_command_buffer) ← vkNew .vkAllocateCommandBuffers
    [vk_device, vk_command_pool] .vk_texture_command_buffer 0 env.vkAllocateCommandBuffers
  check r "Failed to allocate command buffer for texture"
  result ← vk .vkBeginCommandBuffer [vk_texture_command_buffer] [] env.vkBeginCommandBuffer
  check result "Failed to begin texture command buffer"
  call .vkCmdPipelineBarrier [vk_texture_command_buffer, texture_image]
    [texture_image_memory_barrier1.oldLayout, texture_image_memory_barrier1.newLayout]
  call .vkCmdCopyBufferToImage
    [vk_texture_command_buffer, vk_texture_staging_buffer, texture_image]
    [VK_IMAGE_LAYOUT_TRANSFER_DST_OPTIMAL]
  call .vkCmdPipelineBarrier [vk_texture_command_buffer, texture_image]
    [texture_image_memory_barrier2.oldLayout, texture_image_memory_barrier2.newLayout]
  result ← vk .vkEndCommandBuffer [vk_texture_command_buffer] [] env.vkEndCommandBuffer
  check result "Failed to end texture command buffer"
  -- Submit texture command buffer to graphics queue
  result ← vk .vkQueueSubmit [vk_graphics_queue, vk_texture_command_buffer] []
    env.vkQueueSubmit
  check result "Failed to submit texture command buffer to queue"
  result ← vk .vkQueueWaitIdle [vk_graphics_queue] [] env.vkQueueWaitIdle
  check result "Failed to wait idle for graphics queue"
  -- Can destroy the staging buffer and memory
  call .vkFreeMemory [vk_device, vk_texture_staging_buffer_memory] []
  call .vkDestroyBuffer [vk_device, vk_texture_staging_buffer] []
  -- Create texture image view
  let (r, texture_image_view) ← vkNew .vkCreateImageView [vk_device, texture_image]
    .texture_image_view 0 env.vkCreateImageView_texture
  modifyG fun g => { g with texture_image_view := texture_image_view }
  check r "Failed to create texture image view"
  let (r, texture_sampler) ← vkNew .vkCreateSampler [vk_device] .texture_sampler 0
    env.vkCreateSampler
  modifyG fun g => { g with texture_sampler := texture_sampler }
  check r "Failed to create texture sampler"

/-- Step 9 of `create_basically_everything`: descriptor set layout, descriptor pool,
the descriptor set allocated from the pool, and its two updates. -/
def create_descriptor_part (env : CreateEnv) (vk_device : Handle) : Prog Unit := do
  let (r, descriptor_set_layout) ← vkNew .vkCreateDescriptorSetLayout [vk_device]
    .descriptor_set_layout 0 env.vkCreateDescriptorSetLayout
  modifyG fun g => { g with descriptor_set_layout := descriptor_set_layout }
  check r "Failed to create descriptor set layout"
  let (r, descriptor_pool) ← vkNew .vkCreateDescriptorPool [vk_device]
    .descriptor_pool 0 env.vkCreateDescriptorPool
  modifyG fun g => { g with descriptor_pool := descriptor_pool }
  check r "Failed to create descriptor pool"
  let (r, descriptor_set) ← vkNew .vkAllocateDescriptorSets
    [vk_device, descriptor_pool, descriptor_set_layout] .descriptor_set 0
    env.vkAllocateDescriptorSets
  modifyG fun g => { g with descriptor_set := descriptor_set }
  check r "Failed to allocate descriptor set"
  let w ← getWorld
  call .vkUpdateDescriptorSets [vk_device, descriptor_set, w.g_TempVulkan.uniform_buffer]
    uniform_buffer_write_descriptor_set.data
  call .vkUpdateDescriptorSets
    [vk_device, descriptor_set, w.g_TempVulkan.texture_image_view,
      w.g_TempVulkan.texture_sampler] texture_sampler_write_descriptor_set.data

/-- Steps 10 to 12 of `create_basically_everything`: shader modules, pipeline layout,
graphics pipeline, release of the shader modules, and the two semaphores. -/
def create_pipeline_part (env : CreateEnv) (window vk_device : Handle) : Prog Unit := do
  let vk_vert_shader_module ←
    create_shader_module env.vert_shader vk_device .vk_vert_shader_module
  let vk_frag_shader_module ←
    create_shader_module env.frag_shader vk_device .vk_frag_shader_module
  call .glfwGetFramebufferSize [window] []
  let w ← getWorld
  let (r, pipeline_layout) ← vkNew .vkCreatePipelineLayout
    [vk_device, w.g_TempVulkan.descriptor_set_layout] .pipeline_layout 0
    env.vkCreatePipelineLayout
  modifyG fun g => { g with pipeline_layout := pipeline_layout }
  check r "Failed to create pipeline layout"
  let (r, pipeline) ← vkNew .vkCreateGraphicsPipelines
    [vk_device, vk_vert_shader_module, vk_frag_shader_module, pipeline_layout,
      w.g_TempVulkan.render_pass] .pipeline 0 env.vkCreateGraphicsPipelines
  modifyG fun g => { g with pipeline := pipeline }
  check r "Failed to create graphics pipeline"
  call .vkDestroyShaderModule [vk_device, vk_vert_shader_module] []
  call .vkDestroyShaderModule [vk_device, vk_frag_shader_module] []
  -- Create image available and render finished semaphores
  let (r, image_available_semaphore) ← vkNew .vkCreateSemaphore [vk_device]
    .image_available_semaphore 0 env.vkCreateSemaphore_image_available
  modifyG fun g => { g with image_available_semaphore := image_available_semaphore }
  check r "Failed to create image available semaphore"
  let (r, render_finished_semaphore) ← vkNew .vkCreateSemaphore [vk_device]
    .render_finished_semaphore 0 env.vkCreateSemaphore_render_finished
  modifyG fun g => { g with render_finished_semaphore := render_finished_semaphore }
  check r "Failed to create render finished semaphore"

/-- The function `create_basically_everything`. Its body is one straight sequence; it is
cut here at the comments that open the steps of its header. -/
def create_basically_everything (env : CreateEnv)
    (window vk_physical_device vk_surface vk_device vk_graphics_queue vk_command_pool :
      Handle) : Prog Unit := do
  call .create_basically_everything
    [window, vk_physical_device, vk_surface, vk_device, vk_graphics_queue, vk_command_pool] []
  create_swapchain_part env vk_physical_device vk_surface vk_device
  create_uniform_buffer_part env window vk_physical_device vk_device
  create_texture_part env vk_physical_device vk_device vk_graphics_queue vk_command_pool
  create_descriptor_part env vk_device
  create_pipeline_part env window vk_device

/-- The two range-`for` loops of `destroy_basically_everything`: one destroy call for
every element of the vector, front to back. -/
def destroy_each (fn : Fn) (vk_device : Handle) : List Handle → Prog Unit
  | [] => pure ()
  | h :: rest => do
    call fn [vk_device, h] []
    destroy_each fn vk_device rest

/-- The function `destroy_basically_everything`. -/
def destroy_basically_everything (vk_device : Handle) : Prog Unit := do
  call .destroy_basically_everything [vk_device] []
  let w ← getWorld
  let g := w.g_TempVulkan
  call .vkDestroySampler [vk_device, g.texture_sampler] []
  call .vkDestroyImage [vk_device, g.texture_image] []
  call .vkFreeMemory [vk_device, g.texture_image_memory] []
  call .vkDestroyImageView [vk_device, g.texture_image_view] []
  call .vkDestroyDescriptorPool [vk_device, g.descriptor_pool] []
  call .vkDestroyDescriptorSetLayout [vk_device, g.descriptor_set_layout] []
  call .vkFreeMemory [vk_device, g.uniform_buffer_memory] []
  call .vkDestroyBuffer [vk_device, g.uniform_buffer] []
  call .vkDestroyPipeline [vk_device, g.pipeline] []
  call .vkDestroyPipelineLayout [vk_device, g.pipeline_layout] []
  destroy_each .vkDestroyFramebuffer vk_device g.framebuffers
  call .vkDestroyRenderPass [vk_device, g.render_pass] []
  destroy_each .vkDestroyImageView vk_device g.image_views
  call .vkDestroySwapchainKHR [vk_device, g.swapchain] []
  call .vkDestroySemaphore [vk_device, g.image_available_semaphore] []
  call .vkDestroySemaphore [vk_device, g.render_finished_semaphore] []

/-! ## `main`: initialisation, the render loop, shutdown -/

/-- The handles that `main` keeps in local variables from its initialisation on. -/
structure MainLocals where
  window : Handle
  vk_instance : Handle
  vk_surface : Handle
  vk_physical_device : Handle
  vk_device : Handle
  vk_graphics_queue : Handle
  vk_vertex_buffer : Handle
  vk_vertex_buffer_memory : Handle
  vk_index_buffer : Handle
  vk_index_buffer_memory : Handle
  vk_command_pool : Handle
  vk_command_buffer : Handle
  deriving DecidableEq, Repr

/-- What the outside world answers during one iteration of the render loop; `create`
is read only when the iteration recreates everything. -/
structure FrameEnv where
  vkDeviceWaitIdle : VkResult
  create : CreateEnv
  vkMapMemory : VkResult
  vkAcquireNextImageKHR : VkResult
  next_image_index : Nat
  vkResetCommandBuffer : VkResult
  vkBeginCommandBuffer : VkResult
  vkEndCommandBuffer : VkResult
  vkQueueSubmit : VkResult
  vkQueuePresentKHR : VkResult
  vkQueueWaitIdle : VkResult

/-- What the outside world answers during the initialisation in `main`. -/
structure InitEnv where
  vkCreateInstance : VkResult
  glfwCreateWindowSurface : VkResult
  vkEnumeratePhysicalDevices_count : VkResult
  physical_device_count : Nat
  vkEnumeratePhysicalDevices_data : VkResult
  queue_families : List QueueFamily
  vkGetPhysicalDeviceSurfaceSupportKHR : Nat → VkResult
  vkCreateDevice : VkResult
  mem_props : VkPhysicalDeviceMemoryProperties
  vkCreateBuffer_vertex : VkResult
  memoryTypeBits_vertex : Nat
  vkAllocateMemory_vertex : VkResult
  vkBindBufferMemory_vertex : VkResult
  vkMapMemory_vertex : VkResult
  vkCreateBuffer_index : VkResult
  memoryTypeBits_index : Nat
  vkAllocateMemory_index : VkResult
  vkBindBufferMemory_index : VkResult
  vkMapMemory_index : VkResult
  vkCreateCommandPool : VkResult
  vkAllocateCommandBuffers : VkResult

/-- What the outside world answers during a whole run of `main` that leaves the render
loop: the loop runs one iteration for every element of `frames`, then
`glfwWindowShouldClose` returns true. -/
structure MainEnv where
  init : InitEnv
  create : CreateEnv
  frames : List FrameEnv

/-- `VK_PIPELINE_STAGE_COLOR_ATTACHMENT_OUTPUT_BIT` of `vulkan_core.h`. -/
def VK_PIPELINE_STAGE_COLOR_ATTACHMENT_OUTPUT_BIT : Nat := 0x400

/-- The block `if (recreate_everything) { … }` at the top of the loop body. -/
def recreate_if_requested (env : FrameEnv) (L : MainLocals) : Prog Unit := do
  let w ← getWorld
  if w.recreate_everything then
    let _ ← vk .vkDeviceWaitIdle [L.vk_device] [] env.vkDeviceWaitIdle
    destroy_basically_everything L.vk_device
    create_basically_everything env.create L.window L.vk_physical_device L.vk_surface
      L.vk_device L.vk_graphics_queue L.vk_command_pool
    setRecreate false

/-- The block `// Re-upload quad verts` of the loop body. -/
def reupload_quad_verts (env : FrameEnv) (L : MainLocals) : Prog Unit := do
  call .glfwGetWindowSize [L.window] []
  let result ← vk .vkMapMemory [L.vk_device, L.vk_vertex_buffer_memory] [] env.vkMapMemory
  check result "Failed to map vertex buffer memory"
  call .memcpy [] []
  call .vkUnmapMemory [L.vk_device, L.vk_vertex_buffer_memory] []

/-- The rest of the loop body, from `// Acquire next image` to its end. A `continue` is
the end of the branch it stands in. The call of `vkResetCommandBuffer` does not assign
`result`: the test after it reads the value that `vkAcquireNextImageKHR` left. -/
def acquire_record_submit_present (env : FrameEnv) (L : MainLocals) : Prog Unit := do
  let w ← getWorld
  let g := w.g_TempVulkan
  -- Acquire next image
  let next_image_index := env.next_image_index
  let mut result ← vk .vkAcquireNextImageKHR
    [L.vk_device, g.swapchain, g.image_available_semaphore] [next_image_index]
    env.vkAcquireNextImageKHR
  if result = VK_SUBOPTIMAL_KHR ∨ result = VK_ERROR_OUT_OF_DATE_KHR then
    setRecreate true
  else
    check result "Failed to acquire next image"
    -- Reset and re-record command buffer
    let _ ← vk .vkResetCommandBuffer [L.vk_command_buffer] [] env.vkResetCommandBuffer
    check result "Failed to reset command buffer"
    result ← vk .vkBeginCommandBuffer [L.vk_command_buffer] [] env.vkBeginCommandBuffer
    check result "Failed to begin command buffer"
    -- Doing rendering to a framebuffer -- > need render pass
    let framebuffer ← index g.framebuffers next_image_index
    call .vkCmdBeginRenderPass [L.vk_command_buffer, g.render_pass, framebuffer] []
    call .vkCmdBindDescriptorSets
      [L.vk_command_buffer, g.pipeline_layout, g.descriptor_set] []
    call .vkCmdBindPipeline [L.vk_command_buffer, g.pipeline] []
    call .vkCmdBindVertexBuffers [L.vk_command_buffer, L.vk_vertex_buffer] []
    call .vkCmdBindIndexBuffer [L.vk_command_buffer, L.vk_index_buffer] []
    call .vkCmdDrawIndexed [L.vk_command_buffer] [6]
    call .vkCmdEndRenderPass [L.vk_command_buffer] []
    result ← vk .vkEndCommandBuffer [L.vk_command_buffer] [] env.vkEndCommandBuffer
    check result "Failed to end command buffer"
    -- Submit command buffer
    result ← vk .vkQueueSubmit
      [L.vk_graphics_queue, g.image_available_semaphore, L.vk_command_buffer,
        g.render_finished_semaphore]
      [VK_PIPELINE_STAGE_COLOR_ATTACHMENT_OUTPUT_BIT] env.vkQueueSubmit
    check result "Failed to submit command buffer to queue"
    -- Present
    result ← vk .vkQueuePresentKHR
      [L.vk_graphics_queue, g.render_finished_semaphore, g.swapchain] [next_image_index]
      env.vkQueuePresentKHR
    if result = VK_SUBOPTIMAL_KHR ∨ result = VK_ERROR_OUT_OF_DATE_KHR then
      setRecreate true
    else
      check result "Error when presenting"
      result ← vk .vkQueueWaitIdle [L.vk_graphics_queue] [] env.vkQueueWaitIdle
      check result "Failed to wait idle for graphics queue"

/-- One iteration of `while (!glfwWindowShouldClose(window)) { … }`: the loop body. -/
def render_loop_body (env : FrameEnv) (L : MainLocals) : Prog Unit := do
  call .glfwPollEvents [] []
  recreate_if_requested env L
  reupload_quad_verts env L
  acquire_record_submit_present env L

/-- The render loop: before every iteration the loop test calls
`glfwWindowShouldClose`; it returns false (`data = [0]`) once for every element of the
list and then true (`data = [1]`). -/
def render_loop (L : MainLocals) : List FrameEnv → Prog Unit
  | [] => call .glfwWindowShouldClose [L.window] [1]
  | env :: rest => do
    call .glfwWindowShouldClose [L.window] [0]
    render_loop_body env L
    render_loop L rest

/-- The calls of `vkGetPhysicalDeviceSurfaceSupportKHR` that the queue-family loop
issues, one for every family; the index the loop selects is `find_graphics_queue`. -/
def query_present_support (env : InitEnv) (vk_physical_device vk_surface : Handle) :
    Nat → Nat → Prog Unit
  | 0, _ => pure ()
  | fuel + 1, i => do
    let _ ← vk .vkGetPhysicalDeviceSurfaceSupportKHR [vk_physical_device, vk_surface] [i]
      (env.vkGetPhysicalDeviceSurfaceSupportKHR i)
    query_present_support env vk_physical_device vk_surface fuel (i + 1)

/-- Creation of a vertex or index buffer in `main`: the buffer, its memory, the bind and
the upload. `what` is the word the messages use. -/
def create_host_buffer (mem_props : VkPhysicalDeviceMemoryProperties)
    (vk_physical_device vk_device : Handle) (buffer_site memory_site : Site)
    (what : String) (rCreate : VkResult) (memoryTypeBits : Nat)
    (rAllocate rBind rMap : VkResult) : Prog (Handle × Handle) := do
  let (r, buffer) ← vkNew .vkCreateBuffer [vk_device] buffer_site 0 rCreate
  check r ("Failed to create " ++ what ++ " buffer")
  call .vkGetBufferMemoryRequirements [vk_device, buffer] []
  let _memoryTypeIndex ← run_find_memory_type mem_props vk_physical_device memoryTypeBits
    (VK_MEMORY_PROPERTY_HOST_VISIBLE_BIT ||| VK_MEMORY_PROPERTY_HOST_COHERENT_BIT)
  let (r, memory) ← vkNew .vkAllocateMemory [vk_device] memory_site 0 rAllocate
  check r ("Failed to allocate memory for " ++ what ++ " buffer")
  let mut result ← vk .vkBindBufferMemory [vk_device, buffer, memory] [] rBind
  check result ("Failed to bind memory to " ++ what ++ " buffer")
  result ← vk .vkMapMemory [vk_device, memory] [] rMap
  check result ("Failed to map " ++ what ++ " buffer memory")
  call .memcpy [] []
  call .vkUnmapMemory [vk_device, memory] []
  return (buffer, memory)

/-- The initialisation in `main`, up to the allocation of the main command buffer. -/
def main_init (env : InitEnv) : Prog MainLocals := do
  call .glfwInit [] []
  call .glfwWindowHint [] []
  call .glfwWindowHint [] []
  let window ← callNew .glfwCreateWindow [] [] .window
  call .glfwGetRequiredInstanceExtensions [] []
  -- Vulkan Instance
  let (r, vk_instance) ← vkNew .vkCreateInstance [] .vk_instance 0 env.vkCreateInstance
  check r "Failed to create instance"
  -- Surface
  let (r, vk_surface) ← vkNew .glfwCreateWindowSurface [vk_instance, window] .vk_surface 0
    env.glfwCreateWindowSurface
  check r "Failed to create surface"
  -- Physical device
  let result ← vk .vkEnumeratePhysicalDevices [vk_instance] [env.physical_device_count]
    env.vkEnumeratePhysicalDevices_count
  check result "Failed to enumerate physical devices"
  let (r, physical_devices) ← vkNewArray .vkEnumeratePhysicalDevices [vk_instance]
    .vk_physical_device env.physical_device_count env.vkEnumeratePhysicalDevices_data
  check r "Failed to enumerate physical devices 2"
  let vk_physical_device ← index physical_devices 0
  -- Find graphics queue
  call .vkGetPhysicalDeviceQueueFamilyProperties [vk_physical_device] []
  call .vkGetPhysicalDeviceQueueFamilyProperties [vk_physical_device] []
  query_present_support env vk_physical_device vk_surface env.queue_families.length 0
  let vk_graphics_queue_family_index := find_graphics_queue env.queue_families
  -- Logical device
  let (r, vk_device) ← vkNew .vkCreateDevice [vk_physical_device] .vk_device 0
    env.vkCreateDevice
  check r "Failed to create logical device"
  let vk_graphics_queue ← callNew .vkGetDeviceQueue [vk_device]
    [vk_graphics_queue_family_index, 0] .vk_graphics_queue
  -- Vertex buffer
  call .glfwGetWindowSize [window] []
  let (vk_vertex_buffer, vk_vertex_buffer_memory) ← create_host_buffer env.mem_props
    vk_physical_device vk_device .vk_vertex_buffer .vk_vertex_buffer_memory "vertex"
    env.vkCreateBuffer_vertex env.memoryTypeBits_vertex env.vkAllocateMemory_vertex
    env.vkBindBufferMemory_vertex env.vkMapMemory_vertex
  -- Index buffer
  let (vk_index_buffer, vk_index_buffer_memory) ← create_host_buffer env.mem_props
    vk_physical_device vk_device .vk_index_buffer .vk_index_buffer_memory "index"
    env.vkCreateBuffer_index env.memoryTypeBits_index env.vkAllocateMemory_index
    env.vkBindBufferMemory_index env.vkMapMemory_index
  -- Command pool
  let (r, vk_command_pool) ← vkNew .vkCreateCommandPool [vk_device] .vk_command_pool 0
    env.vkCreateCommandPool
  check r "Failed to create command pool"
  -- Command buffer
  let (r, vk_command_buffer) ← vkNew .vkAllocateCommandBuffers [vk_device, vk_command_pool]
    .vk_command_buffer 0 env.vkAllocateCommandBuffers
  check r "Failed to allocate command buffers"
  return { window, vk_instance, vk_surface, vk_physical_device, vk_device,
           vk_graphics_queue, vk_vertex_buffer, vk_vertex_buffer_memory, vk_index_buffer,
           vk_index_buffer_memory, vk_command_pool, vk_command_buffer }

/-- The calls of `main` after the render loop. -/
def main_shutdown (L : MainLocals) : Prog Unit := do
  call .vkDestroyCommandPool [L.vk_device, L.vk_command_pool] []
  call .vkFreeMemory [L.vk_device, L.vk_index_buffer_memory] []
  call .vkDestroyBuffer [L.vk_device, L.vk_index_buffer] []
  call .vkFreeMemory [L.vk_device, L.vk_vertex_buffer_memory] []
  call .vkDestroyBuffer [L.vk_device, L.vk_vertex_buffer] []
  destroy_basically_everything L.vk_device
  call .vkDestroyDevice [L.vk_device] []
  call .vkDestroySurfaceKHR [L.vk_instance, L.vk_surface] []
  call .vkDestroyInstance [L.vk_instance] []
  call .glfwDestroyWindow [L.window] []
  call .glfwTerminate [] []

/-- The function `main`. -/
def main (env : MainEnv) : Prog Unit := do
  let L ← main_init env.init
  create_basically_everything env.create L.window L.vk_physical_device L.vk_surface
    L.vk_device L.vk_graphics_queue L.vk_command_pool
  setRecreate false
  render_loop L env.frames
  main_shutdown L

/-! ## Running pieces: helpers for stating what a run returns -/

/-- Put a trace in front of a result. -/
def Result.prepend {α : Type} (t : List Event) (r : Result α) : Result α :=
  ⟨t ++ r.trace, r.out⟩

/-- Continue a result with the next piece of the program. -/
def Result.andThen {α β : Type} (r : Result α) (f : α → Prog β) : Result β :=
  match r.out with
  | .ok (a, w1) => Result.prepend r.trace (f a w1)
  | .error e => ⟨r.trace, .error e⟩

/-- Every call that a piece issues, in whatever state it starts, is to a function
in `Q`. -/
def AllFn {α : Type} (Q : Fn → Prop) (m : Prog α) : Prop :=
  ∀ w, ∀ e ∈ (m w).trace, Q e.fn

/-- The call of `fn` in trace `t` returned `r`. -/
def Returned (t : List Event) (fn : Fn) (r : VkResult) : Prop :=
  ∃ e ∈ t, e.fn = fn ∧ e.result = some r

/-! ## The trace of a call of `create_basically_everything` that returns

The calls that `create_basically_everything` issues when nothing stops it, written
out: `n` is the serial number of the first handle it is handed. -/

/-- The calls of `create_swapchain_part` when it returns. -/
def create_swapchain_part_trace (env : CreateEnv)
    (vk_physical_device vk_surface vk_device : Handle) (n : Nat) : List Event :=
  let swapchain : Handle := ⟨.swapchain, 0, n⟩
  let image0 : Handle := ⟨.vk_swapchain_images, 0, n + 1⟩
  let image1 : Handle := ⟨.vk_swapchain_images, 1, n + 2⟩
  let view0 : Handle := ⟨.image_views, 0, n + 3⟩
  let view1 : Handle := ⟨.image_views, 1, n + 4⟩
  let render_pass : Handle := ⟨.render_pass, 0, n + 5⟩
  [ ⟨.vkGetPhysicalDeviceSurfaceCapabilitiesKHR, [vk_physical_device, vk_surface], [], [],
      some VK_SUCCESS⟩,
    ⟨.vkGetPhysicalDeviceSurfaceFormatsKHR, [vk_physical_device, vk_surface], [], [],
      some VK_SUCCESS⟩,
    ⟨.vkGetPhysicalDeviceSurfaceFormatsKHR, [vk_physical_device, vk_surface], [], [],
      some VK_SUCCESS⟩,
    ⟨.vkCreateSwapchainKHR, [vk_device, vk_surface], [swapchain], [], some VK_SUCCESS⟩,
    ⟨.vkGetSwapchainImagesKHR, [vk_device, swapchain], [], [env.image_count_queried],
      some VK_SUCCESS⟩,
    ⟨.vkGetSwapchainImagesKHR, [vk_device, swapchain], [image0, image1], [2],
      some VK_SUCCESS⟩,
    ⟨.vkCreateImageView, [vk_device, image0], [view0], [], some VK_SUCCESS⟩,
    ⟨.vkCreateImageView, [vk_device, image1], [view1], [], some VK_SUCCESS⟩,
    ⟨.vkCreateRenderPass, [vk_device], [render_pass], [], some VK_SUCCESS⟩,
    ⟨.vkCreateFramebuffer, [vk_device, render_pass, view0], [⟨.framebuffers, 0, n + 6⟩], [],
      some VK_SUCCESS⟩,
    ⟨.vkCreateFramebuffer, [vk_device, render_pass, view1], [⟨.framebuffers, 1, n + 7⟩], [],
      some VK_SUCCESS⟩ ]

/-- The state that `create_swapchain_part` leaves when it returns. -/
def create_swapchain_part_world (env : CreateEnv) (w : World) : World :=
  { w with
    g_TempVulkan :=
      { w.g_TempVulkan with
        swapchain_extent := env.currentExtent
        swapchain := ⟨.swapchain, 0, w.next⟩
        image_views := [⟨.image_views, 0, w.next + 3⟩, ⟨.image_views, 1, w.next + 4⟩]
        render_pass := ⟨.render_pass, 0, w.next + 5⟩
        framebuffers := [⟨.framebuffers, 0, w.next + 6⟩, ⟨.framebuffers, 1, w.next + 7⟩] }
    next := w.next + 8 }

/-- The two calls of a call of `find_memory_type`. -/
def find_memory_type_trace (physical_device : Handle) (type_filter props : Nat) :
    List Event :=
  [ ⟨.find_memory_type, [physical_device], [], [type_filter, props], none⟩,
    ⟨.vkGetPhysicalDeviceMemoryProperties, [physical_device], [], [], none⟩ ]

/-- The calls of `create_uniform_buffer_part` when it returns. -/
def create_uniform_buffer_part_trace (env : CreateEnv)
    (window vk_physical_device vk_device : Handle) (n : Nat) : List Event :=
  let uniform_buffer : Handle := ⟨.uniform_buffer, 0, n⟩
  let uniform_buffer_memory : Handle := ⟨.uniform_buffer_memory, 0, n + 1⟩
  [ ⟨.glfwGetWindowSize, [window], [], [], none⟩,
    ⟨.vkCreateBuffer, [vk_device], [uniform_buffer], [], some VK_SUCCESS⟩,
    ⟨.vkGetBufferMemoryRequirements, [vk_device, uniform_buffer], [], [], none⟩ ] ++
  find_memory_type_trace vk_physical_device env.memoryTypeBits_uniform
    (VK_MEMORY_PROPERTY_HOST_VISIBLE_BIT ||| VK_MEMORY_PROPERTY_HOST_COHERENT_BIT) ++
  [ ⟨.vkAllocateMemory, [vk_device], [uniform_buffer_memory], [], some VK_SUCCESS⟩,
    ⟨.vkBindBufferMemory, [vk_device, uniform_buffer, uniform_buffer_memory], [], [],
      some VK_SUCCESS⟩,
    ⟨.vkMapMemory, [vk_device, uniform_buffer_memory], [], [], some VK_SUCCESS⟩,
    ⟨.memcpy, [], [], [], none⟩,
    ⟨.vkUnmapMemory, [vk_device, uniform_buffer_memory], [], [], none⟩ ]

/-- The state that `create_uniform_buffer_part` leaves when it returns. -/
def create_uniform_buffer_part_world (w : World) : World :=
  { w with
    g_TempVulkan :=
      { w.g_TempVulkan with
        uniform_buffer := ⟨.uniform_buffer, 0, w.next⟩
        uniform_buffer_memory := ⟨.uniform_buffer_memory, 0, w.next + 1⟩ }
    next := w.next + 2 }

/-- The calls of `create_texture_part` when it returns. -/
def create_texture_part_trace (env : CreateEnv)
    (vk_physical_device vk_device vk_graphics_queue vk_command_pool : Handle) (n : Nat) :
    List Event :=
  let staging : Handle := ⟨.vk_texture_staging_buffer, 0, n⟩
  let staging_memory : Handle := ⟨.vk_texture_staging_buffer_memory, 0, n + 1⟩
  let texture_image : Handle := ⟨.texture_image, 0, n + 2⟩
  let texture_image_memory : Handle := ⟨.texture_image_memory, 0, n + 3⟩
  let command_buffer : Handle := ⟨.vk_texture_command_buffer, 0, n + 4⟩
  [ ⟨.stbi_set_flip_vertically_on_load, [], [], [], none⟩,
    ⟨.stbi_load, [], [], [], none⟩,
    ⟨.vkCreateBuffer, [vk_device], [staging], [], some VK_SUCCESS⟩,
    ⟨.vkGetBufferMemoryRequirements, [vk_device, staging], [], [], none⟩ ] ++
  find_memory_type_trace vk_physical_device env.memoryTypeBits_staging
    (VK_MEMORY_PROPERTY_HOST_VISIBLE_BIT ||| VK_MEMORY_PROPERTY_HOST_COHERENT_BIT) ++
  [ ⟨.vkAllocateMemory, [vk_device], [staging_memory], [], some VK_SUCCESS⟩,
    ⟨.vkBindBufferMemory, [vk_device, staging, staging_memory], [], [], some VK_SUCCESS⟩,
    ⟨.vkMapMemory, [vk_device, staging_memory], [], [image_size env.tex_w env.tex_h],
      some VK_SUCCESS⟩,
    ⟨.memcpy, [], [], [image_size env.tex_w env.tex_h], none⟩,
    ⟨.vkUnmapMemory, [vk_device, staging_memory], [], [], none⟩,
    ⟨.free, [], [], [], none⟩,
    ⟨.vkCreateImage, [vk_device], [texture_image], [], some VK_SUCCESS⟩,
    ⟨.vkGetImageMemoryRequirements, [vk_device, texture_image], [], [], none⟩ ] ++
  find_memory_type_trace vk_physical_device env.memoryTypeBits_texture
    VK_MEMORY_PROPERTY_DEVICE_LOCAL_BIT ++
  [ ⟨.vkAllocateMemory, [vk_device], [texture_image_memory], [], some VK_SUCCESS⟩,
    ⟨.vkBindImageMemory, [vk_device, texture_image, texture_image_memory], [], [],
      some VK_SUCCESS⟩,
    ⟨.vkAllocateCommandBuffers, [vk_device, vk_command_pool], [command_buffer], [],
      some VK_SUCCESS⟩,
    ⟨.vkBeginCommandBuffer, [command_buffer], [], [], some VK_SUCCESS⟩,
    ⟨.vkCmdPipelineBarrier, [command_buffer, texture_image], [],
      [texture_image_memory_barrier1.oldLayout, texture_image_memory_barrier1.newLayout],
      none⟩,
    ⟨.vkCmdCopyBufferToImage, [command_buffer, staging, texture_image], [],
      [VK_IMAGE_LAYOUT_TRANSFER_DST_OPTIMAL], none⟩,
    ⟨.vkCmdPipelineBarrier, [command_buffer, texture_image], [],
      [texture_image_memory_barrier2.oldLayout, texture_image_memory_barrier2.newLayout],
      none⟩,
    ⟨.vkEndCommandBuffer, [command_buffer], [], [], some VK_SUCCESS⟩,
    ⟨.vkQueueSubmit, [vk_graphics_queue, command_buffer], [], [], some VK_SUCCESS⟩,
    ⟨.vkQueueWaitIdle, [vk_graphics_queue], [], [], some VK_SUCCESS⟩,
    ⟨.vkFreeMemory, [vk_device, staging_memory], [], [], none⟩,
    ⟨.vkDestroyBuffer, [vk_device, staging], [], [], none⟩,
    ⟨.vkCreateImageView, [vk_device, texture_image], [⟨.texture_image_view, 0, n + 5⟩], [],
      some VK_SUCCESS⟩,
    ⟨.vkCreateSampler, [vk_device], [⟨.texture_sampler, 0, n + 6⟩], [], some VK_SUCCESS⟩ ]

/-- The state that `create_texture_part` leaves when it returns. -/
def create_texture_part_world (w : World) : World :=
  { w with
    g_TempVulkan :=
      { w.g_TempVulkan with
        texture_image := ⟨.texture_image, 0, w.next + 2⟩
        texture_image_memory := ⟨.texture_image_memory, 0, w.next + 3⟩
        texture_image_view := ⟨.texture_image_view, 0, w.next + 5⟩
        texture_sampler := ⟨.texture_sampler, 0, w.next + 6⟩ }
    next := w.next + 7 }

/-- The calls of `create_descriptor_part` when it returns, started in a state whose
`g_TempVulkan` is `g`. -/
def create_descriptor_part_trace (vk_device : Handle) (g : VulkanBasicallyEverything)
    (n : Nat) : List Event :=
  let layout : Handle := ⟨.descriptor_set_layout, 0, n⟩
  let pool : Handle := ⟨.descriptor_pool, 0, n + 1⟩
  let set : Handle := ⟨.descriptor_set, 0, n + 2⟩
  [ ⟨.vkCreateDescriptorSetLayout, [vk_device], [layout], [], some VK_SUCCESS⟩,
    ⟨.vkCreateDescriptorPool, [vk_device], [pool], [], some VK_SUCCESS⟩,
    ⟨.vkAllocateDescriptorSets, [vk_device, pool, layout], [set], [], some VK_SUCCESS⟩,
    ⟨.vkUpdateDescriptorSets, [vk_device, set, g.uniform_buffer], [],
      uniform_buffer_write_descriptor_set.data, none⟩,
    ⟨.vkUpdateDescriptorSets, [vk_device, set, g.texture_image_view, g.texture_sampler], [],
      texture_sampler_write_descriptor_set.data, none⟩ ]

/-- The state that `create_descriptor_part` leaves when it returns. -/
def create_descriptor_part_world (w : World) : World :=
  { w with
    g_TempVulkan :=
      { w.g_TempVulkan with
        descriptor_set_layout := ⟨.descriptor_set_layout, 0, w.next⟩
        descriptor_pool := ⟨.descriptor_pool, 0, w.next + 1⟩
        descriptor_set := ⟨.descriptor_set, 0, w.next + 2⟩ }
    next := w.next + 3 }

/-- The calls of a call of `create_shader_module` that returns. -/
def create_shader_module_trace (device module : Handle) : List Event :=
  [ ⟨.create_shader_module, [device], [], [], none⟩,
    ⟨.fopen, [], [], [], none⟩,
    ⟨.malloc, [], [], [], none⟩,
    ⟨.fread, [], [], [], none⟩,
    ⟨.fclose, [], [], [], none⟩,
    ⟨.vkCreateShaderModule, [device], [module], [], some VK_SUCCESS⟩,
    ⟨.free, [], [], [], none⟩ ]

/-- The calls of `create_pipeline_part` when it returns, started in a state whose
`g_TempVulkan` is `g`. -/
def create_pipeline_part_trace (window vk_device : Handle) (g : VulkanBasicallyEverything)
    (n : Nat) : List Event :=
  let vert : Handle := ⟨.vk_vert_shader_module, 0, n⟩
  let frag : Handle := ⟨.vk_frag_shader_module, 0, n + 1⟩
  let pipeline_layout : Handle := ⟨.pipeline_layout, 0, n + 2⟩
  create_shader_module_trace vk_device vert ++
  create_shader_module_trace vk_device frag ++
  [ ⟨.glfwGetFramebufferSize, [window], [], [], none⟩,
    ⟨.vkCreatePipelineLayout, [vk_device, g.descriptor_set_layout], [pipeline_layout], [],
      some VK_SUCCESS⟩,
    ⟨.vkCreateGraphicsPipelines, [vk_device, vert, frag, pipeline_layout, g.render_pass],
      [⟨.pipeline, 0, n + 3⟩], [], some VK_SUCCESS⟩,
    ⟨.vkDestroyShaderModule, [vk_device, vert], [], [], none⟩,
    ⟨.vkDestroyShaderModule, [vk_device, frag], [], [], none⟩,
    ⟨.vkCreateSemaphore, [vk_device], [⟨.image_available_semaphore, 0, n + 4⟩], [],
      some VK_SUCCESS⟩,
    ⟨.vkCreateSemaphore, [vk_device], [⟨.render_finished_semaphore, 0, n + 5⟩], [],
      some VK_SUCCESS⟩ ]

/-- The state that `create_pipeline_part` leaves when it returns. -/
def create_pipeline_part_world (w : World) : World :=
  { w with
    g_TempVulkan :=
      { w.g_TempVulkan with
        pipeline_layout := ⟨.pipeline_layout, 0, w.next + 2⟩
        pipeline := ⟨.pipeline, 0, w.next + 3⟩
        image_available_semaphore := ⟨.image_available_semaphore, 0, w.next + 4⟩
        render_finished_semaphore := ⟨.render_finished_semaphore, 0, w.next + 5⟩ }
    next := w.next + 6 }

/-- The state that `create_basically_everything` leaves when it returns. -/
def create_world (env : CreateEnv) (w : World) : World :=
  create_pipeline_part_world (create_descriptor_part_world (create_texture_part_world
    (create_uniform_buffer_part_world (create_swapchain_part_world env w))))

/-- The calls of `create_basically_everything` when it returns, started in state `w`. -/
def create_trace (env : CreateEnv)
    (window vk_physical_device vk_surface vk_device vk_graphics_queue vk_command_pool :
      Handle) (w : World) : List Event :=
  let w1 := create_swapchain_part_world env w
  let w2 := create_uniform_buffer_part_world w1
  let w3 := create_texture_part_world w2
  let w4 := create_descriptor_part_world w3
  ⟨.create_basically_everything,
    [window, vk_physical_device, vk_surface, vk_device, vk_graphics_queue, vk_command_pool],
    [], [], none⟩ ::
  (create_swapchain_part_trace env vk_physical_device vk_surface vk_device w.next ++
   create_uniform_buffer_part_trace env window vk_physical_device vk_device w1.next ++
   create_texture_part_trace env vk_physical_device vk_device vk_graphics_queue
     vk_command_pool w2.next ++
   create_descriptor_part_trace vk_device w3.g_TempVulkan w3.next ++
   create_pipeline_part_trace window vk_device w4.g_TempVulkan w4.next)

/-- The calls of `destroy_basically_everything`, started in a state whose `g_TempVulkan`
is `g`. -/
def destroy_trace (vk_device : Handle) (g : VulkanBasicallyEverything) : List Event :=
  [ ⟨.destroy_basically_everything, [vk_device], [], [], none⟩,
    ⟨.vkDestroySampler, [vk_device, g.texture_sampler], [], [], none⟩,
    ⟨.vkDestroyImage, [vk_device, g.texture_image], [], [], none⟩,
    ⟨.vkFreeMemory, [vk_device, g.texture_image_memory], [], [], none⟩,
    ⟨.vkDestroyImageView, [vk_device, g.texture_image_view], [], [], none⟩,
    ⟨.vkDestroyDescriptorPool, [vk_device, g.descriptor_pool], [], [], none⟩,
    ⟨.vkDestroyDescriptorSetLayout, [vk_device, g.descriptor_set_layout], [], [], none⟩,
    ⟨.vkFreeMemory, [vk_device, g.uniform_buffer_memory], [], [], none⟩,
    ⟨.vkDestroyBuffer, [vk_device, g.uniform_buffer], [], [], none⟩,
    ⟨.vkDestroyPipeline, [vk_device, g.pipeline], [], [], none⟩,
    ⟨.vkDestroyPipelineLayout, [vk_device, g.pipeline_layout], [], [], none⟩ ] ++
  g.framebuffers.map (fun h => ⟨.vkDestroyFramebuffer, [vk_device, h], [], [], none⟩) ++
  [ ⟨.vkDestroyRenderPass, [vk_device, g.render_pass], [], [], none⟩ ] ++
  g.image_views.map (fun h => ⟨.vkDestroyImageView, [vk_device, h], [], [], none⟩) ++
  [ ⟨.vkDestroySwapchainKHR, [vk_device, g.swapchain], [], [], none⟩,
    ⟨.vkDestroySemaphore, [vk_device, g.image_available_semaphore], [], [], none⟩,
    ⟨.vkDestroySemaphore, [vk_device, g.render_finished_semaphore], [], [], none⟩ ]

/-! ## Which objects a trace creates and releases -/

/-- The functions that create or allocate the object whose handle they write. -/
def Fn.creates : Fn → Bool
  | .glfwCreateWindow | .vkCreateInstance | .glfwCreateWindowSurface | .vkCreateDevice
  | .vkCreateBuffer | .vkAllocateMemory | .vkCreateCommandPool | .vkAllocateCommandBuffers
  | .vkCreateSwapchainKHR | .vkCreateImageView | .vkCreateRenderPass | .vkCreateFramebuffer
  | .vkCreateImage | .vkCreateSampler | .vkCreateDescriptorSetLayout
  | .vkCreateDescriptorPool | .vkAllocateDescriptorSets | .vkCreateShaderModule
  | .vkCreatePipelineLayout | .vkCreateGraphicsPipelines | .vkCreateSemaphore => true
  | _ => false

/-- The objects that a call created. -/
def Event.created (e : Event) : List Handle :=
  if e.fn.creates then e.out else []

/-- The object that a destroy or free call names: the second argument of the calls that
take the device (or the instance) first, the first argument of the others. -/
def Event.destroyed (e : Event) : List Handle :=
  match e.fn with
  | .vkFreeMemory | .vkDestroyBuffer | .vkDestroyShaderModule | .vkDestroySampler
  | .vkDestroyImage | .vkDestroyImageView | .vkDestroyDescriptorPool
  | .vkDestroyDescriptorSetLayout | .vkDestroyPipeline | .vkDestroyPipelineLayout
  | .vkDestroyFramebuffer | .vkDestroyRenderPass | .vkDestroySwapchainKHR
  | .vkDestroySemaphore | .vkDestroyCommandPool | .vkDestroySurfaceKHR =>
    (e.args.drop 1).take 1
  | .vkDestroyDevice | .vkDestroyInstance | .glfwDestroyWindow => e.args.take 1
  | _ => []

/-- The objects that the calls of `fn` in `history` allocated from `pool`
(`fn` is `vkAllocateDescriptorSets` or `vkAllocateCommandBuffers`; the pool is their
second handle). -/
def allocatedFrom (fn : Fn) (history : List Event) (pool : Handle) : List Handle :=
  match history with
  | [] => []
  | e :: rest =>
    (if e.fn = fn ∧ (e.args.drop 1).take 1 = [pool] then e.out else []) ++
      allocatedFrom fn rest pool

/-- The objects that a call releases, after the calls of `history`. This is the rule of
the Vulkan API: a destroy or free call releases the object it names, and destroying a
descriptor pool or a command pool also frees the sets or command buffers that were
allocated from it. -/
def Event.released (history : List Event) (e : Event) : List Handle :=
  e.destroyed ++
    (if e.fn = .vkDestroyDescriptorPool then
      match e.destroyed with
      | [pool] => allocatedFrom .vkAllocateDescriptorSets history pool
      | _ => []
    else if e.fn = .vkDestroyCommandPool then
      match e.destroyed with
      | [pool] => allocatedFrom .vkAllocateCommandBuffers history pool
      | _ => []
    else [])

/-- The objects that the calls of a trace created, in order. -/
def created : List Event → List Handle
  | [] => []
  | e :: rest => e.created ++ created rest

/-- The objects that the calls of a trace named in a destroy or free call, in order. -/
def destroyed : List Event → List Handle
  | [] => []
  | e :: rest => e.destroyed ++ destroyed rest

/-- The objects that the calls of a trace released, after the calls of `history`. -/
def released (history : List Event) : List Event → List Handle
  | [] => []
  | e :: rest => e.released history ++ released history rest

/-! ## Sample inputs -/

/-- A `create_shader_module` in which everything works. -/
def ShaderEnv.success : ShaderEnv :=
  { file_opened := true, buffer_allocated := true, vkCreateShaderModule := VK_SUCCESS }

/-- A `create_basically_everything` in which every call succeeds: the surface has the
expected format, the swapchain has two images, memory type 0 is device local and memory
type 1 is host visible and coherent, and the texture is 4 by 4 pixels. -/
def CreateEnv.success : CreateEnv :=
  { vkGetPhysicalDeviceSurfaceCapabilitiesKHR := VK_SUCCESS
    currentExtent := (1000, 900)
    vkGetPhysicalDeviceSurfaceFormatsKHR_count := VK_SUCCESS
    vkGetPhysicalDeviceSurfaceFormatsKHR_data := VK_SUCCESS
    formats := [⟨VK_FORMAT_B8G8R8A8_UNORM, VK_COLOR_SPACE_SRGB_NONLINEAR_KHR⟩]
    vkCreateSwapchainKHR := VK_SUCCESS
    vkGetSwapchainImagesKHR_count := VK_SUCCESS
    image_count_queried := 2
    vkGetSwapchainImagesKHR_data := VK_SUCCESS
    image_count_written := 2
    vkCreateImageView := fun _ => VK_SUCCESS
    vkCreateRenderPass := VK_SUCCESS
    vkCreateFramebuffer := fun _ => VK_SUCCESS
    mem_props := ⟨2, [1, 6]⟩
    vkCreateBuffer_uniform := VK_SUCCESS
    memoryTypeBits_uniform := 3
    vkAllocateMemory_uniform := VK_SUCCESS
    vkBindBufferMemory_uniform := VK_SUCCESS
    vkMapMemory_uniform := VK_SUCCESS
    tex_w := 4
    tex_h := 4
    vkCreateBuffer_staging := VK_SUCCESS
    memoryTypeBits_staging := 3
    vkAllocateMemory_staging := VK_SUCCESS
    vkBindBufferMemory_staging := VK_SUCCESS
    vkMapMemory_staging := VK_SUCCESS
    vkCreateImage := VK_SUCCESS
    memoryTypeBits_texture := 3
    vkAllocateMemory_texture := VK_SUCCESS
    vkBindImageMemory := VK_SUCCESS
    vkAllocateCommandBuffers := VK_SUCCESS
    vkBeginCommandBuffer := VK_SUCCESS
    vkEndCommandBuffer := VK_SUCCESS
    vkQueueSubmit := VK_SUCCESS
    vkQueueWaitIdle := VK_SUCCESS
    vkCreateImageView_texture := VK_SUCCESS
    vkCreateSampler := VK_SUCCESS
    vkCreateDescriptorSetLayout := VK_SUCCESS
    vkCreateDescriptorPool := VK_SUCCESS
    vkAllocateDescriptorSets := VK_SUCCESS
    vert_shader := ShaderEnv.success
    frag_shader := ShaderEnv.success
    vkCreatePipelineLayout := VK_SUCCESS
    vkCreateGraphicsPipelines := VK_SUCCESS
    vkCreateSemaphore_image_available := VK_SUCCESS
    vkCreateSemaphore_render_finished := VK_SUCCESS }

/-- An iteration of the render loop in which every call succeeds and image 1 is
acquired. -/
def FrameEnv.success : FrameEnv :=
  { vkDeviceWaitIdle := VK_SUCCESS
    create := CreateEnv.success
    vkMapMemory := VK_SUCCESS
    vkAcquireNextImageKHR := VK_SUCCESS
    next_image_index := 1
    vkResetCommandBuffer := VK_SUCCESS
    vkBeginCommandBuffer := VK_SUCCESS
    vkEndCommandBuffer := VK_SUCCESS
    vkQueueSubmit := VK_SUCCESS
    vkQueuePresentKHR := VK_SUCCESS
    vkQueueWaitIdle := VK_SUCCESS }

/-- An initialisation in which every call succeeds: one physical device with one queue
family that has the graphics bit and present support. -/
def InitEnv.success : InitEnv :=
  { vkCreateInstance := VK_SUCCESS
    glfwCreateWindowSurface := VK_SUCCESS
    vkEnumeratePhysicalDevices_count := VK_SUCCESS
    physical_device_count := 1
    vkEnumeratePhysicalDevices_data := VK_SUCCESS
    queue_families := [⟨1, 1⟩]
    vkGetPhysicalDeviceSurfaceSupportKHR := fun _ => VK_SUCCESS
    vkCreateDevice := VK_SUCCESS
    mem_props := ⟨2, [1, 6]⟩
    vkCreateBuffer_vertex := VK_SUCCESS
    memoryTypeBits_vertex := 3
    vkAllocateMemory_vertex := VK_SUCCESS
    vkBindBufferMemory_vertex := VK_SUCCESS
    vkMapMemory_vertex := VK_SUCCESS
    vkCreateBuffer_index := VK_SUCCESS
    memoryTypeBits_index := 3
    vkAllocateMemory_index := VK_SUCCESS
    vkBindBufferMemory_index := VK_SUCCESS
    vkMapMemory_index := VK_SUCCESS
    vkCreateCommandPool := VK_SUCCESS
    vkAllocateCommandBuffers := VK_SUCCESS }

/-- The locals of `main` after `InitEnv.success`. -/
def MainLocals.sample : MainLocals :=
  { window := ⟨.window, 0, 1⟩
    vk_instance := ⟨.vk_instance, 0, 2⟩
    vk_surface := ⟨.vk_surface, 0, 3⟩
    vk_physical_device := ⟨.vk_physical_device, 0, 4⟩
    vk_device := ⟨.vk_device, 0, 5⟩
    vk_graphics_queue := ⟨.vk_graphics_queue, 0, 6⟩
    vk_vertex_buffer := ⟨.vk_vertex_buffer, 0, 7⟩
    vk_vertex_buffer_memory := ⟨.vk_vertex_buffer_memory, 0, 8⟩
    vk_index_buffer := ⟨.vk_index_buffer, 0, 9⟩
    vk_index_buffer_memory := ⟨.vk_index_buffer_memory, 0, 10⟩
    vk_command_pool := ⟨.vk_command_pool, 0, 11⟩
    vk_command_buffer := ⟨.vk_command_buffer, 0, 12⟩ }

/-- A state of the render loop: the one that `main` is in after `InitEnv.success` and a
first `create_basically_everything` with `CreateEnv.success`. -/
def World.sample : World :=
  create_world CreateEnv.success { World.initial with next := 13 }

/-- The objects that a call of `create_basically_everything` that returns has created,
in order; `n` is the serial number of the first handle it was handed. -/
def create_created (n : Nat) : List Handle :=
  [ ⟨.swapchain, 0, n⟩, ⟨.image_views, 0, n + 3⟩, ⟨.image_views, 1, n + 4⟩,
    ⟨.render_pass, 0, n + 5⟩, ⟨.framebuffers, 0, n + 6⟩, ⟨.framebuffers, 1, n + 7⟩,
    ⟨.uniform_buffer, 0, n + 8⟩, ⟨.uniform_buffer_memory, 0, n + 9⟩,
    ⟨.vk_texture_staging_buffer, 0, n + 10⟩, ⟨.vk_texture_staging_buffer_memory, 0, n + 11⟩,
    ⟨.texture_image, 0, n + 12⟩, ⟨.texture_image_memory, 0, n + 13⟩,
    ⟨.vk_texture_command_buffer, 0, n + 14⟩, ⟨.texture_image_view, 0, n + 15⟩,
    ⟨.texture_sampler, 0, n + 16⟩, ⟨.descriptor_set_layout, 0, n + 17⟩,
    ⟨.descriptor_pool, 0, n + 18⟩, ⟨.descriptor_set, 0, n + 19⟩,
    ⟨.vk_vert_shader_module, 0, n + 20⟩, ⟨.vk_frag_shader_module, 0, n + 21⟩,
    ⟨.pipeline_layout, 0, n + 22⟩, ⟨.pipeline, 0, n + 23⟩,
    ⟨.image_available_semaphore, 0, n + 24⟩, ⟨.render_finished_semaphore, 0, n + 25⟩ ]

/-- The objects that a call of `create_basically_everything` that returns has itself
released before returning. -/
def create_released (n : Nat) : List Handle :=
  [ ⟨.vk_texture_staging_buffer_memory, 0, n + 11⟩, ⟨.vk_texture_staging_buffer, 0, n + 10⟩,
    ⟨.vk_vert_shader_module, 0, n + 20⟩, ⟨.vk_frag_shader_module, 0, n + 21⟩ ]

/-- The objects that `destroy_basically_everything` releases when it runs on what a call
of `create_basically_everything` left; the descriptor set goes with its pool. -/
def destroy_released (n : Nat) : List Handle :=
  [ ⟨.texture_sampler, 0, n + 16⟩, ⟨.texture_image, 0, n + 12⟩,
    ⟨.texture_image_memory, 0, n + 13⟩, ⟨.texture_image_view, 0, n + 15⟩,
    ⟨.descriptor_pool, 0, n + 18⟩, ⟨.descriptor_set, 0, n + 19⟩,
    ⟨.descriptor_set_layout, 0, n + 17⟩, ⟨.uniform_buffer_memory, 0, n + 9⟩,
    ⟨.uniform_buffer, 0, n + 8⟩, ⟨.pipeline, 0, n + 23⟩, ⟨.pipeline_layout, 0, n + 22⟩,
    ⟨.framebuffers, 0, n + 6⟩, ⟨.framebuffers, 1, n + 7⟩, ⟨.render_pass, 0, n + 5⟩,
    ⟨.image_views, 0, n + 3⟩, ⟨.image_views, 1, n + 4⟩, ⟨.swapchain, 0, n⟩,
    ⟨.image_available_semaphore, 0, n + 24⟩, ⟨.render_finished_semaphore, 0, n + 25⟩ ]

/-! ## The calls of one iteration of the render loop, from the acquire on -/

/-- The calls of `acquire_record_submit_present` when nothing stops it, started in a
state whose `g_TempVulkan` is `g`, with the results that the driver gave. An iteration
that stops early issues an initial part of this list. -/
def frame_trace (env : FrameEnv) (L : MainLocals) (g : VulkanBasicallyEverything) :
    List Event :=
  [ ⟨.vkAcquireNextImageKHR, [L.vk_device, g.swapchain, g.image_available_semaphore], [],
      [env.next_image_index], some env.vkAcquireNextImageKHR⟩,
    ⟨.vkResetCommandBuffer, [L.vk_command_buffer], [], [], some env.vkResetCommandBuffer⟩,
    ⟨.vkBeginCommandBuffer, [L.vk_command_buffer], [], [], some env.vkBeginCommandBuffer⟩,
    ⟨.vkCmdBeginRenderPass,
      [L.vk_command_buffer, g.render_pass,
        g.framebuffers.getD env.next_image_index VK_NULL_HANDLE], [], [], none⟩,
    ⟨.vkCmdBindDescriptorSets, [L.vk_command_buffer, g.pipeline_layout, g.descriptor_set],
      [], [], none⟩,
    ⟨.vkCmdBindPipeline, [L.vk_command_buffer, g.pipeline], [], [], none⟩,
    ⟨.vkCmdBindVertexBuffers, [L.vk_command_buffer, L.vk_vertex_buffer], [], [], none⟩,
    ⟨.vkCmdBindIndexBuffer, [L.vk_command_buffer, L.vk_index_buffer], [], [], none⟩,
    ⟨.vkCmdDrawIndexed, [L.vk_command_buffer], [], [6], none⟩,
    ⟨.vkCmdEndRenderPass, [L.vk_command_buffer], [], [], none⟩,
    ⟨.vkEndCommandBuffer, [L.vk_command_buffer], [], [], some env.vkEndCommandBuffer⟩,
    ⟨.vkQueueSubmit,
      [L.vk_graphics_queue, g.image_available_semaphore, L.vk_command_buffer,
        g.render_finished_semaphore], [],
      [VK_PIPELINE_STAGE_COLOR_ATTACHMENT_OUTPUT_BIT], some env.vkQueueSubmit⟩,
    ⟨.vkQueuePresentKHR, [L.vk_graphics_queue, g.render_finished_semaphore, g.swapchain],
      [], [env.next_image_index], some env.vkQueuePresentKHR⟩,
    ⟨.vkQueueWaitIdle, [L.vk_graphics_queue], [], [], some env.vkQueueWaitIdle⟩ ]

/-- What `acquire_record_submit_present` does, case by case: how many of the calls of
`frame_trace` it issues and how it ends. -/
def frame_result (env : FrameEnv) (L : MainLocals) (w : World) : Result Unit :=
  let t := frame_trace env L w.g_TempVulkan
  if env.vkAcquireNextImageKHR = VK_SUBOPTIMAL_KHR ∨
      env.vkAcquireNextImageKHR = VK_ERROR_OUT_OF_DATE_KHR then
    ⟨t.take 1, .ok ((), { w with recreate_everything := true })⟩
  else if env.vkAcquireNextImageKHR ≠ VK_SUCCESS then
    ⟨t.take 1, .error (.fatal "Failed to acquire next image")⟩
  else if env.vkBeginCommandBuffer ≠ VK_SUCCESS then
    ⟨t.take 3, .error (.fatal "Failed to begin command buffer")⟩
  else if ¬ env.next_image_index < w.g_TempVulkan.framebuffers.length then
    ⟨t.take 3, .error .out_of_bounds⟩
  else if env.vkEndCommandBuffer ≠ VK_SUCCESS then
    ⟨t.take 11, .error (.fatal "Failed to end command buffer")⟩
  else if env.vkQueueSubmit ≠ VK_SUCCESS then
    ⟨t.take 12, .error (.fatal "Failed to submit command buffer to queue")⟩
  else if env.vkQueuePresentKHR = VK_SUBOPTIMAL_KHR ∨
      env.vkQueuePresentKHR = VK_ERROR_OUT_OF_DATE_KHR then
    ⟨t.take 13, .ok ((), { w with recreate_everything := true })⟩
  else if env.vkQueuePresentKHR ≠ VK_SUCCESS then
    ⟨t.take 13, .error (.fatal "Error when presenting")⟩
  else if env.vkQueueWaitIdle ≠ VK_SUCCESS then
    ⟨t, .error (.fatal "Failed to wait idle for graphics queue")⟩
  else
    ⟨t, .ok ((), w)⟩

/-- The functions that `create_basically_everything` calls. -/
def createFns : List Fn :=
  [ .create_basically_everything, .vkGetPhysicalDeviceSurfaceCapabilitiesKHR,
    .vkGetPhysicalDeviceSurfaceFormatsKHR, .vkCreateSwapchainKHR, .vkGetSwapchainImagesKHR,
    .vkCreateImageView, .vkCreateRenderPass, .vkCreateFramebuffer, .glfwGetWindowSize,
    .vkCreateBuffer, .vkGetBufferMemoryRequirements, .find_memory_type,
    .vkGetPhysicalDeviceMemoryProperties, .vkAllocateMemory, .vkBindBufferMemory,
    .vkMapMemory, .memcpy, .vkUnmapMemory, .stbi_set_flip_vertically_on_load, .stbi_load,
    .free, .vkCreateImage, .vkGetImageMemoryRequirements, .vkBindImageMemory,
    .vkAllocateCommandBuffers, .vkBeginCommandBuffer, .vkCmdPipelineBarrier,
    .vkCmdCopyBufferToImage, .vkEndCommandBuffer, .vkQueueSubmit, .vkQueueWaitIdle,
    .vkFreeMemory, .vkDestroyBuffer, .vkCreateSampler, .vkCreateDescriptorSetLayout,
    .vkCreateDescriptorPool, .vkAllocateDescriptorSets, .vkUpdateDescriptorSets,
    .create_shader_module, .fopen, .malloc, .fread, .fclose, .vkCreateShaderModule,
    .glfwGetFramebufferSize, .vkCreatePipelineLayout, .vkCreateGraphicsPipelines,
    .vkDestroyShaderModule, .vkCreateSemaphore ]

/-- The functions that `destroy_basically_everything` calls. -/
def destroyFns : List Fn :=
  [ .destroy_basically_everything, .vkDestroySampler, .vkDestroyImage, .vkFreeMemory,
    .vkDestroyImageView, .vkDestroyDescriptorPool, .vkDestroyDescriptorSetLayout,
    .vkDestroyBuffer, .vkDestroyPipeline, .vkDestroyPipelineLayout, .vkDestroyFramebuffer,
    .vkDestroyRenderPass, .vkDestroySwapchainKHR, .vkDestroySemaphore ]

/-- The calls of the block `// Re-upload quad verts` when nothing stops it. -/
def reupload_trace (env : FrameEnv) (L : MainLocals) : List Event :=
  [ ⟨.glfwGetWindowSize, [L.window], [], [], none⟩,
    ⟨.vkMapMemory, [L.vk_device, L.vk_vertex_buffer_memory], [], [], some env.vkMapMemory⟩,
    ⟨.memcpy, [], [], [], none⟩,
    ⟨.vkUnmapMemory, [L.vk_device, L.vk_vertex_buffer_memory], [], [], none⟩ ]

/-- What the loop body does after the block `if (recreate_everything) { … }`, started
in state `w`: the re-upload, then `frame_result`. -/
def after_recreate (env : FrameEnv) (L : MainLocals) (w : World) : Result Unit :=
  if env.vkMapMemory = VK_SUCCESS then
    Result.prepend (reupload_trace env L) (frame_result env L w)
  else
    ⟨(reupload_trace env L).take 2, .error (.fatal "Failed to map vertex buffer memory")⟩

/-- The call of `create_basically_everything` in the loop body. -/
def recreate_call (env : FrameEnv) (L : MainLocals) : Prog Unit :=
  create_basically_everything env.create L.window L.vk_physical_device L.vk_surface
    L.vk_device L.vk_graphics_queue L.vk_command_pool

/-- What one iteration of the render loop does, started in state `w`: the poll; if the
flag is set, the wait, `destroy_basically_everything`, `create_basically_everything`
and, when that returns, the reset of the flag; then `after_recreate`. -/
def body_result (env : FrameEnv) (L : MainLocals) (w : World) : Result Unit :=
  Result.prepend [⟨.glfwPollEvents, [], [], [], none⟩]
    (if w.recreate_everything = true then
      Result.prepend
        (⟨.vkDeviceWaitIdle, [L.vk_device], [], [], some env.vkDeviceWaitIdle⟩ ::
          destroy_trace L.vk_device w.g_TempVulkan)
        ((recreate_call env L w).andThen fun _ w1 =>
          after_recreate env L { w1 with recreate_everything := false })
    else after_recreate env L w)

/-- The functions that the loop body can call before `vkAcquireNextImageKHR`. -/
def prefixFns : List Fn :=
  .glfwPollEvents :: .vkDeviceWaitIdle :: (destroyFns ++ createFns)

/-- The functions that the loop body calls from `vkAcquireNextImageKHR` on. -/
def frameFns : List Fn :=
  [ .vkAcquireNextImageKHR, .vkResetCommandBuffer, .vkBeginCommandBuffer,
    .vkCmdBeginRenderPass, .vkCmdBindDescriptorSets, .vkCmdBindPipeline,
    .vkCmdBindVertexBuffers, .vkCmdBindIndexBuffer, .vkCmdDrawIndexed, .vkCmdEndRenderPass,
    .vkEndCommandBuffer, .vkQueueSubmit, .vkQueuePresentKHR, .vkQueueWaitIdle ]

/-- The call of `vkAcquireNextImageKHR` of an iteration. -/
def acquire_event (env : FrameEnv) (L : MainLocals) (g : VulkanBasicallyEverything) :
    Event :=
  ⟨.vkAcquireNextImageKHR, [L.vk_device, g.swapchain, g.image_available_semaphore], [],
    [env.next_image_index], some env.vkAcquireNextImageKHR⟩

/-- The functions through which the loop body resets and records the main command
buffer, submits it and presents. -/
def recordSubmitPresentFns : List Fn :=
  [ .vkResetCommandBuffer, .vkBeginCommandBuffer, .vkCmdBeginRenderPass,
    .vkCmdBindDescriptorSets, .vkCmdBindPipeline, .vkCmdBindVertexBuffers,
    .vkCmdBindIndexBuffer, .vkCmdDrawIndexed, .vkCmdEndRenderPass, .vkEndCommandBuffer,
    .vkQueueSubmit, .vkQueuePresentKHR ]

/-! ## Sample iterations -/

/-- The state `World.sample` with `recreate_everything` set: an iteration started in it
recreates everything. -/
def World.sample_recreate : World :=
  { World.sample with recreate_everything := true }

/-- An iteration in which `vkAcquireNextImageKHR` returns `VK_SUBOPTIMAL_KHR`. -/
def FrameEnv.acquire_suboptimal : FrameEnv :=
  { FrameEnv.success with vkAcquireNextImageKHR := VK_SUBOPTIMAL_KHR }

/-- An iteration in which `vkAcquireNextImageKHR` returns `VK_ERROR_DEVICE_LOST`. -/
def FrameEnv.acquire_lost : FrameEnv :=
  { FrameEnv.success with vkAcquireNextImageKHR := VK_ERROR_DEVICE_LOST }

/-- An iteration in which `vkQueuePresentKHR` returns `VK_ERROR_OUT_OF_DATE_KHR`. -/
def FrameEnv.present_out_of_date : FrameEnv :=
  { FrameEnv.success with vkQueuePresentKHR := VK_ERROR_OUT_OF_DATE_KHR }

/-- An iteration in which `vkResetCommandBuffer` returns `VK_ERROR_DEVICE_LOST` and
every other call succeeds. -/
def FrameEnv.reset_fails : FrameEnv :=
  { FrameEnv.success with vkResetCommandBuffer := VK_ERROR_DEVICE_LOST }

/-- The state of `main` after `InitEnv.success`, before the first call of
`create_basically_everything`. -/
def World.after_init : World :=
  { World.initial with next := 13 }

/-! ## The calls of the initialisation in `main` when it returns -/

/-- The calls of `query_present_support`. -/
def query_present_support_trace (env : InitEnv) (vk_physical_device vk_surface : Handle) :
    Nat → Nat → List Event
  | 0, _ => []
  | fuel + 1, i =>
    ⟨.vkGetPhysicalDeviceSurfaceSupportKHR, [vk_physical_device, vk_surface], [], [i],
      some (env.vkGetPhysicalDeviceSurfaceSupportKHR i)⟩ ::
    query_present_support_trace env vk_physical_device vk_surface fuel (i + 1)

/-- The calls of `create_host_buffer` when it returns. -/
def create_host_buffer_trace (vk_physical_device vk_device buffer memory : Handle)
    (memoryTypeBits : Nat) : List Event :=
  [ ⟨.vkCreateBuffer, [vk_device], [buffer], [], some VK_SUCCESS⟩,
    ⟨.vkGetBufferMemoryRequirements, [vk_device, buffer], [], [], none⟩ ] ++
  find_memory_type_trace vk_physical_device memoryTypeBits
    (VK_MEMORY_PROPERTY_HOST_VISIBLE_BIT ||| VK_MEMORY_PROPERTY_HOST_COHERENT_BIT) ++
  [ ⟨.vkAllocateMemory, [vk_device], [memory], [], some VK_SUCCESS⟩,
    ⟨.vkBindBufferMemory, [vk_device, buffer, memory], [], [], some VK_SUCCESS⟩,
    ⟨.vkMapMemory, [vk_device, memory], [], [], some VK_SUCCESS⟩,
    ⟨.memcpy, [], [], [], none⟩,
    ⟨.vkUnmapMemory, [vk_device, memory], [], [], none⟩ ]

/-- The locals of `main` after an initialisation that returns: `n` is the serial number
of the first handle it is handed and `c` the number of physical devices. -/
def main_init_locals (n c : Nat) : MainLocals :=
  { window := ⟨.window, 0, n⟩
    vk_instance := ⟨.vk_instance, 0, n + 1⟩
    vk_surface := ⟨.vk_surface, 0, n + 2⟩
    vk_physical_device := ⟨.vk_physical_device, 0, n + 3⟩
    vk_device := ⟨.vk_device, 0, n + 3 + c⟩
    vk_graphics_queue := ⟨.vk_graphics_queue, 0, n + 3 + c + 1⟩
    vk_vertex_buffer := ⟨.vk_vertex_buffer, 0, n + 3 + c + 2⟩
    vk_vertex_buffer_memory := ⟨.vk_vertex_buffer_memory, 0, n + 3 + c + 3⟩
    vk_index_buffer := ⟨.vk_index_buffer, 0, n + 3 + c + 4⟩
    vk_index_buffer_memory := ⟨.vk_index_buffer_memory, 0, n + 3 + c + 5⟩
    vk_command_pool := ⟨.vk_command_pool, 0, n + 3 + c + 6⟩
    vk_command_buffer := ⟨.vk_command_buffer, 0, n + 3 + c + 7⟩ }

/-- The calls of `main_init` when it returns. -/
def main_init_trace (env : InitEnv) (n : Nat) : List Event :=
  let L := main_init_locals n env.physical_device_count
  [ ⟨.glfwInit, [], [], [], none⟩,
    ⟨.glfwWindowHint, [], [], [], none⟩,
    ⟨.glfwWindowHint, [], [], [], none⟩,
    ⟨.glfwCreateWindow, [], [L.window], [], none⟩,
    ⟨.glfwGetRequiredInstanceExtensions, [], [], [], none⟩,
    ⟨.vkCreateInstance, [], [L.vk_instance], [], some VK_SUCCESS⟩,
    ⟨.glfwCreateWindowSurface, [L.vk_instance, L.window], [L.vk_surface], [],
      some VK_SUCCESS⟩,
    ⟨.vkEnumeratePhysicalDevices, [L.vk_instance], [], [env.physical_device_count],
      some VK_SUCCESS⟩,
    ⟨.vkEnumeratePhysicalDevices, [L.vk_instance],
      newHandles .vk_physical_device (n + 3) env.physical_device_count 0,
      [env.physical_device_count], some VK_SUCCESS⟩,
    ⟨.vkGetPhysicalDeviceQueueFamilyProperties, [L.vk_physical_device], [], [], none⟩,
    ⟨.vkGetPhysicalDeviceQueueFamilyProperties, [L.vk_physical_device], [], [], none⟩ ] ++
  query_present_support_trace env L.vk_physical_device L.vk_surface
    env.queue_families.length 0 ++
  [ ⟨.vkCreateDevice, [L.vk_physical_device], [L.vk_device], [], some VK_SUCCESS⟩,
    ⟨.vkGetDeviceQueue, [L.vk_device], [L.vk_graphics_queue],
      [find_graphics_queue env.queue_families, 0], none⟩,
    ⟨.glfwGetWindowSize, [L.window], [], [], none⟩ ] ++
  create_host_buffer_trace L.vk_physical_device L.vk_device L.vk_vertex_buffer
    L.vk_vertex_buffer_memory env.memoryTypeBits_vertex ++
  create_host_buffer_trace L.vk_physical_device L.vk_device L.vk_index_buffer
    L.vk_index_buffer_memory env.memoryTypeBits_index ++
  [ ⟨.vkCreateCommandPool, [L.vk_device], [L.vk_command_pool], [], some VK_SUCCESS⟩,
    ⟨.vkAllocateCommandBuffers, [L.vk_device, L.vk_command_pool], [L.vk_command_buffer],
      [], some VK_SUCCESS⟩ ]

/-- The calls of `main_shutdown`, started in a state whose `g_TempVulkan` is `g`. -/
def main_shutdown_trace (L : MainLocals) (g : VulkanBasicallyEverything) : List Event :=
  [ ⟨.vkDestroyCommandPool, [L.vk_device, L.vk_command_pool], [], [], none⟩,
    ⟨.vkFreeMemory, [L.vk_device, L.vk_index_buffer_memory], [], [], none⟩,
    ⟨.vkDestroyBuffer, [L.vk_device, L.vk_index_buffer], [], [], none⟩,
    ⟨.vkFreeMemory, [L.vk_device, L.vk_vertex_buffer_memory], [], [], none⟩,
    ⟨.vkDestroyBuffer, [L.vk_device, L.vk_vertex_buffer], [], [], none⟩ ] ++
  destroy_trace L.vk_device g ++
  [ ⟨.vkDestroyDevice, [L.vk_device], [], [], none⟩,
    ⟨.vkDestroySurfaceKHR, [L.vk_instance, L.vk_surface], [], [], none⟩,
    ⟨.vkDestroyInstance, [L.vk_instance], [], [], none⟩,
    ⟨.glfwDestroyWindow, [L.window], [], [], none⟩,
    ⟨.glfwTerminate, [], [], [], none⟩ ]

/-- The objects that `main` itself creates before the render loop and destroys after it:
the instance, the surface, the logical device, the vertex buffer and its memory, the index
buffer and its memory, and the command pool. -/
def main_objects (L : MainLocals) : List Handle :=
  [ L.vk_instance, L.vk_surface, L.vk_device, L.vk_vertex_buffer,
    L.vk_vertex_buffer_memory, L.vk_index_buffer, L.vk_index_buffer_memory,
    L.vk_command_pool ]

/-- The sites of the objects of `main_objects`. -/
def Site.of_main : Site → Bool
  | .vk_instance | .vk_surface | .vk_device | .vk_vertex_buffer | .vk_vertex_buffer_memory
  | .vk_index_buffer | .vk_index_buffer_memory | .vk_command_pool => true
  | _ => false

/-- None of the handles of the list is one of the objects that `main` itself creates. -/
def NoMain (hs : List Handle) : Prop :=
  ∀ h ∈ hs, h.site.of_main = false

/-- A run of `main` in which every call succeeds and the loop runs two iterations: the
present of the first returns `VK_ERROR_OUT_OF_DATE_KHR`, so that the second recreates
everything. -/
def MainEnv.sample : MainEnv :=
  { init := InitEnv.success
    create := CreateEnv.success
    frames := [FrameEnv.present_out_of_date, FrameEnv.success] }

/-! ## `lin_math.hpp`

The header exists in three folders. Each copy is translated on its own. The element
type `float` is a parameter `α` that has the operations the source uses (the literals,
`+`, `-`, `*`, `/` and the unary minus), with no law assumed of them; `tanf` is a
parameter, and a matrix that the source declares without an initialiser (`m4 m;`) starts
from contents that are a parameter too. -/


/-- The type `m4`: `float d[16]`. -/
structure m4 (α : Type) where
  d : Fin 16 → α

/-- The assignment `m.d[i] = v`. -/
def m4.set {α : Type} (m : m4 α) (i : Fin 16) (v : α) : m4 α :=
  ⟨Function.update m.d i v⟩

/-- The initialiser `m4 m = {}`: every element is zero. -/
def m4.zero {α : Type} [Zero α] : m4 α := ⟨fun _ => 0⟩

/-- The index `col * 4 + row` of the element in column `col` and row `row`. -/
def m4.at (col row : Fin 4) : Fin 16 :=
  ⟨col.val * 4 + row.val, by have := col.isLt; have := row.isLt; omega⟩

/-- The function `m4_identity` of `src/b/src/lin_math.hpp` (`m4 m = {}`). -/
def lin_math_b.m4_identity {α : Type} [Zero α] [One α] : m4 α :=
  let m : m4 α := m4.zero
  let m := m.set 0 1
  let m := m.set 4 0
  let m := m.set 8 0
  let m := m.set 12 0
  let m := m.set 1 0
  let m := m.set 5 1
  let m := m.set 9 0
  let m := m.set 13 0
  let m := m.set 2 0
  let m := m.set 6 0
  let m := m.set 10 1
  let m := m.set 14 0
  let m := m.set 3 0
  let m := m.set 7 0
  let m := m.set 11 0
  let m := m.set 15 1
  m

/-- The function `m4_proj_ortho` of `src/b/src/lin_math.hpp` (`m4 m;`). -/
def lin_math_b.m4_proj_ortho {α : Type}
    [Zero α] [One α] [NatCast α] [Add α] [Sub α] [Div α] [Neg α]
    (m : m4 α)
    (left right bottom top near far : α) : m4 α :=
  let rl := right - left
  let tb := top - bottom
  let fn := far - near
  let m := m.set 0 (2 / rl)
  let m := m.set 1 0
  let m := m.set 2 0
  let m := m.set 3 0
  let m := m.set 4 0
  let m := m.set 5 (2 / tb)
  let m := m.set 6 0
  let m := m.set 7 0
  let m := m.set 8 0
  let m := m.set 9 0
  let m := m.set 10 (-2 / fn)
  let m := m.set 11 0
  let m := m.set 12 (-(right + left) / rl)
  let m := m.set 13 (-(top + bottom) / tb)
  let m := m.set 14 (-(far + near) / fn)
  let m := m.set 15 1
  m

/-- The constant `PI32` of `src/d/src/lin_math.hpp`, read as the decimal number. -/
def lin_math_d.PI32 {α : Type} [NatCast α] [Div α] : α := 314159265359 / 100000000000

/-- The function `deg_to_rad` of `src/d/src/lin_math.hpp`. -/
def lin_math_d.deg_to_rad {α : Type} [NatCast α] [Mul α] [Div α] (deg : α) : α :=
  let rad := deg / 180 * lin_math_d.PI32
  rad

/-- The function `m4_identity` of `src/d/src/lin_math.hpp` (`m4 m;`). -/
def lin_math_d.m4_identity {α : Type} [Zero α] [One α] (m : m4 α) : m4 α :=
  let m := m.set 0 1
  let m := m.set 4 0
  let m := m.set 8 0
  let m := m.set 12 0
  let m := m.set 1 0
  let m := m.set 5 1
  let m := m.set 9 0
  let m := m.set 13 0
  let m := m.set 2 0
  let m := m.set 6 0
  let m := m.set 10 1
  let m := m.set 14 0
  let m := m.set 3 0
  let m := m.set 7 0
  let m := m.set 11 0
  let m := m.set 15 1
  m

/-- The function `m4_proj_ortho` of `src/d/src/lin_math.hpp` (`m4 m;`). -/
def lin_math_d.m4_proj_ortho {α : Type}
    [Zero α] [One α] [NatCast α] [Add α] [Sub α] [Div α] [Neg α]
    (m : m4 α)
    (left right bottom top near far : α) : m4 α :=
  let rl := right - left
  let tb := top - bottom
  let fn := far - near
  let m := m.set 0 (2 / rl)
  let m := m.set 1 0
  let m := m.set 2 0
  let m := m.set 3 0
  let m := m.set 4 0
  let m := m.set 5 (2 / tb)
  let m := m.set 6 0
  let m := m.set 7 0
  let m := m.set 8 0
  let m := m.set 9 0
  let m := m.set 10 (-2 / fn)
  let m := m.set 11 0
  let m := m.set 12 (-(right + left) / rl)
  let m := m.set 13 (-(top + bottom) / tb)
  let m := m.set 14 (-(far + near) / fn)
  let m := m.set 15 1
  m

/-- The function `m4_proj_perspective` of `src/d/src/lin_math.hpp` (`m4 m = {}`). -/
def lin_math_d.m4_proj_perspective {α : Type}
    [Zero α] [One α] [NatCast α] [Add α] [Sub α] [Mul α] [Div α] [Neg α]
    (tanf : α → α)
    (fov aspect znear zfar : α) : m4 α :=
  let tan_half := tanf (fov / 2)
  let m : m4 α := m4.zero
  let m := m.set 0 (1 / (aspect * tan_half))
  let m := m.set 5 (-1 / tan_half)
  let m := m.set 10 (-(zfar + znear) / (zfar - znear))
  let m := m.set 11 (-1)
  let m := m.set 14 (-(2 * zfar * znear) / (zfar - znear))
  m

/-- The function `m4_translate` of `src/d/src/lin_math.hpp`; `m` is what the `m4 m;` of
`m4_identity` starts from. -/
def lin_math_d.m4_translate {α : Type} [Zero α] [One α] (m : m4 α) (x y z : α) : m4 α :=
  let m := lin_math_d.m4_identity m
  let m := m.set 12 x
  let m := m.set 13 y
  let m := m.set 14 z
  m

/-- The function `m4_mul` of `src/d/src/lin_math.hpp` (`m4 m;`): the three loops run
over 0, 1, 2, 3. -/
def lin_math_d.m4_mul {α : Type} [Zero α] [Add α] [Mul α] (m : m4 α) (a b : m4 α) : m4 α :=
  (List.finRange 4).foldl (fun m col =>
    (List.finRange 4).foldl (fun m row =>
      let m := m.set (m4.at col row) 0
      (List.finRange 4).foldl (fun m k =>
        m.set (m4.at col row)
          (m.d (m4.at col row) + a.d (m4.at k row) * b.d (m4.at col k))) m) m) m

/-- The constant `PI32` of `src/f-lighting/src/lin_math.hpp`, read as the decimal
number. -/
def lin_math_f_lighting.PI32 {α : Type} [NatCast α] [Div α]
    : α := 314159265359 / 100000000000

/-- The function `deg_to_rad` of `src/f-lighting/src/lin_math.hpp`. -/
def lin_math_f_lighting.deg_to_rad {α : Type} [NatCast α] [Mul α] [Div α] (deg : α) : α :=
  let rad := deg / 180 * lin_math_f_lighting.PI32
  rad

/-- The function `m4_identity` of `src/f-lighting/src/lin_math.hpp` (`m4 m;`). -/
def lin_math_f_lighting.m4_identity {α : Type} [Zero α] [One α] (m : m4 α) : m4 α :=
  let m := m.set 0 1
  let m := m.set 4 0
  let m := m.set 8 0
  let m := m.set 12 0
  let m := m.set 1 0
  let m := m.set 5 1
  let m := m.set 9 0
  let m := m.set 13 0
  let m := m.set 2 0
  let m := m.set 6 0
  let m := m.set 10 1
  let m := m.set 14 0
  let m := m.set 3 0
  let m := m.set 7 0
  let m := m.set 11 0
  let m := m.set 15 1
  m

/-- The function `m4_proj_ortho` of `src/f-lighting/src/lin_math.hpp` (`m4 m;`). -/
def lin_math_f_lighting.m4_proj_ortho {α : Type}
    [Zero α] [One α] [NatCast α] [Add α] [Sub α] [Div α] [Neg α]
    (m : m4 α)
    (left right bottom top near far : α) : m4 α :=
  let rl := right - left
  let tb := top - bottom
  let fn := far - near
  let m := m.set 0 (2 / rl)
  let m := m.set 1 0
  let m := m.set 2 0
  let m := m.set 3 0
  let m := m.set 4 0
  let m := m.set 5 (2 / tb)
  let m := m.set 6 0
  let m := m.set 7 0
  let m := m.set 8 0
  let m := m.set 9 0
  let m := m.set 10 (-2 / fn)
  let m := m.set 11 0
  let m := m.set 12 (-(right + left) / rl)
  let m := m.set 13 (-(top + bottom) / tb)
  let m := m.set 14 (-(far + near) / fn)
  let m := m.set 15 1
  m

/-- The function `m4_proj_perspective` of `src/f-lighting/src/lin_math.hpp`
(`m4 m = {}`). -/
def lin_math_f_lighting.m4_proj_perspective {α : Type}
    [Zero α] [One α] [NatCast α] [Add α] [Sub α] [Mul α] [Div α] [Neg α]
    (tanf : α → α)
    (fov aspect znear zfar : α) : m4 α :=
  let tan_half := tanf (fov / 2)
  let m : m4 α := m4.zero
  let m := m.set 0 (1 / (aspect * tan_half))
  let m := m.set 5 (-1 / tan_half)
  let m := m.set 10 (-(zfar + znear) / (zfar - znear))
  let m := m.set 11 (-1)
  let m := m.set 14 (-(2 * zfar * znear) / (zfar - znear))
  m

/-- The function `m4_translate` of `src/f-lighting/src/lin_math.hpp`. -/
def lin_math_f_lighting.m4_translate {α : Type} [Zero α] [One α]
    (m : m4 α) (x y z : α) : m4 α :=
  let m := lin_math_f_lighting.m4_identity m
  let m := m.set 12 x
  let m := m.set 13 y
  let m := m.set 14 z
  m

/-- The function `m4_mul` of `src/f-lighting/src/lin_math.hpp` (`m4 m;`). -/
def lin_math_f_lighting.m4_mul {α : Type} [Zero α] [Add α] [Mul α]
    (m : m4 α) (a b : m4 α) : m4 α :=
  (List.finRange 4).foldl (fun m col =>
    (List.finRange 4).foldl (fun m row =>
      let m := m.set (m4.at col row) 0
      (List.finRange 4).foldl (fun m k =>
        m.set (m4.at col row)
          (m.d (m4.at col row) + a.d (m4.at k row) * b.d (m4.at col k))) m) m) m

/-- The product of a column-major matrix and the column vector `(x, y, z, w)`: element
`row` of the result is the sum over `k` of `m.d[k * 4 + row]` times element `k` of the
vector, which is what `m4_mul` computes for every column of its second argument. -/
def m4.mul_vec {α : Type} [Add α] [Mul α] (m : m4 α) (x y z w : α) (row : Fin 4) : α :=
  m.d (m4.at 0 row) * x + m.d (m4.at 1 row) * y + m.d (m4.at 2 row) * z +
    m.d (m4.at 3 row) * w

/-! ## Counting descriptors -/

/-- The number of descriptors of a type that one set of the layout has: the sum of
`descriptorCount` over the bindings of that type. -/
def layout_descriptor_count (type : Nat) : Nat :=
  ((descriptor_set_layout_bindings.filter (fun b => b.descriptorType == type)).map
    (fun b => b.descriptorCount)).sum

/-- The number of descriptors of a type that the pool holds: the sum of `descriptorCount`
over the pool sizes of that type. -/
def pool_descriptor_count (type : Nat) : Nat :=
  ((descriptor_pool_sizes.filter (fun p => p.type == type)).map
    (fun p => p.descriptorCount)).sum

/-- The members of the layout's binding with number `binding`. -/
def layout_binding (binding : Nat) : Option VkDescriptorSetLayoutBinding :=
  descriptor_set_layout_bindings.find? (fun b => b.binding == binding)

/-! ## Theorems: `find_memory_type` -/

theorem find_memory_type_loop_some (mem_props : VkPhysicalDeviceMemoryProperties)
    (type_filter props : Nat) (fuel i k : Nat) :
    find_memory_type_loop mem_props type_filter props fuel i = some k ↔
      (i ≤ k ∧ k < i + fuel ∧ find_memory_type_test mem_props type_filter props k = true ∧
        ∀ j, i ≤ j → j < k → find_memory_type_test mem_props type_filter props j = false) := by
  induction fuel generalizing i with
  | zero =>
    simp only [find_memory_type_loop, Nat.add_zero]
    constructor
    · intro h; cases h
    · rintro ⟨h1, h2, _⟩; omega
  | succ fuel ih =>
    simp only [find_memory_type_loop]
    by_cases ht : find_memory_type_test mem_props type_filter props i = true
    · rw [if_pos ht]
      constructor
      · intro h
        injection h with h
        subst h
        exact ⟨le_refl _, by omega, ht, fun j h1 h2 => by omega⟩
      · rintro ⟨h1, _, _, h4⟩
        rcases Nat.eq_or_lt_of_le h1 with h | h
        · rw [h]
        · have := h4 i (le_refl _) h
          rw [ht] at this
          cases this
    · rw [if_neg ht, ih]
      have hf : find_memory_type_test mem_props type_filter props i = false := by
        simpa using ht
      constructor
      · rintro ⟨h1, h2, h3, h4⟩
        refine ⟨by omega, by omega, h3, fun j hj1 hj2 => ?_⟩
        rcases Nat.eq_or_lt_of_le hj1 with h | h
        · rw [← h]; exact hf
        · exact h4 j h hj2
      · rintro ⟨h1, h2, h3, h4⟩
        have hik : i ≠ k := by
          rintro rfl
          rw [hf] at h3
          cases h3
        exact ⟨by omega, by omega, h3, fun j hj1 hj2 => h4 j (by omega) hj2⟩

theorem find_memory_type_loop_none (mem_props : VkPhysicalDeviceMemoryProperties)
    (type_filter props : Nat) (fuel i : Nat) :
    find_memory_type_loop mem_props type_filter props fuel i = none ↔
      ∀ j, i ≤ j → j < i + fuel →
        find_memory_type_test mem_props type_filter props j = false := by
  induction fuel generalizing i with
  | zero =>
    simp only [find_memory_type_loop, Nat.add_zero, true_iff]
    intro j h1 h2
    omega
  | succ fuel ih =>
    simp only [find_memory_type_loop]
    by_cases ht : find_memory_type_test mem_props type_filter props i = true
    · rw [if_pos ht]
      constructor
      · intro h; cases h
      · intro h
        have := h i (le_refl _) (by omega)
        rw [ht] at this
        cases this
    · rw [if_neg ht, ih]
      have hf : find_memory_type_test mem_props type_filter props i = false := by
        simpa using ht
      constructor
      · intro h j hj1 hj2
        rcases Nat.eq_or_lt_of_le hj1 with h' | h'
        · rw [← h']; exact hf
        · exact h j h' (by omega)
      · intro h j hj1 hj2
        exact h j (by omega) (by omega)

theorem find_memory_type_test_iff (mem_props : VkPhysicalDeviceMemoryProperties)
    (type_filter props i : Nat) (hi : i < 32) :
    find_memory_type_test mem_props type_filter props i = true ↔
      (type_filter.testBit i = true ∧ (mem_props.memoryTypes.getD i 0) &&& props = props) := by
  have hpow : (1 <<< i) % 2 ^ 32 = 2 ^ i := by
    rw [Nat.one_shiftLeft]
    exact Nat.mod_eq_of_lt (Nat.pow_lt_pow_right (by decide) hi)
  have hpos : 0 < 2 ^ i := Nat.two_pow_pos i
  unfold find_memory_type_test
  rw [hpow, Nat.and_two_pow]
  cases hb : type_filter.testBit i <;> simp [Nat.ne_of_gt hpos]

theorem suitable_iff_test (mem_props : VkPhysicalDeviceMemoryProperties)
    (type_filter props i : Nat) (h : mem_props.memoryTypeCount ≤ 32) :
    SuitableMemoryType mem_props type_filter props i ↔
      (i < mem_props.memoryTypeCount ∧
        find_memory_type_test mem_props type_filter props i = true) := by
  unfold SuitableMemoryType
  constructor
  · rintro ⟨h1, h2⟩
    exact ⟨h1, (find_memory_type_test_iff mem_props type_filter props i (by omega)).2 h2⟩
  · rintro ⟨h1, h2⟩
    exact ⟨h1, (find_memory_type_test_iff mem_props type_filter props i (by omega)).1 h2⟩

/-- C7: for a table of at most 32 memory types, `find_memory_type` returns `i` exactly
when `i` is the least index below `memoryTypeCount` whose bit is set in `type_filter`
and whose property flags contain `props`, and it ends in
`fatal "Failed to find suitable memory type"` exactly when no such index exists. -/
theorem find_memory_type_spec (mem_props : VkPhysicalDeviceMemoryProperties)
    (type_filter props : Nat) (h : mem_props.memoryTypeCount ≤ 32) :
    (∀ i, find_memory_type mem_props type_filter props = .ok i ↔
      (SuitableMemoryType mem_props type_filter props i ∧
        ∀ j, SuitableMemoryType mem_props type_filter props j → i ≤ j)) ∧
    (find_memory_type mem_props type_filter props
        = .error "Failed to find suitable memory type" ↔
      ¬ ∃ i, SuitableMemoryType mem_props type_filter props i) := by
  constructor
  · intro i
    have hs := find_memory_type_loop_some mem_props type_filter props
      mem_props.memoryTypeCount 0 i
    unfold find_memory_type
    cases hl : find_memory_type_loop mem_props type_filter props
        mem_props.memoryTypeCount 0 with
    | none =>
      rw [hl] at hs
      have hn := (find_memory_type_loop_none mem_props type_filter props
        mem_props.memoryTypeCount 0).1 hl
      constructor
      · intro h'; cases h'
      · rintro ⟨h1, _⟩
        have h2 := (suitable_iff_test mem_props type_filter props i h).1 h1
        have := hn i (Nat.zero_le _) (by omega)
        rw [h2.2] at this
        cases this
    | some k =>
      have hk := (find_memory_type_loop_some mem_props type_filter props
        mem_props.memoryTypeCount 0 k).1 hl
      constructor
      · intro h'
        injection h' with h'
        subst h'
        refine ⟨(suitable_iff_test mem_props type_filter props k h).2
          ⟨by omega, hk.2.2.1⟩, fun j hj => ?_⟩
        by_contra hlt
        have h2 := (suitable_iff_test mem_props type_filter props j h).1 hj
        have := hk.2.2.2 j (Nat.zero_le _) (by omega)
        rw [h2.2] at this
        cases this
      · rintro ⟨h1, h2⟩
        have hk' : SuitableMemoryType mem_props type_filter props k :=
          (suitable_iff_test mem_props type_filter props k h).2 ⟨by omega, hk.2.2.1⟩
        have h3 := (suitable_iff_test mem_props type_filter props i h).1 h1
        have hik : i ≤ k := h2 k hk'
        have hki : k ≤ i := by
          by_contra hlt
          have := hk.2.2.2 i (Nat.zero_le _) (by omega)
          rw [h3.2] at this
          cases this
        have : k = i := by omega
        rw [this]
  · unfold find_memory_type
    cases hl : find_memory_type_loop mem_props type_filter props
        mem_props.memoryTypeCount 0 with
    | none =>
      have hn := (find_memory_type_loop_none mem_props type_filter props
        mem_props.memoryTypeCount 0).1 hl
      simp only [true_iff]
      rintro ⟨i, hi⟩
      have h2 := (suitable_iff_test mem_props type_filter props i h).1 hi
      have := hn i (Nat.zero_le _) (by omega)
      rw [h2.2] at this
      cases this
    | some k =>
      have hk := (find_memory_type_loop_some mem_props type_filter props
        mem_props.memoryTypeCount 0 k).1 hl
      constructor
      · intro h'; cases h'
      · intro hne
        exact absurd ⟨k, (suitable_iff_test mem_props type_filter props k h).2
          ⟨by omega, hk.2.2.1⟩⟩ hne

/-- Witness for C7: a table of three types, where index 1 is the least suitable one. -/
theorem find_memory_type_spec_witness :
    (3 : Nat) ≤ 32 ∧
    (find_memory_type ⟨3, [2, 6, 7]⟩ 6 6 = .ok 1 ↔
      (SuitableMemoryType ⟨3, [2, 6, 7]⟩ 6 6 1 ∧
        ∀ j, SuitableMemoryType ⟨3, [2, 6, 7]⟩ 6 6 j → 1 ≤ j)) :=
  ⟨by decide, (find_memory_type_spec ⟨3, [2, 6, 7]⟩ 6 6 (by decide)).1 1⟩

/-! ## Theorems: the queue-family search -/

theorem find_graphics_queue_loop_none (l : List QueueFamily) (i idx : Nat)
    (h : ∀ q ∈ l, q.graphics_and_present = false) :
    find_graphics_queue_loop l i idx = idx := by
  induction l generalizing i idx with
  | nil => rfl
  | cons q rest ih =>
    have hq : q.graphics_and_present = false := h q (List.mem_cons_self _ _)
    simp only [find_graphics_queue_loop, hq, Bool.false_eq_true, if_false]
    exact ih (i + 1) idx (fun q' hq' => h q' (List.mem_cons_of_mem _ hq'))

theorem find_graphics_queue_loop_last (l : List QueueFamily) (i idx : Nat)
    (h : ∃ q ∈ l, q.graphics_and_present = true) :
    ∃ k q, find_graphics_queue_loop l i idx = (i + k) % 2 ^ 32 ∧
      l[k]? = some q ∧ q.graphics_and_present = true ∧
      ∀ j q', k < j → l[j]? = some q' → q'.graphics_and_present = false := by
  induction l generalizing i idx with
  | nil =>
    obtain ⟨q, hq, _⟩ := h
    cases hq
  | cons q rest ih =>
    by_cases hr : ∃ q' ∈ rest, q'.graphics_and_present = true
    · obtain ⟨k, qk, h1, h2, h3, h4⟩ :=
        ih (i + 1) (if q.graphics_and_present then i % 2 ^ 32 else idx) hr
      refine ⟨k + 1, qk, ?_, ?_, h3, ?_⟩
      · simp only [find_graphics_queue_loop]
        rw [h1]
        congr 1
        omega
      · simpa using h2
      · intro j q' hj hq'
        cases j with
        | zero => omega
        | succ j =>
          exact h4 j q' (by omega) (by simpa using hq')
    · have hrest : ∀ q' ∈ rest, q'.graphics_and_present = false := by
        intro q' hq'
        cases hb : q'.graphics_and_present with
        | false => rfl
        | true => exact absurd ⟨q', hq', hb⟩ hr
      have hq : q.graphics_and_present = true := by
        obtain ⟨q0, hq0, hb⟩ := h
        rcases List.mem_cons.1 hq0 with rfl | hmem
        · exact hb
        · rw [hrest q0 hmem] at hb
          cases hb
      refine ⟨0, q, ?_, by simp, hq, ?_⟩
      · simp only [find_graphics_queue_loop, hq, if_true]
        rw [find_graphics_queue_loop_none rest (i + 1) _ hrest]
        rfl
      · intro j q' hj hq'
        cases j with
        | zero => omega
        | succ j =>
          have hmem : q' ∈ rest := List.getElem?_mem (by simpa using hq')
          exact hrest q' hmem

/-- C10: when some queue family has the graphics bit and present support, the index that
the search of `main` leaves in `vk_graphics_queue_family_index` is the index of such a
family, and it is the greatest such index (the family count is a `uint32_t`). -/
theorem find_graphics_queue_greatest (queue_families : List QueueFamily)
    (hlen : queue_families.length < 2 ^ 32)
    (hex : ∃ q ∈ queue_families, q.graphics_and_present = true) :
    (∃ q, queue_families[find_graphics_queue queue_families]? = some q ∧
      q.graphics_and_present = true) ∧
    ∀ j q, queue_families[j]? = some q → q.graphics_and_present = true →
      j ≤ find_graphics_queue queue_families := by
  obtain ⟨k, qk, h1, h2, h3, h4⟩ := find_graphics_queue_loop_last queue_families 0 0 hex
  have hk : k < queue_families.length := by
    rcases List.getElem?_eq_some_iff.1 h2 with ⟨hlt, _⟩
    exact hlt
  have hidx : find_graphics_queue queue_families = k := by
    unfold find_graphics_queue
    rw [h1, Nat.zero_add]
    exact Nat.mod_eq_of_lt (by omega)
  rw [hidx]
  refine ⟨⟨qk, h2, h3⟩, fun j q hj hq => ?_⟩
  by_contra hlt
  have := h4 j q (by omega) hj
  rw [hq] at this
  cases this

/-- Witness for C10: of three families, the second and third qualify; the third is
selected. -/
theorem find_graphics_queue_greatest_witness :
    (∃ q, [QueueFamily.mk 2 1, ⟨3, 1⟩, ⟨1, 1⟩][
        find_graphics_queue [⟨2, 1⟩, ⟨3, 1⟩, ⟨1, 1⟩]]? = some q ∧
      q.graphics_and_present = true) ∧
    ∀ j q, [QueueFamily.mk 2 1, ⟨3, 1⟩, ⟨1, 1⟩][j]? = some q →
      q.graphics_and_present = true →
      j ≤ find_graphics_queue [⟨2, 1⟩, ⟨3, 1⟩, ⟨1, 1⟩] :=
  find_graphics_queue_greatest [⟨2, 1⟩, ⟨3, 1⟩, ⟨1, 1⟩] (by decide)
    ⟨⟨3, 1⟩, by decide, by decide⟩

/-! ## Theorems: running pieces of the program -/

theorem bind_run {α β : Type} (m : Prog α) (f : α → Prog β) (w : World) :
    (m >>= f) w = (m w).andThen f := by
  show Prog.bind m f w = _
  unfold Prog.bind Result.andThen Result.prepend
  split <;> rename_i h <;> simp [h]

theorem andThen_ok {α β : Type} (t : List Event) (a : α) (w1 : World) (f : α → Prog β) :
    (Result.mk t (.ok (a, w1))).andThen f = Result.prepend t (f a w1) := rfl

theorem andThen_error {α β : Type} (t : List Event) (e : Abort) (f : α → Prog β) :
    (Result.mk t (.error e) : Result α).andThen f = ⟨t, .error e⟩ := rfl

theorem andThen_ite {α β : Type} (c : Prop) [Decidable c] (x y : Result α)
    (f : α → Prog β) :
    (if c then x else y).andThen f = if c then x.andThen f else y.andThen f := by
  split <;> rfl

theorem andThen_dite {α β : Type} (c : Prop) [Decidable c] (x : c → Result α)
    (y : ¬ c → Result α) (f : α → Prog β) :
    (if h : c then x h else y h).andThen f =
      if h : c then (x h).andThen f else (y h).andThen f := by
  split <;> rfl

theorem prepend_mk {α : Type} (t t' : List Event) (o : Except Abort (α × World)) :
    Result.prepend t (Result.mk t' o) = ⟨t ++ t', o⟩ := rfl

theorem prepend_ite {α : Type} (c : Prop) [Decidable c] (t : List Event) (x y : Result α) :
    Result.prepend t (if c then x else y) =
      if c then Result.prepend t x else Result.prepend t y := by
  split <;> rfl

theorem prepend_dite {α : Type} (c : Prop) [Decidable c] (t : List Event)
    (x : c → Result α) (y : ¬ c → Result α) :
    Result.prepend t (if h : c then x h else y h) =
      if h : c then Result.prepend t (x h) else Result.prepend t (y h) := by
  split <;> rfl

theorem pure_run {α : Type} (a : α) (w : World) :
    (pure a : Prog α) w = ⟨[], .ok (a, w)⟩ := rfl

theorem vk_run (fn : Fn) (args : List Handle) (data : List Nat) (r : VkResult) (w : World) :
    vk fn args data r w = ⟨[⟨fn, args, [], data, some r⟩], .ok (r, w)⟩ := rfl

theorem call_run (fn : Fn) (args : List Handle) (data : List Nat) (w : World) :
    call fn args data w = ⟨[⟨fn, args, [], data, none⟩], .ok ((), w)⟩ := rfl

theorem callNew_run (fn : Fn) (args : List Handle) (data : List Nat) (site : Site)
    (w : World) :
    callNew fn args data site w =
      ⟨[⟨fn, args, [⟨site, 0, w.next⟩], data, none⟩],
        .ok (⟨site, 0, w.next⟩, { w with next := w.next + 1 })⟩ := rfl

theorem vkNew_run (fn : Fn) (args : List Handle) (site : Site) (i : Nat) (r : VkResult)
    (w : World) :
    vkNew fn args site i r w =
      ⟨[⟨fn, args, if r = VK_SUCCESS then [⟨site, i, w.next⟩] else [], [], some r⟩],
        .ok ((r, if r = VK_SUCCESS then ⟨site, i, w.next⟩ else VK_NULL_HANDLE),
          { w with next := w.next + if r = VK_SUCCESS then 1 else 0 })⟩ := by
  unfold vkNew
  split <;> rfl

theorem vkNewArray_run (fn : Fn) (args : List Handle) (site : Site) (n : Nat)
    (r : VkResult) (w : World) :
    vkNewArray fn args site n r w =
      ⟨[⟨fn, args, if r = VK_SUCCESS then newHandles site w.next n 0 else [], [n], some r⟩],
        .ok ((r, if r = VK_SUCCESS then newHandles site w.next n 0 else []),
          { w with next := w.next + if r = VK_SUCCESS then n else 0 })⟩ := by
  unfold vkNewArray
  split <;> rfl

theorem check_run (r : VkResult) (msg : String) (w : World) :
    check r msg w =
      if r = VK_SUCCESS then ⟨[], .ok ((), w)⟩ else ⟨[], .error (.fatal msg)⟩ := by
  unfold check
  by_cases h : r = VK_SUCCESS
  · simp only [h, ne_eq, not_true_eq_false, if_false, if_true]; rfl
  · simp only [h, ne_eq, not_false_eq_true, if_true, if_false]; rfl

theorem assert_run (c : Bool) (w : World) :
    assert c w = if c = true then ⟨[], .ok ((), w)⟩ else ⟨[], .error .assert_failed⟩ := rfl

theorem index_run {α : Type} (v : List α) (i : Nat) (w : World) :
    index v i w =
      if h : i < v.length then ⟨[], .ok (v[i], w)⟩ else ⟨[], .error .out_of_bounds⟩ := by
  unfold index
  split
  · rename_i a ha
    obtain ⟨hlt, hv⟩ := List.getElem?_eq_some_iff.1 ha
    rw [dif_pos hlt, hv]
  · rename_i ha
    rw [dif_neg]
    intro hlt
    rw [List.getElem?_eq_getElem hlt] at ha
    cases ha

theorem modifyG_run (f : VulkanBasicallyEverything → VulkanBasicallyEverything)
    (w : World) :
    modifyG f w = ⟨[], .ok ((), { w with g_TempVulkan := f w.g_TempVulkan })⟩ := rfl

theorem setRecreate_run (b : Bool) (w : World) :
    setRecreate b w = ⟨[], .ok ((), { w with recreate_everything := b })⟩ := rfl

theorem getWorld_run (w : World) : getWorld w = ⟨[], .ok (w, w)⟩ := rfl

theorem find_memory_type_error (mem_props : VkPhysicalDeviceMemoryProperties)
    (type_filter props : Nat) (msg : String)
    (h : find_memory_type mem_props type_filter props = .error msg) :
    msg = "Failed to find suitable memory type" := by
  unfold find_memory_type at h
  split at h
  · cases h
  · injection h with h
    exact h.symm

theorem run_find_memory_type_run (mem_props : VkPhysicalDeviceMemoryProperties)
    (pd : Handle) (type_filter props : Nat) (w : World) :
    run_find_memory_type mem_props pd type_filter props w =
      if (find_memory_type mem_props type_filter props).toBool = true then
        ⟨find_memory_type_trace pd type_filter props,
          .ok ((find_memory_type_loop mem_props type_filter props
            mem_props.memoryTypeCount 0).getD 0, w)⟩
      else
        ⟨find_memory_type_trace pd type_filter props,
          .error (.fatal "Failed to find suitable memory type")⟩ := by
  unfold run_find_memory_type
  simp only [bind_run, call_run, andThen_ok]
  unfold find_memory_type
  cases hl : find_memory_type_loop mem_props type_filter props mem_props.memoryTypeCount 0 with
  | none => rfl
  | some k => rfl

theorem create_descriptor_part_ok (env : CreateEnv) (vk_device : Handle) (w w1 : World)
    (h : (create_descriptor_part env vk_device w).out = .ok ((), w1)) :
    (create_descriptor_part env vk_device w).trace =
        create_descriptor_part_trace vk_device w.g_TempVulkan w.next ∧
      w1 = create_descriptor_part_world w := by
  unfold create_descriptor_part at h ⊢
  simp only [bind_run, pure_run, call_run, vkNew_run, check_run, modifyG_run, getWorld_run,
    andThen_ok, andThen_error, andThen_ite, prepend_mk, prepend_ite,
    List.nil_append, List.cons_append, List.append_nil] at h ⊢
  split_ifs at h with h1 h2 h3
  injection h with h
  injection h with _ h
  subst h
  simp only [h1, h2, h3, if_true, create_descriptor_part_trace,
    create_descriptor_part_world, Nat.add_assoc, true_and]

theorem resize_length (v : List Handle) (n : Nat) : (resize v n).length = n := by
  unfold resize
  rw [List.length_append, List.length_take, List.length_replicate]
  omega

theorem getElem_resize (v : List Handle) (n i : Nat) (h : i < (resize v n).length) :
    (resize v n)[i] = v.getD i VK_NULL_HANDLE := by
  rw [resize_length] at h
  unfold resize
  by_cases hi : i < v.length
  · rw [List.getElem_append_left (by rw [List.length_take]; omega), List.getElem_take]
    rw [List.getD_eq_getElem _ _ hi]
  · rw [List.getElem_append_right (by rw [List.length_take]; omega), List.getElem_replicate]
    rw [List.getD_eq_default _ _ (by omega)]

theorem resize_two_set (v : List Handle) (a b : Handle) :
    ((resize v 2).set 0 a).set 1 b = [a, b] := by
  have hl := resize_length v 2
  match hr : resize v 2, hl with
  | [x, y], _ => rfl

set_option maxHeartbeats 1000000 in
theorem create_swapchain_part_ok (env : CreateEnv)
    (vk_physical_device vk_surface vk_device : Handle) (w w1 : World)
    (h : (create_swapchain_part env vk_physical_device vk_surface vk_device w).out
      = .ok ((), w1)) :
    (create_swapchain_part env vk_physical_device vk_surface vk_device w).trace =
        create_swapchain_part_trace env vk_physical_device vk_surface vk_device w.next ∧
      w1 = create_swapchain_part_world env w ∧ 2 ≤ env.image_count_queried ∧
      env.image_count_written = 2 := by
  unfold create_swapchain_part at h ⊢
  simp only [create_image_views_loop, create_framebuffers_loop,
    bind_run, pure_run, vk_run, call_run, vkNew_run, vkNewArray_run, check_run, assert_run,
    index_run, modifyG_run, getWorld_run,
    andThen_ok, andThen_error, andThen_ite, andThen_dite, prepend_mk, prepend_ite,
    prepend_dite, resize_length, getElem_resize, resize_two_set, List.length_set,
    List.length_cons, List.length_nil,
    List.nil_append, List.cons_append, List.append_nil, Nat.reduceAdd, Nat.reduceLT,
    ↓reduceIte, ↓reduceDIte] at h ⊢
  have h1 : env.vkGetPhysicalDeviceSurfaceCapabilitiesKHR = VK_SUCCESS := by
    by_contra hn; rw [if_neg hn] at h; cases h
  rw [if_pos h1] at h
  have h2 : env.vkGetPhysicalDeviceSurfaceFormatsKHR_count = VK_SUCCESS := by
    by_contra hn; rw [if_neg hn] at h; cases h
  rw [if_pos h2] at h
  have h3 : env.vkGetPhysicalDeviceSurfaceFormatsKHR_data = VK_SUCCESS := by
    by_contra hn; rw [if_neg hn] at h; cases h
  rw [if_pos h3] at h
  have h4 : 0 < env.formats.length := by
    by_contra hn; rw [dif_neg hn] at h; cases h
  rw [dif_pos h4] at h
  have h5 : (env.formats[0].format == VK_FORMAT_B8G8R8A8_UNORM &&
      env.formats[0].colorSpace == VK_COLOR_SPACE_SRGB_NONLINEAR_KHR) = true := by
    by_contra hn; rw [if_neg hn] at h; cases h
  rw [if_pos h5] at h
  have h6 : env.vkCreateSwapchainKHR = VK_SUCCESS := by
    by_contra hn; rw [if_neg hn] at h; cases h
  rw [if_pos h6] at h
  have h7 : env.vkGetSwapchainImagesKHR_count = VK_SUCCESS := by
    by_contra hn; rw [if_neg hn] at h; cases h
  rw [if_pos h7] at h
  have h8 : env.vkGetSwapchainImagesKHR_data = VK_SUCCESS := by
    by_contra hn; rw [if_neg hn] at h; cases h
  rw [if_pos h8] at h
  have h9 : (2 == env.image_count_written) = true := by
    by_contra hn; rw [if_neg hn] at h; cases h
  rw [if_pos h9] at h
  have h10 : 0 < env.image_count_queried := by
    by_contra hn; rw [dif_neg hn] at h; cases h
  rw [dif_pos h10] at h
  have h11 : env.vkCreateImageView 0 = VK_SUCCESS := by
    by_contra hn; rw [if_neg hn] at h; cases h
  rw [if_pos h11] at h
  have h12 : 1 < env.image_count_queried := by
    by_contra hn; rw [dif_neg hn] at h; cases h
  rw [dif_pos h12] at h
  have h13 : env.vkCreateImageView 1 = VK_SUCCESS := by
    by_contra hn; rw [if_neg hn] at h; cases h
  rw [if_pos h13] at h
  have h14 : env.vkCreateRenderPass = VK_SUCCESS := by
    by_contra hn; rw [if_neg hn] at h; cases h
  rw [if_pos h14] at h
  have h15 : env.vkCreateFramebuffer 0 = VK_SUCCESS := by
    by_contra hn; rw [if_neg hn] at h; cases h
  rw [if_pos h15] at h
  have h16 : env.vkCreateFramebuffer 1 = VK_SUCCESS := by
    by_contra hn; rw [if_neg hn] at h; cases h
  rw [if_pos h16] at h
  injection h with h
  injection h with _ h
  subst h
  have hcount : env.image_count_written = 2 := by
    have : 2 = env.image_count_written := by simpa using h9
    exact this.symm
  simp only [h1, h2, h3, h4, h5, h6, h7, h8, h10, h11, h12, h13, h14, h15, h16, hcount,
    ↓reduceIte, ↓reduceDIte, create_swapchain_part_trace, create_swapchain_part_world,
    newHandles, List.getD_cons_zero, List.getD_cons_succ, Nat.add_assoc, Nat.reduceAdd,
    Nat.add_zero, Nat.zero_add, true_and, and_true, beq_self_eq_true,
    List.getElem_cons_zero, List.getElem_cons_succ]
  omega

theorem create_uniform_buffer_part_ok (env : CreateEnv)
    (window vk_physical_device vk_device : Handle) (w w1 : World)
    (h : (create_uniform_buffer_part env window vk_physical_device vk_device w).out
      = .ok ((), w1)) :
    (create_uniform_buffer_part env window vk_physical_device vk_device w).trace =
        create_uniform_buffer_part_trace env window vk_physical_device vk_device w.next ∧
      w1 = create_uniform_buffer_part_world w := by
  unfold create_uniform_buffer_part at h ⊢
  simp only [bind_run, pure_run, vk_run, call_run, callNew_run, vkNew_run, vkNewArray_run,
    check_run, assert_run, index_run, modifyG_run, setRecreate_run, getWorld_run,
    run_find_memory_type_run,
    andThen_ok, andThen_error, andThen_ite, andThen_dite, prepend_mk, prepend_ite,
    prepend_dite, List.nil_append, List.cons_append, List.append_nil, Nat.reduceAdd,
    Nat.reduceLT, ↓reduceIte, ↓reduceDIte] at h ⊢
  have h1 : env.vkCreateBuffer_uniform = VK_SUCCESS := by
    by_contra hn; rw [if_neg hn] at h; cases h
  rw [if_pos h1] at h
  have h2 : (find_memory_type env.mem_props env.memoryTypeBits_uniform
      (VK_MEMORY_PROPERTY_HOST_VISIBLE_BIT ||| VK_MEMORY_PROPERTY_HOST_COHERENT_BIT)).toBool
      = true := by
    by_contra hn; rw [if_neg hn] at h; cases h
  rw [if_pos h2] at h
  have h3 : env.vkAllocateMemory_uniform = VK_SUCCESS := by
    by_contra hn; rw [if_neg hn] at h; cases h
  rw [if_pos h3] at h
  have h4 : env.vkBindBufferMemory_uniform = VK_SUCCESS := by
    by_contra hn; rw [if_neg hn] at h; cases h
  rw [if_pos h4] at h
  have h5 : env.vkMapMemory_uniform = VK_SUCCESS := by
    by_contra hn; rw [if_neg hn] at h; cases h
  rw [if_pos h5] at h
  injection h with h
  injection h with _ h
  subst h
  simp only [h1, h2, h3, h4, h5,
    ↓reduceIte, create_uniform_buffer_part_trace, create_uniform_buffer_part_world,
    find_memory_type_trace, Nat.add_assoc, Nat.reduceAdd, Nat.add_zero, true_and, and_true,
    List.nil_append, List.cons_append, List.append_nil, and_self]

set_option maxHeartbeats 1000000 in
theorem create_texture_part_ok (env : CreateEnv)
    (vk_physical_device vk_device vk_graphics_queue vk_command_pool : Handle)
    (w w1 : World)
    (h : (create_texture_part env vk_physical_device vk_device vk_graphics_queue
      vk_command_pool w).out = .ok ((), w1)) :
    (create_texture_part env vk_physical_device vk_device vk_graphics_queue
        vk_command_pool w).trace =
        create_texture_part_trace env vk_physical_device vk_device vk_graphics_queue
          vk_command_pool w.next ∧
      w1 = create_texture_part_world w := by
  unfold create_texture_part at h ⊢
  simp only [bind_run, pure_run, vk_run, call_run, callNew_run, vkNew_run, vkNewArray_run,
    check_run, assert_run, index_run, modifyG_run, setRecreate_run, getWorld_run,
    run_find_memory_type_run,
    andThen_ok, andThen_error, andThen_ite, andThen_dite, prepend_mk, prepend_ite,
    prepend_dite, List.nil_append, List.cons_append, List.append_nil, Nat.reduceAdd,
    Nat.reduceLT, ↓reduceIte, ↓reduceDIte] at h ⊢
  have h1 : env.vkCreateBuffer_staging = VK_SUCCESS := by
    by_contra hn; rw [if_neg hn] at h; cases h
  rw [if_pos h1] at h
  have h2 : (find_memory_type env.mem_props env.memoryTypeBits_staging
      (VK_MEMORY_PROPERTY_HOST_VISIBLE_BIT ||| VK_MEMORY_PROPERTY_HOST_COHERENT_BIT)).toBool
      = true := by
    by_contra hn; rw [if_neg hn] at h; cases h
  rw [if_pos h2] at h
  have h3 : env.vkAllocateMemory_staging = VK_SUCCESS := by
    by_contra hn; rw [if_neg hn] at h; cases h
  rw [if_pos h3] at h
  have h4 : env.vkBindBufferMemory_staging = VK_SUCCESS := by
    by_contra hn; rw [if_neg hn] at h; cases h
  rw [if_pos h4] at h
  have h5 : env.vkMapMemory_staging = VK_SUCCESS := by
    by_contra hn; rw [if_neg hn] at h; cases h
  rw [if_pos h5] at h
  have h6 : env.vkCreateImage = VK_SUCCESS := by
    by_contra hn; rw [if_neg hn] at h; cases h
  rw [if_pos h6] at h
  have h7 : (find_memory_type env.mem_props env.memoryTypeBits_texture
      VK_MEMORY_PROPERTY_DEVICE_LOCAL_BIT).toBool = true := by
    by_contra hn; rw [if_neg hn] at h; cases h
  rw [if_pos h7] at h
  have h8 : env.vkAllocateMemory_texture = VK_SUCCESS := by
    by_contra hn; rw [if_neg hn] at h; cases h
  rw [if_pos h8] at h
  have h9 : env.vkBindImageMemory = VK_SUCCESS := by
    by_contra hn; rw [if_neg hn] at h; cases h
  rw [if_pos h9] at h
  have h10 : env.vkAllocateCommandBuffers = VK_SUCCESS := by
    by_contra hn; rw [if_neg hn] at h; cases h
  rw [if_pos h10] at h
  have h11 : env.vkBeginCommandBuffer = VK_SUCCESS := by
    by_contra hn; rw [if_neg hn] at h; cases h
  rw [if_pos h11] at h
  have h12 : env.vkEndCommandBuffer = VK_SUCCESS := by
    by_contra hn; rw [if_neg hn] at h; cases h
  rw [if_pos h12] at h
  have h13 : env.vkQueueSubmit = VK_SUCCESS := by
    by_contra hn; rw [if_neg hn] at h; cases h
  rw [if_pos h13] at h
  have h14 : env.vkQueueWaitIdle = VK_SUCCESS := by
    by_contra hn; rw [if_neg hn] at h; cases h
  rw [if_pos h14] at h
  have h15 : env.vkCreateImageView_texture = VK_SUCCESS := by
    by_contra hn; rw [if_neg hn] at h; cases h
  rw [if_pos h15] at h
  have h16 : env.vkCreateSampler = VK_SUCCESS := by
    by_contra hn; rw [if_neg hn] at h; cases h
  rw [if_pos h16] at h
  injection h with h
  injection h with _ h
  subst h
  simp only [h1, h2, h3, h4, h5, h6, h7, h8, h9, h10, h11, h12, h13, h14, h15, h16,
    ↓reduceIte, create_texture_part_trace, create_texture_part_world,
    find_memory_type_trace, Nat.add_assoc, Nat.reduceAdd, Nat.add_zero, true_and, and_true,
    List.nil_append, List.cons_append, List.append_nil, and_self]

theorem create_shader_module_run (env : ShaderEnv) (device : Handle) (site : Site)
    (w : World) :
    create_shader_module env device site w =
      if env.file_opened = true then
        if env.buffer_allocated = true then
          if env.vkCreateShaderModule = VK_SUCCESS then
            ⟨create_shader_module_trace device ⟨site, 0, w.next⟩,
              .ok (⟨site, 0, w.next⟩, { w with next := w.next + 1 })⟩
          else
            ⟨[ ⟨.create_shader_module, [device], [], [], none⟩, ⟨.fopen, [], [], [], none⟩,
               ⟨.malloc, [], [], [], none⟩, ⟨.fread, [], [], [], none⟩,
               ⟨.fclose, [], [], [], none⟩,
               ⟨.vkCreateShaderModule, [device], [], [], some env.vkCreateShaderModule⟩ ],
              .error (.fatal "Failed to create shader module")⟩
        else
          ⟨[ ⟨.create_shader_module, [device], [], [], none⟩, ⟨.fopen, [], [], [], none⟩,
             ⟨.malloc, [], [], [], none⟩ ], .error .assert_failed⟩
      else
        ⟨[ ⟨.create_shader_module, [device], [], [], none⟩, ⟨.fopen, [], [], [], none⟩ ],
          .error .assert_failed⟩ := by
  unfold create_shader_module
  simp only [bind_run, pure_run, vk_run, call_run, callNew_run, vkNew_run, vkNewArray_run,
    check_run, assert_run, index_run, modifyG_run, setRecreate_run, getWorld_run,
    run_find_memory_type_run,
    andThen_ok, andThen_error, andThen_ite, andThen_dite, prepend_mk, prepend_ite,
    prepend_dite, List.nil_append, List.cons_append, List.append_nil, Nat.reduceAdd,
    Nat.reduceLT, ↓reduceIte, ↓reduceDIte]
  by_cases h1 : env.file_opened = true
  · by_cases h2 : env.buffer_allocated = true
    · by_cases h3 : env.vkCreateShaderModule = VK_SUCCESS
      · simp only [h1, h2, h3, ↓reduceIte, create_shader_module_trace, Nat.add_zero]
      · simp only [h1, h2, h3, ↓reduceIte, Nat.add_zero]
    · rw [if_pos h1, if_pos h1, if_neg h2, if_neg h2]
  · rw [if_neg h1, if_neg h1]

set_option maxHeartbeats 1000000 in
theorem create_pipeline_part_ok (env : CreateEnv) (window vk_device : Handle)
    (w w1 : World)
    (h : (create_pipeline_part env window vk_device w).out = .ok ((), w1)) :
    (create_pipeline_part env window vk_device w).trace =
        create_pipeline_part_trace window vk_device w.g_TempVulkan w.next ∧
      w1 = create_pipeline_part_world w := by
  unfold create_pipeline_part at h ⊢
  simp only [create_shader_module_run, bind_run, pure_run, vk_run, call_run, callNew_run, vkNew_run, vkNewArray_run,
    check_run, assert_run, index_run, modifyG_run, setRecreate_run, getWorld_run,
    run_find_memory_type_run,
    andThen_ok, andThen_error, andThen_ite, andThen_dite, prepend_mk, prepend_ite,
    prepend_dite, List.nil_append, List.cons_append, List.append_nil, Nat.reduceAdd,
    Nat.reduceLT, ↓reduceIte, ↓reduceDIte] at h ⊢
  have h1 : env.vert_shader.file_opened = true := by
    by_contra hn; rw [if_neg hn] at h; cases h
  rw [if_pos h1] at h
  have h2 : env.vert_shader.buffer_allocated = true := by
    by_contra hn; rw [if_neg hn] at h; cases h
  rw [if_pos h2] at h
  have h3 : env.vert_shader.vkCreateShaderModule = VK_SUCCESS := by
    by_contra hn; rw [if_neg hn] at h; cases h
  rw [if_pos h3] at h
  have h4 : env.frag_shader.file_opened = true := by
    by_contra hn; rw [if_neg hn] at h; cases h
  rw [if_pos h4] at h
  have h5 : env.frag_shader.buffer_allocated = true := by
    by_contra hn; rw [if_neg hn] at h; cases h
  rw [if_pos h5] at h
  have h6 : env.frag_shader.vkCreateShaderModule = VK_SUCCESS := by
    by_contra hn; rw [if_neg hn] at h; cases h
  rw [if_pos h6] at h
  have h7 : env.vkCreatePipelineLayout = VK_SUCCESS := by
    by_contra hn; rw [if_neg hn] at h; cases h
  rw [if_pos h7] at h
  have h8 : env.vkCreateGraphicsPipelines = VK_SUCCESS := by
    by_contra hn; rw [if_neg hn] at h; cases h
  rw [if_pos h8] at h
  have h9 : env.vkCreateSemaphore_image_available = VK_SUCCESS := by
    by_contra hn; rw [if_neg hn] at h; cases h
  rw [if_pos h9] at h
  have h10 : env.vkCreateSemaphore_render_finished = VK_SUCCESS := by
    by_contra hn; rw [if_neg hn] at h; cases h
  rw [if_pos h10] at h
  injection h with h
  injection h with _ h
  subst h
  simp only [h1, h2, h3, h4, h5, h6, h7, h8, h9, h10,
    ↓reduceIte, create_pipeline_part_trace, create_pipeline_part_world,
    create_shader_module_trace, Nat.add_assoc, Nat.reduceAdd, Nat.add_zero, true_and,
    and_true, List.nil_append, List.cons_append, List.append_nil, and_self]

theorem bind_ok_inv {α β : Type} (m : Prog α) (f : α → Prog β) (w w2 : World) (b : β)
    (h : ((m >>= f) w).out = .ok (b, w2)) :
    ∃ a w1, (m w).out = .ok (a, w1) ∧ (f a w1).out = .ok (b, w2) ∧
      ((m >>= f) w).trace = (m w).trace ++ (f a w1).trace := by
  rw [bind_run] at h ⊢
  unfold Result.andThen at h ⊢
  cases hm : (m w).out with
  | error e =>
    rw [hm] at h
    cases h
  | ok p =>
    obtain ⟨a, w1⟩ := p
    rw [hm] at h
    exact ⟨a, w1, rfl, h, by simp only [hm, Result.prepend]⟩

theorem bind_error {α β : Type} (m : Prog α) (f : α → Prog β) (w : World) (e : Abort)
    (h : (m w).out = .error e) : (m >>= f) w = ⟨(m w).trace, .error e⟩ := by
  rw [bind_run]
  unfold Result.andThen
  rw [h]

theorem bind_ok {α β : Type} (m : Prog α) (f : α → Prog β) (w w1 : World) (a : α)
    (h : (m w).out = .ok (a, w1)) :
    (m >>= f) w = Result.prepend (m w).trace (f a w1) := by
  rw [bind_run]
  unfold Result.andThen
  rw [h]

/-- When `create_basically_everything` returns, its calls are those of `create_trace`
and the state it leaves is `create_world`. -/
theorem create_basically_everything_ok (env : CreateEnv)
    (window vk_physical_device vk_surface vk_device vk_graphics_queue vk_command_pool :
      Handle) (w w1 : World)
    (h : (create_basically_everything env window vk_physical_device vk_surface vk_device
      vk_graphics_queue vk_command_pool w).out = .ok ((), w1)) :
    (create_basically_everything env window vk_physical_device vk_surface vk_device
        vk_graphics_queue vk_command_pool w).trace =
        create_trace env window vk_physical_device vk_surface vk_device vk_graphics_queue
          vk_command_pool w ∧
      w1 = create_world env w := by
  unfold create_basically_everything at h ⊢
  obtain ⟨_, w0, h0, h, ht0⟩ := bind_ok_inv _ _ _ _ _ h
  rw [ht0]
  rw [call_run] at h0
  injection h0 with h0
  injection h0 with _ h0
  subst h0
  obtain ⟨_, wa, ha, h, hta⟩ := bind_ok_inv _ _ _ _ _ h
  obtain ⟨hA, rfl, _, _⟩ := create_swapchain_part_ok _ _ _ _ _ _ ha
  obtain ⟨_, wb, hb, h, htb⟩ := bind_ok_inv _ _ _ _ _ h
  obtain ⟨hB, rfl⟩ := create_uniform_buffer_part_ok _ _ _ _ _ _ hb
  obtain ⟨_, wc, hc, h, htc⟩ := bind_ok_inv _ _ _ _ _ h
  obtain ⟨hC, rfl⟩ := create_texture_part_ok _ _ _ _ _ _ _ hc
  obtain ⟨_, wd, hd, h, htd⟩ := bind_ok_inv _ _ _ _ _ h
  obtain ⟨hD, rfl⟩ := create_descriptor_part_ok _ _ _ _ hd
  obtain ⟨hE, rfl⟩ := create_pipeline_part_ok _ _ _ _ _ h
  rw [hta, htb, htc, htd, hA, hB, hC, hD, hE]
  exact ⟨rfl, rfl⟩

theorem destroy_each_run (fn : Fn) (vk_device : Handle) (l : List Handle) (w : World) :
    destroy_each fn vk_device l w =
      ⟨l.map (fun h => ⟨fn, [vk_device, h], [], [], none⟩), .ok ((), w)⟩ := by
  induction l with
  | nil => rfl
  | cons x rest ih =>
    unfold destroy_each
    rw [bind_run, call_run, andThen_ok, ih, prepend_mk]
    rfl

/-- The function `destroy_basically_everything` always returns, leaves the state as it
is, and its calls are those of `destroy_trace`. -/
theorem destroy_basically_everything_run (vk_device : Handle) (w : World) :
    destroy_basically_everything vk_device w =
      ⟨destroy_trace vk_device w.g_TempVulkan, .ok ((), w)⟩ := by
  unfold destroy_basically_everything
  simp only [bind_run, call_run, getWorld_run, destroy_each_run, andThen_ok, prepend_mk,
    destroy_trace, List.nil_append, List.cons_append, List.append_nil, List.append_assoc]

/-! ## Theorems: what `create_basically_everything` creates and
`destroy_basically_everything` releases -/

theorem created_create_trace (env : CreateEnv) (a b c d e f : Handle) (w : World) :
    created (create_trace env a b c d e f w) = create_created w.next := by
  simp only [create_trace, create_swapchain_part_trace, create_uniform_buffer_part_trace,
    create_texture_part_trace, create_descriptor_part_trace, create_pipeline_part_trace,
    create_shader_module_trace, find_memory_type_trace,
    create_swapchain_part_world, create_uniform_buffer_part_world,
    create_texture_part_world, create_descriptor_part_world, create_pipeline_part_world,
    List.cons_append, List.nil_append, List.append_assoc,
    created, Event.created, Fn.creates, Nat.add_assoc, Nat.reduceAdd, ↓reduceIte,
    Bool.false_eq_true, List.append_nil, create_created]

theorem released_create_trace (env : CreateEnv) (a b c d e f : Handle) (w : World)
    (history : List Event) :
    released history (create_trace env a b c d e f w) = create_released w.next := by
  simp only [create_trace, create_swapchain_part_trace, create_uniform_buffer_part_trace,
    create_texture_part_trace, create_descriptor_part_trace, create_pipeline_part_trace,
    create_shader_module_trace, find_memory_type_trace,
    create_swapchain_part_world, create_uniform_buffer_part_world,
    create_texture_part_world, create_descriptor_part_world, create_pipeline_part_world,
    List.cons_append, List.nil_append, List.append_assoc,
    released, Event.released, Event.destroyed, Nat.add_assoc, Nat.reduceAdd, ↓reduceIte,
    reduceCtorEq, List.append_nil, create_released, List.drop_succ_cons, List.drop_zero,
    List.take_succ_cons, List.take_zero, List.drop_nil, List.take_nil]

theorem allocatedFrom_create_trace (env : CreateEnv) (a b c d e f : Handle) (w : World) :
    allocatedFrom .vkAllocateDescriptorSets (create_trace env a b c d e f w)
        ⟨.descriptor_pool, 0, w.next + 18⟩ = [⟨.descriptor_set, 0, w.next + 19⟩] := by
  simp only [create_trace, create_swapchain_part_trace, create_uniform_buffer_part_trace,
    create_texture_part_trace, create_descriptor_part_trace, create_pipeline_part_trace,
    create_shader_module_trace, find_memory_type_trace,
    create_swapchain_part_world, create_uniform_buffer_part_world,
    create_texture_part_world, create_descriptor_part_world, create_pipeline_part_world,
    List.cons_append, List.nil_append, List.append_assoc,
    allocatedFrom, Nat.add_assoc, Nat.reduceAdd, ↓reduceIte,
    reduceCtorEq, List.append_nil, List.drop_succ_cons, List.drop_zero,
    List.take_succ_cons, List.take_zero, List.drop_nil, List.take_nil, false_and, true_and]

set_option maxHeartbeats 1000000 in
theorem released_destroy_trace (env : CreateEnv) (a b c d e f : Handle) (w : World) :
    released (create_trace env a b c d e f w)
        (destroy_trace d (create_world env w).g_TempVulkan) = destroy_released w.next := by
  simp only [destroy_trace, create_world,
    create_swapchain_part_world, create_uniform_buffer_part_world,
    create_texture_part_world, create_descriptor_part_world, create_pipeline_part_world,
    List.cons_append, List.nil_append, List.append_assoc, List.map_cons, List.map_nil,
    released, Event.released, Event.destroyed, Nat.add_assoc, Nat.reduceAdd, ↓reduceIte,
    reduceCtorEq, List.append_nil, destroy_released, List.drop_succ_cons, List.drop_zero,
    List.take_succ_cons, List.take_zero, List.drop_nil, List.take_nil,
    allocatedFrom_create_trace]

set_option maxHeartbeats 1000000 in
theorem create_destroy_release_count (n : Nat) (h : Handle)
    (hc : h ∈ create_created n) (hr : h ∉ create_released n) :
    (destroy_released n).count h =
      if h.site = .vk_texture_command_buffer then 0 else 1 := by
  simp only [create_created, List.mem_cons, List.mem_singleton, List.not_mem_nil,
    or_false] at hc
  rcases hc with rfl | rfl | rfl | rfl | rfl | rfl | rfl | rfl | rfl | rfl | rfl | rfl | rfl |
    rfl | rfl | rfl | rfl | rfl | rfl | rfl | rfl | rfl | rfl | rfl <;>
  first
  | (exfalso; apply hr; simp [create_released]; done)
  | simp [destroy_released, List.count_cons]

/-! ## Theorems: one iteration of the render loop -/

theorem ite_run {α : Type} (c : Prop) [Decidable c] (f g : Prog α) (w : World) :
    (if c then f else g) w = if c then f w else g w := by
  split <;> rfl

theorem success_ne_suboptimal : (VK_SUCCESS = VK_SUBOPTIMAL_KHR) = False := by
  simp only [VK_SUCCESS, VK_SUBOPTIMAL_KHR]; decide

theorem success_ne_out_of_date : (VK_SUCCESS = VK_ERROR_OUT_OF_DATE_KHR) = False := by
  simp only [VK_SUCCESS, VK_ERROR_OUT_OF_DATE_KHR]; decide

theorem acquire_record_submit_present_run (env : FrameEnv) (L : MainLocals) (w : World) :
    acquire_record_submit_present env L w = frame_result env L w := by
  unfold acquire_record_submit_present frame_result
  by_cases h1 : env.vkAcquireNextImageKHR = VK_SUBOPTIMAL_KHR ∨
      env.vkAcquireNextImageKHR = VK_ERROR_OUT_OF_DATE_KHR
  · simp only [h1, bind_run, pure_run, vk_run, call_run, check_run, index_run, setRecreate_run,
    getWorld_run, ite_run, andThen_ok, andThen_error, andThen_ite, andThen_dite, prepend_mk,
    prepend_ite, prepend_dite, List.nil_append, List.cons_append, List.append_nil,
    frame_trace, List.take_succ_cons, List.take_zero, List.take_nil, ne_eq, ite_not,
    ↓reduceIte, ↓reduceDIte, List.getD_eq_getElem, not_true_eq_false, not_false_eq_true,
    success_ne_suboptimal, success_ne_out_of_date, or_self, not_not]
  by_cases h2 : env.vkAcquireNextImageKHR = VK_SUCCESS
  swap
  · simp only [h1, h2, bind_run, pure_run, vk_run, call_run, check_run, index_run, setRecreate_run,
    getWorld_run, ite_run, andThen_ok, andThen_error, andThen_ite, andThen_dite, prepend_mk,
    prepend_ite, prepend_dite, List.nil_append, List.cons_append, List.append_nil,
    frame_trace, List.take_succ_cons, List.take_zero, List.take_nil, ne_eq, ite_not,
    ↓reduceIte, ↓reduceDIte, List.getD_eq_getElem, not_true_eq_false, not_false_eq_true,
    success_ne_suboptimal, success_ne_out_of_date, or_self, not_not]
  by_cases h3 : env.vkBeginCommandBuffer = VK_SUCCESS
  swap
  · simp only [h1, h2, h3, bind_run, pure_run, vk_run, call_run, check_run, index_run, setRecreate_run,
    getWorld_run, ite_run, andThen_ok, andThen_error, andThen_ite, andThen_dite, prepend_mk,
    prepend_ite, prepend_dite, List.nil_append, List.cons_append, List.append_nil,
    frame_trace, List.take_succ_cons, List.take_zero, List.take_nil, ne_eq, ite_not,
    ↓reduceIte, ↓reduceDIte, List.getD_eq_getElem, not_true_eq_false, not_false_eq_true,
    success_ne_suboptimal, success_ne_out_of_date, or_self, not_not]
  by_cases h4 : env.next_image_index < w.g_TempVulkan.framebuffers.length
  swap
  · simp only [h1, h2, h3, h4, bind_run, pure_run, vk_run, call_run, check_run, index_run, setRecreate_run,
    getWorld_run, ite_run, andThen_ok, andThen_error, andThen_ite, andThen_dite, prepend_mk,
    prepend_ite, prepend_dite, List.nil_append, List.cons_append, List.append_nil,
    frame_trace, List.take_succ_cons, List.take_zero, List.take_nil, ne_eq, ite_not,
    ↓reduceIte, ↓reduceDIte, List.getD_eq_getElem, not_true_eq_false, not_false_eq_true,
    success_ne_suboptimal, success_ne_out_of_date, or_self, not_not]
  by_cases h5 : env.vkEndCommandBuffer = VK_SUCCESS
  swap
  · simp only [h1, h2, h3, h4, h5, bind_run, pure_run, vk_run, call_run, check_run, index_run, setRecreate_run,
    getWorld_run, ite_run, andThen_ok, andThen_error, andThen_ite, andThen_dite, prepend_mk,
    prepend_ite, prepend_dite, List.nil_append, List.cons_append, List.append_nil,
    frame_trace, List.take_succ_cons, List.take_zero, List.take_nil, ne_eq, ite_not,
    ↓reduceIte, ↓reduceDIte, List.getD_eq_getElem, not_true_eq_false, not_false_eq_true,
    success_ne_suboptimal, success_ne_out_of_date, or_self, not_not]
  by_cases h6 : env.vkQueueSubmit = VK_SUCCESS
  swap
  · simp only [h1, h2, h3, h4, h5, h6, bind_run, pure_run, vk_run, call_run, check_run, index_run, setRecreate_run,
    getWorld_run, ite_run, andThen_ok, andThen_error, andThen_ite, andThen_dite, prepend_mk,
    prepend_ite, prepend_dite, List.nil_append, List.cons_append, List.append_nil,
    frame_trace, List.take_succ_cons, List.take_zero, List.take_nil, ne_eq, ite_not,
    ↓reduceIte, ↓reduceDIte, List.getD_eq_getElem, not_true_eq_false, not_false_eq_true,
    success_ne_suboptimal, success_ne_out_of_date, or_self, not_not]
  by_cases h7 : env.vkQueuePresentKHR = VK_SUBOPTIMAL_KHR ∨
      env.vkQueuePresentKHR = VK_ERROR_OUT_OF_DATE_KHR
  · simp only [h1, h2, h3, h4, h5, h6, h7, bind_run, pure_run, vk_run, call_run, check_run, index_run, setRecreate_run,
    getWorld_run, ite_run, andThen_ok, andThen_error, andThen_ite, andThen_dite, prepend_mk,
    prepend_ite, prepend_dite, List.nil_append, List.cons_append, List.append_nil,
    frame_trace, List.take_succ_cons, List.take_zero, List.take_nil, ne_eq, ite_not,
    ↓reduceIte, ↓reduceDIte, List.getD_eq_getElem, not_true_eq_false, not_false_eq_true,
    success_ne_suboptimal, success_ne_out_of_date, or_self, not_not]
  by_cases h8 : env.vkQueuePresentKHR = VK_SUCCESS
  swap
  · simp only [h1, h2, h3, h4, h5, h6, h7, h8, bind_run, pure_run, vk_run, call_run, check_run, index_run, setRecreate_run,
    getWorld_run, ite_run, andThen_ok, andThen_error, andThen_ite, andThen_dite, prepend_mk,
    prepend_ite, prepend_dite, List.nil_append, List.cons_append, List.append_nil,
    frame_trace, List.take_succ_cons, List.take_zero, List.take_nil, ne_eq, ite_not,
    ↓reduceIte, ↓reduceDIte, List.getD_eq_getElem, not_true_eq_false, not_false_eq_true,
    success_ne_suboptimal, success_ne_out_of_date, or_self, not_not]
  by_cases h9 : env.vkQueueWaitIdle = VK_SUCCESS
  · simp only [h1, h2, h3, h4, h5, h6, h7, h8, h9, bind_run, pure_run, vk_run, call_run, check_run, index_run, setRecreate_run,
    getWorld_run, ite_run, andThen_ok, andThen_error, andThen_ite, andThen_dite, prepend_mk,
    prepend_ite, prepend_dite, List.nil_append, List.cons_append, List.append_nil,
    frame_trace, List.take_succ_cons, List.take_zero, List.take_nil, ne_eq, ite_not,
    ↓reduceIte, ↓reduceDIte, List.getD_eq_getElem, not_true_eq_false, not_false_eq_true,
    success_ne_suboptimal, success_ne_out_of_date, or_self, not_not]
  · simp only [h1, h2, h3, h4, h5, h6, h7, h8, h9, bind_run, pure_run, vk_run, call_run, check_run, index_run, setRecreate_run,
    getWorld_run, ite_run, andThen_ok, andThen_error, andThen_ite, andThen_dite, prepend_mk,
    prepend_ite, prepend_dite, List.nil_append, List.cons_append, List.append_nil,
    frame_trace, List.take_succ_cons, List.take_zero, List.take_nil, ne_eq, ite_not,
    ↓reduceIte, ↓reduceDIte, List.getD_eq_getElem, not_true_eq_false, not_false_eq_true,
    success_ne_suboptimal, success_ne_out_of_date, or_self, not_not]

/-! ## Theorems: which functions a piece can call -/

theorem allFn_bind {α β : Type} {Q : Fn → Prop} {m : Prog α} {f : α → Prog β}
    (hm : AllFn Q m) (hf : ∀ a, AllFn Q (f a)) : AllFn Q (m >>= f) := by
  intro w e he
  rw [bind_run] at he
  unfold Result.andThen at he
  split at he
  · rename_i a w1 _
    rcases List.mem_append.1 he with h | h
    · exact hm w e h
    · exact hf a w1 e h
  · exact hm w e he

theorem allFn_bind_pair {α₁ α₂ β : Type} {Q : Fn → Prop} {m : Prog (α₁ × α₂)}
    {f : α₁ × α₂ → Prog β}
    (hm : AllFn Q m) (hf : ∀ a b, AllFn Q (f (a, b))) : AllFn Q (m >>= f) :=
  allFn_bind hm (fun x => hf x.1 x.2)

theorem allFn_pure {α : Type} {Q : Fn → Prop} (a : α) : AllFn Q (pure a : Prog α) := by
  intro w e he; cases he

theorem allFn_vk {Q : Fn → Prop} {fn : Fn} {args : List Handle} {data : List Nat}
    {r : VkResult} (h : Q fn) : AllFn Q (vk fn args data r) := by
  intro w e he
  simp only [vk, List.mem_singleton] at he
  subst he; exact h

theorem allFn_call {Q : Fn → Prop} {fn : Fn} {args : List Handle} {data : List Nat}
    (h : Q fn) : AllFn Q (call fn args data) := by
  intro w e he
  simp only [call, emit, List.mem_singleton] at he
  subst he; exact h

theorem allFn_vkNew {Q : Fn → Prop} {fn : Fn} {args : List Handle} {site : Site} {i : Nat}
    {r : VkResult} (h : Q fn) : AllFn Q (vkNew fn args site i r) := by
  intro w e he
  rw [vkNew_run] at he
  simp only [List.mem_singleton] at he
  subst he; exact h

theorem allFn_vkNewArray {Q : Fn → Prop} {fn : Fn} {args : List Handle} {site : Site}
    {n : Nat} {r : VkResult} (h : Q fn) : AllFn Q (vkNewArray fn args site n r) := by
  intro w e he
  rw [vkNewArray_run] at he
  simp only [List.mem_singleton] at he
  subst he; exact h

theorem allFn_check {Q : Fn → Prop} {r : VkResult} {msg : String} :
    AllFn Q (check r msg) := by
  intro w e he
  rw [check_run] at he
  split at he <;> cases he

theorem allFn_assert {Q : Fn → Prop} {c : Bool} : AllFn Q (assert c) := by
  intro w e he
  rw [assert_run] at he
  split at he <;> cases he

theorem allFn_index {α : Type} {Q : Fn → Prop} {v : List α} {i : Nat} :
    AllFn Q (index v i) := by
  intro w e he
  rw [index_run] at he
  split at he <;> cases he

theorem allFn_fatal {α : Type} {Q : Fn → Prop} {msg : String} :
    AllFn Q (fatal msg : Prog α) := by
  intro w e he; cases he

theorem allFn_modifyG {Q : Fn → Prop}
    {f : VulkanBasicallyEverything → VulkanBasicallyEverything} : AllFn Q (modifyG f) := by
  intro w e he; cases he

theorem allFn_setRecreate {Q : Fn → Prop} {b : Bool} : AllFn Q (setRecreate b) := by
  intro w e he; cases he

theorem allFn_getWorld {Q : Fn → Prop} : AllFn Q getWorld := by
  intro w e he; cases he

theorem allFn_run_find_memory_type {Q : Fn → Prop}
    {mem_props : VkPhysicalDeviceMemoryProperties} {pd : Handle} {type_filter props : Nat}
    (h1 : Q .find_memory_type) (h2 : Q .vkGetPhysicalDeviceMemoryProperties) :
    AllFn Q (run_find_memory_type mem_props pd type_filter props) := by
  intro w e he
  rw [run_find_memory_type_run] at he
  have he' : e ∈ find_memory_type_trace pd type_filter props := by
    split at he <;> exact he
  simp only [find_memory_type_trace, List.mem_cons, List.mem_singleton, List.not_mem_nil,
    or_false] at he'
  rcases he' with rfl | rfl
  · exact h1
  · exact h2

theorem allFn_create_shader_module {env : ShaderEnv} {device : Handle} {site : Site} :
    AllFn (fun fn => createFns.contains fn = true) (create_shader_module env device site) := by
  intro w e he
  rw [create_shader_module_run] at he
  split at he
  · split at he
    · split at he
      · simp only [create_shader_module_trace, List.mem_cons, List.mem_singleton,
          List.not_mem_nil, or_false] at he
        rcases he with rfl | rfl | rfl | rfl | rfl | rfl | rfl <;> rfl
      · simp only [List.mem_cons, List.mem_singleton, List.not_mem_nil, or_false] at he
        rcases he with rfl | rfl | rfl | rfl | rfl | rfl <;> rfl
    · simp only [List.mem_cons, List.mem_singleton, List.not_mem_nil, or_false] at he
      rcases he with rfl | rfl | rfl <;> rfl
  · simp only [List.mem_cons, List.mem_singleton, List.not_mem_nil, or_false] at he
    rcases he with rfl | rfl <;> rfl

theorem allFn_create_image_views_loop (env : CreateEnv) (dev : Handle)
    (images : List Handle) (fuel i : Nat) :
    AllFn (fun fn => createFns.contains fn = true) (create_image_views_loop env dev images fuel i) := by
  induction fuel generalizing i with
  | zero => exact allFn_pure _
  | succ fuel ih =>
    unfold create_image_views_loop
    refine allFn_bind allFn_index (fun _ => allFn_bind_pair
      (allFn_vkNew rfl) (fun _ _ => allFn_bind allFn_modifyG
        (fun _ => allFn_bind allFn_check (fun _ => ih _))))

theorem allFn_create_framebuffers_loop (env : CreateEnv) (dev : Handle) (fuel i : Nat) :
    AllFn (fun fn => createFns.contains fn = true) (create_framebuffers_loop env dev fuel i) := by
  induction fuel generalizing i with
  | zero => exact allFn_pure _
  | succ fuel ih =>
    unfold create_framebuffers_loop
    refine allFn_bind allFn_getWorld (fun _ => allFn_bind allFn_index (fun _ =>
      allFn_bind_pair (allFn_vkNew rfl) (fun _ _ =>
        allFn_bind allFn_modifyG (fun _ => allFn_bind allFn_check (fun _ => ih _)))))

set_option maxHeartbeats 1000000 in
theorem allFn_create_swapchain_part (env : CreateEnv) (a b c : Handle) :
    AllFn (fun fn => createFns.contains fn = true) (create_swapchain_part env a b c) := by
  unfold create_swapchain_part
  repeat (first
    | exact allFn_check
    | exact allFn_assert
    | exact allFn_index
    | exact allFn_modifyG
    | exact allFn_getWorld
    | exact allFn_pure _
    | exact allFn_create_shader_module
    | exact allFn_create_image_views_loop _ _ _ _ _
    | exact allFn_create_framebuffers_loop _ _ _ _
    | exact allFn_vk rfl
    | exact allFn_call rfl
    | exact allFn_vkNew rfl
    | exact allFn_vkNewArray rfl
    | exact allFn_run_find_memory_type rfl rfl
    | with_reducible refine allFn_bind_pair ?_ (fun _ _ => ?_)
    | with_reducible refine allFn_bind ?_ (fun _ => ?_))

set_option maxHeartbeats 1000000 in
theorem allFn_create_uniform_buffer_part (env : CreateEnv) (a b c : Handle) :
    AllFn (fun fn => createFns.contains fn = true) (create_uniform_buffer_part env a b c) := by
  unfold create_uniform_buffer_part
  repeat (first
    | exact allFn_check
    | exact allFn_assert
    | exact allFn_index
    | exact allFn_modifyG
    | exact allFn_getWorld
    | exact allFn_pure _
    | exact allFn_create_shader_module
    | exact allFn_create_image_views_loop _ _ _ _ _
    | exact allFn_create_framebuffers_loop _ _ _ _
    | exact allFn_vk rfl
    | exact allFn_call rfl
    | exact allFn_vkNew rfl
    | exact allFn_vkNewArray rfl
    | exact allFn_run_find_memory_type rfl rfl
    | with_reducible refine allFn_bind_pair ?_ (fun _ _ => ?_)
    | with_reducible refine allFn_bind ?_ (fun _ => ?_))

set_option maxHeartbeats 1000000 in
theorem allFn_create_texture_part (env : CreateEnv) (a b c d : Handle) :
    AllFn (fun fn => createFns.contains fn = true) (create_texture_part env a b c d) := by
  unfold create_texture_part
  repeat (first
    | exact allFn_check
    | exact allFn_assert
    | exact allFn_index
    | exact allFn_modifyG
    | exact allFn_getWorld
    | exact allFn_pure _
    | exact allFn_create_shader_module
    | exact allFn_create_image_views_loop _ _ _ _ _
    | exact allFn_create_framebuffers_loop _ _ _ _
    | exact allFn_vk rfl
    | exact allFn_call rfl
    | exact allFn_vkNew rfl
    | exact allFn_vkNewArray rfl
    | exact allFn_run_find_memory_type rfl rfl
    | with_reducible refine allFn_bind_pair ?_ (fun _ _ => ?_)
    | with_reducible refine allFn_bind ?_ (fun _ => ?_))

set_option maxHeartbeats 1000000 in
theorem allFn_create_descriptor_part (env : CreateEnv) (a : Handle) :
    AllFn (fun fn => createFns.contains fn = true) (create_descriptor_part env a) := by
  unfold create_descriptor_part
  repeat (first
    | exact allFn_check
    | exact allFn_assert
    | exact allFn_index
    | exact allFn_modifyG
    | exact allFn_getWorld
    | exact allFn_pure _
    | exact allFn_create_shader_module
    | exact allFn_create_image_views_loop _ _ _ _ _
    | exact allFn_create_framebuffers_loop _ _ _ _
    | exact allFn_vk rfl
    | exact allFn_call rfl
    | exact allFn_vkNew rfl
    | exact allFn_vkNewArray rfl
    | exact allFn_run_find_memory_type rfl rfl
    | with_reducible refine allFn_bind_pair ?_ (fun _ _ => ?_)
    | with_reducible refine allFn_bind ?_ (fun _ => ?_))

set_option maxHeartbeats 1000000 in
theorem allFn_create_pipeline_part (env : CreateEnv) (a b : Handle) :
    AllFn (fun fn => createFns.contains fn = true) (create_pipeline_part env a b) := by
  unfold create_pipeline_part
  repeat (first
    | exact allFn_check
    | exact allFn_assert
    | exact allFn_index
    | exact allFn_modifyG
    | exact allFn_getWorld
    | exact allFn_pure _
    | exact allFn_create_shader_module
    | exact allFn_create_image_views_loop _ _ _ _ _
    | exact allFn_create_framebuffers_loop _ _ _ _
    | exact allFn_vk rfl
    | exact allFn_call rfl
    | exact allFn_vkNew rfl
    | exact allFn_vkNewArray rfl
    | exact allFn_run_find_memory_type rfl rfl
    | with_reducible refine allFn_bind_pair ?_ (fun _ _ => ?_)
    | with_reducible refine allFn_bind ?_ (fun _ => ?_))

/-- Whatever the driver answers, `create_basically_everything` calls only the functions
of `createFns`. -/
theorem allFn_create_basically_everything (env : CreateEnv) (a b c d e f : Handle) :
    AllFn (fun fn => createFns.contains fn = true) (create_basically_everything env a b c d e f) := by
  unfold create_basically_everything
  exact allFn_bind (allFn_call rfl) (fun _ =>
    allFn_bind (allFn_create_swapchain_part env b c d) (fun _ =>
    allFn_bind (allFn_create_uniform_buffer_part env a b d) (fun _ =>
    allFn_bind (allFn_create_texture_part env b d e f) (fun _ =>
    allFn_bind (allFn_create_descriptor_part env d) (fun _ =>
    allFn_create_pipeline_part env a d)))))

theorem allFn_destroy_each {Q : Fn → Prop} {fn : Fn} (dev : Handle)
    (l : List Handle) (h : Q fn) : AllFn Q (destroy_each fn dev l) := by
  induction l with
  | nil => exact allFn_pure _
  | cons x rest ih =>
    unfold destroy_each
    exact allFn_bind (allFn_call h) (fun _ => ih)

/-- The function `destroy_basically_everything` calls only the functions of
`destroyFns`. -/
theorem allFn_destroy_basically_everything (vk_device : Handle) :
    AllFn (fun fn => destroyFns.contains fn = true) (destroy_basically_everything vk_device) := by
  unfold destroy_basically_everything
  repeat (first
    | exact allFn_getWorld
    | exact allFn_call rfl
    | exact allFn_destroy_each _ _ (by rfl)
    | with_reducible refine allFn_bind ?_ (fun _ => ?_))

theorem reupload_quad_verts_run (env : FrameEnv) (L : MainLocals) (w : World) :
    reupload_quad_verts env L w =
      if env.vkMapMemory = VK_SUCCESS then ⟨reupload_trace env L, .ok ((), w)⟩
      else ⟨(reupload_trace env L).take 2,
        .error (.fatal "Failed to map vertex buffer memory")⟩ := by
  unfold reupload_quad_verts
  by_cases h : env.vkMapMemory = VK_SUCCESS
  · simp only [h, bind_run, vk_run, call_run, check_run, andThen_ok, prepend_mk,
      ↓reduceIte, reupload_trace, List.nil_append, List.cons_append, List.append_nil]
  · simp only [h, bind_run, vk_run, call_run, check_run, andThen_ok, andThen_error,
      prepend_mk, ↓reduceIte, reupload_trace, List.nil_append, List.cons_append,
      List.append_nil, List.take_succ_cons, List.take_zero]

theorem andThen_prepend {α β : Type} (t : List Event) (r : Result α) (f : α → Prog β) :
    (Result.prepend t r).andThen f = Result.prepend t (r.andThen f) := by
  unfold Result.andThen Result.prepend
  cases h : r.out with
  | ok p => simp only [List.append_assoc]
  | error e => rfl

theorem prepend_prepend {α : Type} (t t' : List Event) (r : Result α) :
    Result.prepend t (Result.prepend t' r) = Result.prepend (t ++ t') r := by
  unfold Result.prepend
  simp only [List.append_assoc]

theorem andThen_andThen {α β γ : Type} (r : Result α) (f : α → Prog β) (g : β → Prog γ) :
    (r.andThen f).andThen g = r.andThen (fun a w => (f a w).andThen g) := by
  unfold Result.andThen
  cases h : r.out with
  | ok p =>
    obtain ⟨a, w1⟩ := p
    simp only [Result.prepend]
    cases h2 : (f a w1).out with
    | ok q => simp only [List.append_assoc]
    | error e => rfl
  | error e => rfl

theorem after_recreate_run (env : FrameEnv) (L : MainLocals) (w : World) :
    (reupload_quad_verts env L >>= fun _ => acquire_record_submit_present env L) w =
      after_recreate env L w := by
  unfold after_recreate
  rw [bind_run, reupload_quad_verts_run]
  by_cases hm : env.vkMapMemory = VK_SUCCESS
  · simp only [hm, ↓reduceIte, andThen_ok, acquire_record_submit_present_run]
  · simp only [hm, ↓reduceIte, andThen_error]

/-- One iteration of the render loop, case by case. -/
theorem render_loop_body_run (env : FrameEnv) (L : MainLocals) (w : World) :
    render_loop_body env L w = body_result env L w := by
  unfold render_loop_body body_result recreate_if_requested recreate_call
  rw [bind_run, call_run, andThen_ok]
  congr 1
  rw [bind_run, bind_run, getWorld_run, andThen_ok, prepend_mk, List.nil_append]
  by_cases hf : w.recreate_everything = true
  · simp only [hf, ↓reduceIte, bind_run, vk_run, andThen_ok,
      destroy_basically_everything_run, andThen_prepend, prepend_mk, List.cons_append,
      List.nil_append, prepend_prepend, andThen_andThen]
    unfold Result.andThen
    cases hc : (create_basically_everything env.create L.window L.vk_physical_device
      L.vk_surface L.vk_device L.vk_graphics_queue L.vk_command_pool w).out with
    | error e => rfl
    | ok p =>
      obtain ⟨a, w1⟩ := p
      simp only [setRecreate_run, Result.prepend, List.nil_append, after_recreate_run,
        List.append_nil, List.append_assoc, List.cons_append]
  · simp only [hf, Bool.false_eq_true, ↓reduceIte, pure_run, andThen_ok, prepend_mk,
      List.nil_append]
    rw [Result.prepend]
    simp only [List.nil_append, after_recreate_run]

/-! ## Theorems: the shape of one iteration -/

theorem split_at_unique {α : Type} (q : α → Prop) (pre post P F : List α) (e a : α)
    (hP : ∀ x ∈ P, ¬ q x) (hF : ∀ x ∈ F, ¬ q x) (he : q e) (ha : q a)
    (h : pre ++ e :: post = P ++ a :: F) : pre = P ∧ e = a ∧ post = F := by
  rcases List.append_eq_append_iff.1 h with ⟨a', h1, h2⟩ | ⟨c', h1, h2⟩
  · cases a' with
    | nil =>
      simp only [List.append_nil, List.nil_append] at h1 h2
      injection h2 with h3 h4
      exact ⟨h1.symm, h3, h4⟩
    | cons x a'' =>
      simp only [List.cons_append] at h2
      injection h2 with h3 h4
      exfalso
      apply hP e _ he
      rw [h1, h3]
      exact List.mem_append_right _ (List.mem_cons_self _ _)
  · cases c' with
    | nil =>
      simp only [List.append_nil, List.nil_append] at h1 h2
      injection h2 with h3 h4
      exact ⟨h1, h3.symm, h4.symm⟩
    | cons y c'' =>
      simp only [List.cons_append] at h2
      injection h2 with h3 h4
      exfalso
      apply hF e _ he
      rw [h4]
      exact List.mem_append_right _ (List.mem_cons_self _ _)

theorem prefixFns_of_create (fn : Fn) (h : createFns.contains fn = true) :
    prefixFns.contains fn = true := by
  have hm : fn ∈ createFns := List.mem_of_elem_eq_true h
  exact List.elem_eq_true_of_mem
    (List.mem_cons_of_mem _ (List.mem_cons_of_mem _ (List.mem_append_right _ hm)))

theorem prefixFns_of_destroy (fn : Fn) (h : destroyFns.contains fn = true) :
    prefixFns.contains fn = true := by
  have hm : fn ∈ destroyFns := List.mem_of_elem_eq_true h
  exact List.elem_eq_true_of_mem
    (List.mem_cons_of_mem _ (List.mem_cons_of_mem _ (List.mem_append_left _ hm)))

theorem prefixFns_reupload (env : FrameEnv) (L : MainLocals) :
    ∀ e ∈ reupload_trace env L, prefixFns.contains e.fn = true := by
  intro e he
  simp only [reupload_trace, List.mem_cons, List.mem_singleton, List.not_mem_nil,
    or_false] at he
  rcases he with rfl | rfl | rfl | rfl <;> rfl

theorem prefixFns_not_frame (fn : Fn) (h : prefixFns.contains fn = true) :
    fn ≠ .vkAcquireNextImageKHR ∧ fn ≠ .vkQueuePresentKHR ∧ fn ≠ .vkResetCommandBuffer ∧
      fn ≠ .vkCmdBeginRenderPass ∧ fn ≠ .vkCmdBindDescriptorSets ∧
      fn ≠ .vkCmdBindPipeline ∧ fn ≠ .vkCmdBindVertexBuffers ∧
      fn ≠ .vkCmdBindIndexBuffer ∧ fn ≠ .vkCmdDrawIndexed ∧ fn ≠ .vkCmdEndRenderPass := by
  refine ⟨?_, ?_, ?_, ?_, ?_, ?_, ?_, ?_, ?_, ?_⟩ <;>
  · rintro rfl
    exact Bool.noConfusion h

/-- The shape of an iteration: a first part `pre` that calls none of the functions
particular to the frame, and then either the iteration has aborted, or
`acquire_record_submit_present` runs as `frame_result` says, in a state in which
`recreate_everything` is false. -/
theorem body_shape (env : FrameEnv) (L : MainLocals) (w : World) :
    ∃ pre, (∀ e ∈ pre, prefixFns.contains e.fn = true) ∧
      ((∃ a, render_loop_body env L w = ⟨pre, .error a⟩) ∨
        (∃ w1, w1.recreate_everything = false ∧
          render_loop_body env L w = Result.prepend pre (frame_result env L w1))) := by
  rw [render_loop_body_run]
  unfold body_result
  have hpoll : prefixFns.contains Fn.glfwPollEvents = true := rfl
  have hwait : prefixFns.contains Fn.vkDeviceWaitIdle = true := rfl
  have hre := prefixFns_reupload env L
  by_cases hf : w.recreate_everything = true
  · rw [if_pos hf]
    have hd : ∀ e ∈ destroy_trace L.vk_device w.g_TempVulkan,
        prefixFns.contains e.fn = true := by
      intro e he
      have := allFn_destroy_basically_everything L.vk_device w e
        (by rw [destroy_basically_everything_run]; exact he)
      exact prefixFns_of_destroy _ this
    have hc : ∀ e ∈ (recreate_call env L w).trace, prefixFns.contains e.fn = true := by
      intro e he
      exact prefixFns_of_create _ (allFn_create_basically_everything _ _ _ _ _ _ _ w e he)
    unfold Result.andThen
    cases hco : (recreate_call env L w).out with
    | error a =>
      refine ⟨[⟨.glfwPollEvents, [], [], [], none⟩] ++
        ((⟨.vkDeviceWaitIdle, [L.vk_device], [], [], some env.vkDeviceWaitIdle⟩ ::
          destroy_trace L.vk_device w.g_TempVulkan) ++ (recreate_call env L w).trace),
        ?_, Or.inl ⟨a, ?_⟩⟩
      · intro e he
        simp only [List.mem_append, List.mem_cons, List.mem_singleton, List.not_mem_nil,
          or_false] at he
        rcases he with rfl | (rfl | he) | he
        · exact hpoll
        · exact hwait
        · exact hd e he
        · exact hc e he
      · simp only [Result.prepend]
    | ok p =>
      obtain ⟨_, w1⟩ := p
      simp only []
      unfold after_recreate
      by_cases hm : env.vkMapMemory = VK_SUCCESS
      · rw [if_pos hm]
        refine ⟨[⟨.glfwPollEvents, [], [], [], none⟩] ++
          ((⟨.vkDeviceWaitIdle, [L.vk_device], [], [], some env.vkDeviceWaitIdle⟩ ::
            destroy_trace L.vk_device w.g_TempVulkan) ++
              ((recreate_call env L w).trace ++ reupload_trace env L)),
          ?_, Or.inr ⟨{ w1 with recreate_everything := false }, rfl, ?_⟩⟩
        · intro e he
          simp only [List.mem_append, List.mem_cons, List.mem_singleton, List.not_mem_nil,
            or_false] at he
          rcases he with rfl | (rfl | he) | he | he
          · exact hpoll
          · exact hwait
          · exact hd e he
          · exact hc e he
          · exact hre e he
        · simp only [Result.prepend, List.append_assoc, List.cons_append, List.nil_append]
      · rw [if_neg hm]
        refine ⟨[⟨.glfwPollEvents, [], [], [], none⟩] ++
          ((⟨.vkDeviceWaitIdle, [L.vk_device], [], [], some env.vkDeviceWaitIdle⟩ ::
            destroy_trace L.vk_device w.g_TempVulkan) ++
              ((recreate_call env L w).trace ++ (reupload_trace env L).take 2)),
          ?_, Or.inl ⟨.fatal "Failed to map vertex buffer memory", ?_⟩⟩
        · intro e he
          simp only [List.mem_append, List.mem_cons, List.mem_singleton, List.not_mem_nil,
            or_false] at he
          rcases he with rfl | (rfl | he) | he | he
          · exact hpoll
          · exact hwait
          · exact hd e he
          · exact hc e he
          · exact hre e (List.mem_of_mem_take he)
        · simp only [Result.prepend, List.append_assoc, List.cons_append, List.nil_append]
  · rw [if_neg hf]
    have hf' : w.recreate_everything = false := by
      cases hb : w.recreate_everything with
      | false => rfl
      | true => exact absurd hb hf
    unfold after_recreate
    by_cases hm : env.vkMapMemory = VK_SUCCESS
    · rw [if_pos hm]
      refine ⟨[⟨.glfwPollEvents, [], [], [], none⟩] ++ reupload_trace env L, ?_,
        Or.inr ⟨w, hf', ?_⟩⟩
      · intro e he
        simp only [List.mem_append, List.mem_cons, List.mem_singleton, List.not_mem_nil,
          or_false] at he
        rcases he with rfl | he
        · exact hpoll
        · exact hre e he
      · simp only [Result.prepend, List.append_assoc, List.cons_append, List.nil_append]
    · rw [if_neg hm]
      refine ⟨[⟨.glfwPollEvents, [], [], [], none⟩] ++ (reupload_trace env L).take 2, ?_,
        Or.inl ⟨.fatal "Failed to map vertex buffer memory", ?_⟩⟩
      · intro e he
        simp only [List.mem_append, List.mem_cons, List.mem_singleton, List.not_mem_nil,
          or_false] at he
        rcases he with rfl | he
        · exact hpoll
        · exact hre e (List.mem_of_mem_take he)
      · simp only [Result.prepend, List.append_assoc, List.cons_append, List.nil_append]

theorem suboptimal_ne_out_of_date :
    (VK_SUBOPTIMAL_KHR = VK_ERROR_OUT_OF_DATE_KHR) = False := by
  simp only [VK_SUBOPTIMAL_KHR, VK_ERROR_OUT_OF_DATE_KHR]; decide

/-- Case analysis on `frame_result`: to prove a property of what
`acquire_record_submit_present` does, prove it in each of the ten ways it can end. -/
theorem frame_result_cases (env : FrameEnv) (L : MainLocals) (w : World)
    (C : Result Unit → Prop)
    (c1 : (env.vkAcquireNextImageKHR = VK_SUBOPTIMAL_KHR ∨
        env.vkAcquireNextImageKHR = VK_ERROR_OUT_OF_DATE_KHR) →
      C ⟨(frame_trace env L w.g_TempVulkan).take 1,
        .ok ((), { w with recreate_everything := true })⟩)
    (c2 : ¬ (env.vkAcquireNextImageKHR = VK_SUBOPTIMAL_KHR ∨
        env.vkAcquireNextImageKHR = VK_ERROR_OUT_OF_DATE_KHR) →
      env.vkAcquireNextImageKHR ≠ VK_SUCCESS →
      C ⟨(frame_trace env L w.g_TempVulkan).take 1,
        .error (.fatal "Failed to acquire next image")⟩)
    (c3 : env.vkAcquireNextImageKHR = VK_SUCCESS → env.vkBeginCommandBuffer ≠ VK_SUCCESS →
      C ⟨(frame_trace env L w.g_TempVulkan).take 3,
        .error (.fatal "Failed to begin command buffer")⟩)
    (c4 : env.vkAcquireNextImageKHR = VK_SUCCESS →
      ¬ env.next_image_index < w.g_TempVulkan.framebuffers.length →
      C ⟨(frame_trace env L w.g_TempVulkan).take 3, .error .out_of_bounds⟩)
    (c5 : env.vkAcquireNextImageKHR = VK_SUCCESS → env.vkEndCommandBuffer ≠ VK_SUCCESS →
      C ⟨(frame_trace env L w.g_TempVulkan).take 11,
        .error (.fatal "Failed to end command buffer")⟩)
    (c6 : env.vkAcquireNextImageKHR = VK_SUCCESS → env.vkQueueSubmit ≠ VK_SUCCESS →
      C ⟨(frame_trace env L w.g_TempVulkan).take 12,
        .error (.fatal "Failed to submit command buffer to queue")⟩)
    (c7 : env.vkAcquireNextImageKHR = VK_SUCCESS →
      (env.vkQueuePresentKHR = VK_SUBOPTIMAL_KHR ∨
        env.vkQueuePresentKHR = VK_ERROR_OUT_OF_DATE_KHR) →
      C ⟨(frame_trace env L w.g_TempVulkan).take 13,
        .ok ((), { w with recreate_everything := true })⟩)
    (c8 : env.vkAcquireNextImageKHR = VK_SUCCESS →
      ¬ (env.vkQueuePresentKHR = VK_SUBOPTIMAL_KHR ∨
        env.vkQueuePresentKHR = VK_ERROR_OUT_OF_DATE_KHR) →
      env.vkQueuePresentKHR ≠ VK_SUCCESS →
      C ⟨(frame_trace env L w.g_TempVulkan).take 13,
        .error (.fatal "Error when presenting")⟩)
    (c9 : env.vkAcquireNextImageKHR = VK_SUCCESS → env.vkQueuePresentKHR = VK_SUCCESS →
      env.vkQueueWaitIdle ≠ VK_SUCCESS →
      C ⟨frame_trace env L w.g_TempVulkan,
        .error (.fatal "Failed to wait idle for graphics queue")⟩)
    (c10 : env.vkAcquireNextImageKHR = VK_SUCCESS → env.vkQueuePresentKHR = VK_SUCCESS →
      C ⟨frame_trace env L w.g_TempVulkan, .ok ((), w)⟩) :
    C (frame_result env L w) := by
  unfold frame_result
  simp only []
  by_cases h1 : env.vkAcquireNextImageKHR = VK_SUBOPTIMAL_KHR ∨
      env.vkAcquireNextImageKHR = VK_ERROR_OUT_OF_DATE_KHR
  · rw [if_pos h1]; exact c1 h1
  rw [if_neg h1]
  by_cases h2 : env.vkAcquireNextImageKHR = VK_SUCCESS
  swap
  · rw [if_pos h2]; exact c2 h1 h2
  rw [if_neg (not_not.2 h2)]
  by_cases h3 : env.vkBeginCommandBuffer = VK_SUCCESS
  swap
  · rw [if_pos h3]; exact c3 h2 h3
  rw [if_neg (not_not.2 h3)]
  by_cases h4 : env.next_image_index < w.g_TempVulkan.framebuffers.length
  swap
  · rw [if_pos h4]; exact c4 h2 h4
  rw [if_neg (not_not.2 h4)]
  by_cases h5 : env.vkEndCommandBuffer = VK_SUCCESS
  swap
  · rw [if_pos h5]; exact c5 h2 h5
  rw [if_neg (not_not.2 h5)]
  by_cases h6 : env.vkQueueSubmit = VK_SUCCESS
  swap
  · rw [if_pos h6]; exact c6 h2 h6
  rw [if_neg (not_not.2 h6)]
  by_cases h7 : env.vkQueuePresentKHR = VK_SUBOPTIMAL_KHR ∨
      env.vkQueuePresentKHR = VK_ERROR_OUT_OF_DATE_KHR
  · rw [if_pos h7]; exact c7 h2 h7
  rw [if_neg h7]
  by_cases h8 : env.vkQueuePresentKHR = VK_SUCCESS
  swap
  · rw [if_pos h8]; exact c8 h2 h7 h8
  rw [if_neg (not_not.2 h8)]
  by_cases h9 : env.vkQueueWaitIdle = VK_SUCCESS
  · rw [if_neg (not_not.2 h9)]; exact c10 h2 h8
  · rw [if_pos h9]; exact c9 h2 h8 h9

theorem frame_trace_take (env : FrameEnv) (L : MainLocals) (g : VulkanBasicallyEverything)
    (k : Nat) :
    (frame_trace env L g).take (k + 1) =
      acquire_event env L g :: ((frame_trace env L g).drop 1).take k := by
  simp only [frame_trace, acquire_event, List.take_succ_cons, List.drop_succ_cons,
    List.drop_zero]

theorem frame_trace_take_all (env : FrameEnv) (L : MainLocals)
    (g : VulkanBasicallyEverything) :
    frame_trace env L g = (frame_trace env L g).take (13 + 1) := by
  simp only [frame_trace, List.take_succ_cons, List.take_zero, List.take_nil,
    Nat.reduceAdd]

theorem frame_result_trace (env : FrameEnv) (L : MainLocals) (w : World) :
    ∃ k, (frame_result env L w).trace =
        acquire_event env L w.g_TempVulkan ::
          ((frame_trace env L w.g_TempVulkan).drop 1).take k ∧
      (env.vkAcquireNextImageKHR ≠ VK_SUCCESS → k = 0) := by
  have hsplit := frame_trace_take env L w.g_TempVulkan
  have hall := frame_trace_take_all env L w.g_TempVulkan
  refine frame_result_cases env L w
    (fun r => ∃ k, r.trace = acquire_event env L w.g_TempVulkan ::
      ((frame_trace env L w.g_TempVulkan).drop 1).take k ∧
      (env.vkAcquireNextImageKHR ≠ VK_SUCCESS → k = 0)) ?_ ?_ ?_ ?_ ?_ ?_ ?_ ?_ ?_ ?_
  · intro _; exact ⟨0, hsplit 0, fun _ => rfl⟩
  · intro _ _; exact ⟨0, hsplit 0, fun _ => rfl⟩
  · intro h2 _; exact ⟨2, hsplit 2, fun h => absurd h2 h⟩
  · intro h2 _; exact ⟨2, hsplit 2, fun h => absurd h2 h⟩
  · intro h2 _; exact ⟨10, hsplit 10, fun h => absurd h2 h⟩
  · intro h2 _; exact ⟨11, hsplit 11, fun h => absurd h2 h⟩
  · intro h2 _; exact ⟨12, hsplit 12, fun h => absurd h2 h⟩
  · intro h2 _ _; exact ⟨12, hsplit 12, fun h => absurd h2 h⟩
  · intro h2 _ _; exact ⟨13, hall.trans (hsplit 13), fun h => absurd h2 h⟩
  · intro h2 _; exact ⟨13, hall.trans (hsplit 13), fun h => absurd h2 h⟩

theorem frame_tail_no_acquire (env : FrameEnv) (L : MainLocals)
    (g : VulkanBasicallyEverything) (k : Nat) :
    ∀ x ∈ ((frame_trace env L g).drop 1).take k, ¬ x.fn = .vkAcquireNextImageKHR := by
  intro x hx
  have hx' := List.mem_of_mem_take hx
  simp only [frame_trace, List.drop_succ_cons, List.drop_zero, List.mem_cons,
    List.mem_singleton, List.not_mem_nil, or_false] at hx'
  rcases hx' with rfl | rfl | rfl | rfl | rfl | rfl | rfl | rfl | rfl | rfl | rfl | rfl |
    rfl <;> simp only [reduceCtorEq, not_false_eq_true]

/-- If the iteration's trace is cut at a call of `vkAcquireNextImageKHR`, then the cut is
at the call that `acquire_record_submit_present` starts with: the iteration reached it
in a state `w1` with `recreate_everything` false, the call returned what the driver
answered, and what follows the cut is what `frame_result` issues after the acquire. -/
theorem cut_at_acquire (env : FrameEnv) (L : MainLocals) (w : World)
    (pre post : List Event) (e : Event)
    (ht : (render_loop_body env L w).trace = pre ++ e :: post)
    (hfn : e.fn = .vkAcquireNextImageKHR) :
    ∃ w1, w1.recreate_everything = false ∧
      render_loop_body env L w = Result.prepend pre (frame_result env L w1) ∧
      e = acquire_event env L w1.g_TempVulkan ∧
      (frame_result env L w1).trace = e :: post ∧
      (∀ x ∈ pre, prefixFns.contains x.fn = true) := by
  obtain ⟨P, hP, hcase⟩ := body_shape env L w
  have hPq : ∀ x ∈ P, ¬ x.fn = .vkAcquireNextImageKHR :=
    fun x hx => (prefixFns_not_frame _ (hP x hx)).1
  rcases hcase with ⟨a, hab⟩ | ⟨w1, hw1, hrun⟩
  · exfalso
    rw [hab] at ht
    simp only [] at ht
    apply hPq e _ hfn
    rw [ht]
    exact List.mem_append_right _ (List.mem_cons_self _ _)
  · obtain ⟨k, hk, _⟩ := frame_result_trace env L w1
    rw [hrun] at ht
    simp only [Result.prepend, hk] at ht
    obtain ⟨h1, h2, h3⟩ := split_at_unique (fun x => x.fn = .vkAcquireNextImageKHR)
      pre post P _ e _ hPq (frame_tail_no_acquire env L w1.g_TempVulkan k) hfn rfl ht.symm
    subst h1
    refine ⟨w1, hw1, hrun, h2, ?_, hP⟩
    rw [hk, h2, h3]

theorem returned_skip_front (P F : List Event) (fn : Fn) (r : VkResult)
    (hP : ∀ x ∈ P, x.fn ≠ fn) : Returned (P ++ F) fn r ↔ Returned F fn r := by
  unfold Returned
  constructor
  · rintro ⟨e, he, h1, h2⟩
    rcases List.mem_append.1 he with h | h
    · exact absurd h1 (hP e h)
    · exact ⟨e, h, h1, h2⟩
  · rintro ⟨e, he, h1, h2⟩
    exact ⟨e, List.mem_append_right _ he, h1, h2⟩

/-! ## Theorems: what the calls of an iteration returned -/

theorem returned_take_acquire (env : FrameEnv) (L : MainLocals)
    (g : VulkanBasicallyEverything) (k : Nat) (r : VkResult) :
    Returned ((frame_trace env L g).take (k + 1)) .vkAcquireNextImageKHR r ↔
      env.vkAcquireNextImageKHR = r := by
  rw [frame_trace_take]
  constructor
  · rintro ⟨e, he, h1, h2⟩
    rcases List.mem_cons.1 he with rfl | h
    · exact Option.some.inj h2
    · exact absurd h1 (frame_tail_no_acquire env L g k e h)
  · intro h
    exact ⟨acquire_event env L g, List.mem_cons_self _ _, rfl, by rw [← h]; rfl⟩

theorem returned_full_acquire (env : FrameEnv) (L : MainLocals)
    (g : VulkanBasicallyEverything) (r : VkResult) :
    Returned (frame_trace env L g) .vkAcquireNextImageKHR r ↔
      env.vkAcquireNextImageKHR = r := by
  rw [frame_trace_take_all]
  exact returned_take_acquire env L g 13 r

theorem returned_take_present_lt (env : FrameEnv) (L : MainLocals)
    (g : VulkanBasicallyEverything) (k : Nat) (hk : k ≤ 12) (r : VkResult) :
    ¬ Returned ((frame_trace env L g).take k) .vkQueuePresentKHR r := by
  rintro ⟨e, he, h1, _⟩
  have h12 : e ∈ (frame_trace env L g).take 12 := by
    have : (frame_trace env L g).take k = ((frame_trace env L g).take 12).take k := by
      rw [List.take_take, Nat.min_eq_left hk]
    rw [this] at he
    exact List.mem_of_mem_take he
  simp only [frame_trace, List.take_succ_cons, List.take_zero, List.mem_cons,
    List.mem_singleton, List.not_mem_nil, or_false] at h12
  rcases h12 with rfl | rfl | rfl | rfl | rfl | rfl | rfl | rfl | rfl | rfl | rfl | rfl <;>
    cases h1

theorem returned_take_present (env : FrameEnv) (L : MainLocals)
    (g : VulkanBasicallyEverything) (r : VkResult) :
    Returned ((frame_trace env L g).take 13) .vkQueuePresentKHR r ↔
      env.vkQueuePresentKHR = r := by
  constructor
  · rintro ⟨e, he, h1, h2⟩
    simp only [frame_trace, List.take_succ_cons, List.take_zero, List.mem_cons,
      List.mem_singleton, List.not_mem_nil, or_false] at he
    rcases he with rfl | rfl | rfl | rfl | rfl | rfl | rfl | rfl | rfl | rfl | rfl | rfl |
      rfl <;> first | exact Option.some.inj h2 | cases h1
  · intro h
    refine ⟨⟨.vkQueuePresentKHR, [L.vk_graphics_queue, g.render_finished_semaphore,
      g.swapchain], [], [env.next_image_index], some env.vkQueuePresentKHR⟩, ?_, rfl, ?_⟩
    · simp only [frame_trace, List.take_succ_cons, List.take_zero, List.mem_cons,
        List.mem_singleton, List.not_mem_nil, or_false, or_true, true_or]
    · rw [← h]

theorem returned_full_present (env : FrameEnv) (L : MainLocals)
    (g : VulkanBasicallyEverything) (r : VkResult) :
    Returned (frame_trace env L g) .vkQueuePresentKHR r ↔ env.vkQueuePresentKHR = r := by
  rw [← returned_take_present env L g r]
  have hs : frame_trace env L g = (frame_trace env L g).take 13 ++
      [⟨.vkQueueWaitIdle, [L.vk_graphics_queue], [], [], some env.vkQueueWaitIdle⟩] := by
    simp only [frame_trace, List.take_succ_cons, List.take_zero, List.cons_append,
      List.nil_append]
  unfold Returned
  constructor
  · rintro ⟨e, he, h1, h2⟩
    rw [hs] at he
    rcases List.mem_append.1 he with h | h
    · exact ⟨e, h, h1, h2⟩
    · rw [List.mem_singleton] at h
      subst h
      cases h1
  · rintro ⟨e, he, h1, h2⟩
    exact ⟨e, List.mem_of_mem_take he, h1, h2⟩

/-- When the acquire and the present of `acquire_record_submit_present` both returned
`VK_SUCCESS`, all the calls of `frame_trace` were issued. -/
theorem frame_result_full (env : FrameEnv) (L : MainLocals) (w : World)
    (ha : Returned (frame_result env L w).trace .vkAcquireNextImageKHR VK_SUCCESS)
    (hp : Returned (frame_result env L w).trace .vkQueuePresentKHR VK_SUCCESS) :
    (frame_result env L w).trace = frame_trace env L w.g_TempVulkan := by
  revert ha hp
  refine frame_result_cases env L w
    (fun r => Returned r.trace .vkAcquireNextImageKHR VK_SUCCESS →
      Returned r.trace .vkQueuePresentKHR VK_SUCCESS →
      r.trace = frame_trace env L w.g_TempVulkan) ?_ ?_ ?_ ?_ ?_ ?_ ?_ ?_ ?_ ?_
  · intro _ _ hp
    exact absurd hp (returned_take_present_lt env L _ 1 (by omega) _)
  · intro _ _ _ hp
    exact absurd hp (returned_take_present_lt env L _ 1 (by omega) _)
  · intro _ _ _ hp
    exact absurd hp (returned_take_present_lt env L _ 3 (by omega) _)
  · intro _ _ _ hp
    exact absurd hp (returned_take_present_lt env L _ 3 (by omega) _)
  · intro _ _ _ hp
    exact absurd hp (returned_take_present_lt env L _ 11 (by omega) _)
  · intro _ _ _ hp
    exact absurd hp (returned_take_present_lt env L _ 12 (by omega) _)
  · intro _ h7 _ hp
    have := (returned_take_present env L _ _).1 hp
    rw [this] at h7
    rcases h7 with h | h
    · exact absurd h (by simp only [success_ne_suboptimal, not_false_eq_true])
    · exact absurd h (by simp only [success_ne_out_of_date, not_false_eq_true])
  · intro _ _ h8 _ hp
    exact absurd ((returned_take_present env L _ _).1 hp) h8
  · intro _ _ _ _ _; rfl
  · intro _ _ _ _; rfl

/-! ## Theorems: running an iteration -/

/-- An iteration that starts with the flag clear and maps the vertex buffer: the poll,
the re-upload, then `frame_result`. -/
theorem render_loop_body_steady (env : FrameEnv) (L : MainLocals) (w : World)
    (hf : w.recreate_everything = false) (hm : env.vkMapMemory = VK_SUCCESS) :
    render_loop_body env L w =
      Result.prepend (⟨.glfwPollEvents, [], [], [], none⟩ :: reupload_trace env L)
        (frame_result env L w) := by
  rw [render_loop_body_run]
  unfold body_result after_recreate
  rw [if_neg (by rw [hf]; exact Bool.false_ne_true), if_pos hm]
  simp only [Result.prepend, List.cons_append, List.nil_append]

/-- An iteration that starts with the flag set, in which `create_basically_everything`
returns and the vertex buffer is mapped. -/
theorem render_loop_body_recreate (env : FrameEnv) (L : MainLocals) (w w1 : World)
    (tc : List Event)
    (hf : w.recreate_everything = true) (hm : env.vkMapMemory = VK_SUCCESS)
    (hc : recreate_call env L w = ⟨tc, .ok ((), w1)⟩) :
    render_loop_body env L w =
      Result.prepend
        (⟨.glfwPollEvents, [], [], [], none⟩ ::
          ⟨.vkDeviceWaitIdle, [L.vk_device], [], [], some env.vkDeviceWaitIdle⟩ ::
          (destroy_trace L.vk_device w.g_TempVulkan ++ (tc ++ reupload_trace env L)))
        (frame_result env L { w1 with recreate_everything := false }) := by
  rw [render_loop_body_run]
  unfold body_result after_recreate
  rw [if_pos hf, hc]
  simp only [Result.andThen, if_pos hm, Result.prepend, List.cons_append, List.nil_append,
    List.append_assoc]

theorem frame_result_success (L : MainLocals) :
    frame_result FrameEnv.success L World.sample =
      ⟨frame_trace FrameEnv.success L World.sample.g_TempVulkan, .ok ((), World.sample)⟩ := by
  rfl

/-! ## Theorems: a run of `create_basically_everything` in which every call succeeds -/



theorem find_memory_type_sample_host :
    (find_memory_type ⟨2, [1, 6]⟩ 3
      (VK_MEMORY_PROPERTY_HOST_VISIBLE_BIT ||| VK_MEMORY_PROPERTY_HOST_COHERENT_BIT)).toBool
      = true := by decide

theorem find_memory_type_sample_device :
    (find_memory_type ⟨2, [1, 6]⟩ 3 VK_MEMORY_PROPERTY_DEVICE_LOCAL_BIT).toBool = true := by
  decide

set_option maxHeartbeats 2000000 in
theorem create_success_run (a b c d e f : Handle) (w : World) :
    create_basically_everything CreateEnv.success a b c d e f w =
      ⟨create_trace CreateEnv.success a b c d e f w,
        .ok ((), create_world CreateEnv.success w)⟩ := by
  unfold create_basically_everything create_swapchain_part create_uniform_buffer_part
    create_texture_part create_descriptor_part create_pipeline_part
  simp only [create_image_views_loop, create_framebuffers_loop, create_shader_module_run,
    bind_run, pure_run, vk_run, call_run, callNew_run, vkNew_run, vkNewArray_run,
    check_run, assert_run, index_run, modifyG_run, setRecreate_run, getWorld_run,
    run_find_memory_type_run,
    andThen_ok, andThen_error, andThen_ite, andThen_dite, prepend_mk, prepend_ite,
    prepend_dite, List.nil_append, List.cons_append, List.append_nil, Nat.reduceAdd,
    Nat.reduceLT, ↓reduceIte, ↓reduceDIte,
    resize_length, getElem_resize, resize_two_set, List.length_set,
    List.length_cons, List.length_nil, CreateEnv.success, ShaderEnv.success,
    find_memory_type_sample_host, find_memory_type_sample_device,
    newHandles, List.getD_cons_zero, List.getD_cons_succ, Nat.add_assoc,
    Nat.add_zero, Nat.zero_add, beq_self_eq_true, Bool.and_self,
    List.getElem_cons_zero, List.getElem_cons_succ,
    create_trace, create_world, create_swapchain_part_trace, create_uniform_buffer_part_trace,
    create_texture_part_trace, create_descriptor_part_trace, create_pipeline_part_trace,
    create_shader_module_trace, find_memory_type_trace,
    create_swapchain_part_world, create_uniform_buffer_part_world,
    create_texture_part_world, create_descriptor_part_world, create_pipeline_part_world]

/-! ## Theorems: the order of the calls of an iteration -/

/-- C1: in an iteration of the render loop in which `vkAcquireNextImageKHR` and
`vkQueuePresentKHR` both returned `VK_SUCCESS`, the calls from the acquire on are, in
this order: acquire, reset and begin of the main command buffer, begin render pass, bind
descriptor set, bind pipeline, bind vertex buffer, bind index buffer, draw indexed, end
render pass, end of the command buffer, submit, present, wait idle; nothing before them
is an acquire, a reset or a present. -/
theorem successful_iteration_order (env : FrameEnv) (L : MainLocals) (w : World)
    (ha : Returned (render_loop_body env L w).trace .vkAcquireNextImageKHR VK_SUCCESS)
    (hp : Returned (render_loop_body env L w).trace .vkQueuePresentKHR VK_SUCCESS) :
    ∃ (pre : List Event) (w1 : World),
      (render_loop_body env L w).trace = pre ++ frame_trace env L w1.g_TempVulkan ∧
      (∀ e ∈ pre, e.fn ≠ .vkAcquireNextImageKHR ∧ e.fn ≠ .vkResetCommandBuffer ∧
        e.fn ≠ .vkQueuePresentKHR) ∧
      (frame_trace env L w1.g_TempVulkan).map Event.fn =
        [ .vkAcquireNextImageKHR, .vkResetCommandBuffer, .vkBeginCommandBuffer,
          .vkCmdBeginRenderPass, .vkCmdBindDescriptorSets, .vkCmdBindPipeline,
          .vkCmdBindVertexBuffers, .vkCmdBindIndexBuffer, .vkCmdDrawIndexed,
          .vkCmdEndRenderPass, .vkEndCommandBuffer, .vkQueueSubmit, .vkQueuePresentKHR,
          .vkQueueWaitIdle ] := by
  obtain ⟨P, hP, hcase⟩ := body_shape env L w
  have hPa : ∀ x ∈ P, x.fn ≠ .vkAcquireNextImageKHR :=
    fun x hx => (prefixFns_not_frame _ (hP x hx)).1
  have hPp : ∀ x ∈ P, x.fn ≠ .vkQueuePresentKHR :=
    fun x hx => (prefixFns_not_frame _ (hP x hx)).2.1
  rcases hcase with ⟨a, hab⟩ | ⟨w1, _, hrun⟩
  · exfalso
    rw [hab] at ha
    obtain ⟨e, he, h1, _⟩ := ha
    exact hPa e he h1
  · rw [hrun] at ha hp ⊢
    simp only [Result.prepend] at ha hp ⊢
    rw [returned_skip_front P _ _ _ hPa] at ha
    rw [returned_skip_front P _ _ _ hPp] at hp
    refine ⟨P, w1, ?_, ?_, rfl⟩
    · rw [frame_result_full env L w1 ha hp]
    · intro e he
      have := prefixFns_not_frame _ (hP e he)
      exact ⟨this.1, this.2.2.1, this.2.1⟩

/-- The theorem `successful_iteration_order` applies to the iteration in which every
call succeeds. -/
theorem successful_iteration_order_witness :
    Returned (render_loop_body FrameEnv.success MainLocals.sample World.sample).trace
      .vkAcquireNextImageKHR VK_SUCCESS ∧
    Returned (render_loop_body FrameEnv.success MainLocals.sample World.sample).trace
      .vkQueuePresentKHR VK_SUCCESS ∧
    ∃ (pre : List Event) (w1 : World),
      (render_loop_body FrameEnv.success MainLocals.sample World.sample).trace =
        pre ++ frame_trace FrameEnv.success MainLocals.sample w1.g_TempVulkan ∧
      (∀ e ∈ pre, e.fn ≠ .vkAcquireNextImageKHR ∧ e.fn ≠ .vkResetCommandBuffer ∧
        e.fn ≠ .vkQueuePresentKHR) ∧
      (frame_trace FrameEnv.success MainLocals.sample w1.g_TempVulkan).map Event.fn =
        [ .vkAcquireNextImageKHR, .vkResetCommandBuffer, .vkBeginCommandBuffer,
          .vkCmdBeginRenderPass, .vkCmdBindDescriptorSets, .vkCmdBindPipeline,
          .vkCmdBindVertexBuffers, .vkCmdBindIndexBuffer, .vkCmdDrawIndexed,
          .vkCmdEndRenderPass, .vkEndCommandBuffer, .vkQueueSubmit, .vkQueuePresentKHR,
          .vkQueueWaitIdle ] := by
  have hrun := render_loop_body_steady FrameEnv.success MainLocals.sample World.sample
    rfl rfl
  have hpre : ∀ fn, (fn = Fn.vkAcquireNextImageKHR ∨ fn = Fn.vkQueuePresentKHR) →
      ∀ x ∈ (⟨.glfwPollEvents, [], [], [], none⟩ ::
        reupload_trace FrameEnv.success MainLocals.sample : List Event), x.fn ≠ fn := by
    intro fn hfn x hx
    simp only [reupload_trace, List.mem_cons, List.mem_singleton, List.not_mem_nil,
      or_false] at hx
    rcases hx with rfl | rfl | rfl | rfl | rfl <;> rcases hfn with rfl | rfl <;>
      simp only [ne_eq, reduceCtorEq, not_false_eq_true]
  have ha : Returned
      (render_loop_body FrameEnv.success MainLocals.sample World.sample).trace
      .vkAcquireNextImageKHR VK_SUCCESS := by
    rw [hrun, frame_result_success]
    simp only [Result.prepend]
    rw [returned_skip_front _ _ _ _ (hpre _ (Or.inl rfl))]
    exact (returned_full_acquire _ _ _ _).2 rfl
  have hp : Returned
      (render_loop_body FrameEnv.success MainLocals.sample World.sample).trace
      .vkQueuePresentKHR VK_SUCCESS := by
    rw [hrun, frame_result_success]
    simp only [Result.prepend]
    rw [returned_skip_front _ _ _ _ (hpre _ (Or.inr rfl))]
    exact (returned_full_present _ _ _ _).2 rfl
  exact ⟨ha, hp,
    successful_iteration_order FrameEnv.success MainLocals.sample World.sample ha hp⟩

/-- C2: when the `vkAcquireNextImageKHR` of an iteration returned `VK_SUBOPTIMAL_KHR` or
`VK_ERROR_OUT_OF_DATE_KHR`, the iteration issues no call after it: in particular the
remainder of the iteration does not reset or record the command buffer, does not call
`vkQueueSubmit` and does not call `vkQueuePresentKHR`. -/
theorem nothing_after_out_of_date_acquire (env : FrameEnv) (L : MainLocals) (w : World)
    (pre post : List Event) (e : Event)
    (ht : (render_loop_body env L w).trace = pre ++ e :: post)
    (hfn : e.fn = .vkAcquireNextImageKHR)
    (hr : e.result = some VK_SUBOPTIMAL_KHR ∨ e.result = some VK_ERROR_OUT_OF_DATE_KHR) :
    post = [] ∧ ∀ x ∈ post, x.fn ∉ recordSubmitPresentFns := by
  obtain ⟨w1, _, _, he, hpost, _⟩ := cut_at_acquire env L w pre post e ht hfn
  have hacq : env.vkAcquireNextImageKHR = VK_SUBOPTIMAL_KHR ∨
      env.vkAcquireNextImageKHR = VK_ERROR_OUT_OF_DATE_KHR := by
    rw [he] at hr
    rcases hr with h | h
    · exact Or.inl (Option.some.inj h)
    · exact Or.inr (Option.some.inj h)
  have hnil : post = [] := by
    unfold frame_result at hpost
    simp only [] at hpost
    rw [if_pos hacq] at hpost
    simp only [frame_trace, List.take_succ_cons, List.take_zero] at hpost
    injection hpost with _ h2
    exact h2.symm
  refine ⟨hnil, ?_⟩
  rw [hnil]
  intro x hx
  cases hx

/-- The theorem `nothing_after_out_of_date_acquire` applies to the iteration
`FrameEnv.acquire_suboptimal`: its acquire is its last call. -/
theorem nothing_after_out_of_date_acquire_witness :
    (render_loop_body FrameEnv.acquire_suboptimal MainLocals.sample World.sample).trace =
      (⟨.glfwPollEvents, [], [], [], none⟩ ::
        reupload_trace FrameEnv.acquire_suboptimal MainLocals.sample) ++
      acquire_event FrameEnv.acquire_suboptimal MainLocals.sample
        World.sample.g_TempVulkan :: [] ∧
    (([] : List Event) = [] ∧ ∀ x ∈ ([] : List Event), x.fn ∉ recordSubmitPresentFns) := by
  have ht : (render_loop_body FrameEnv.acquire_suboptimal MainLocals.sample
      World.sample).trace =
      (⟨.glfwPollEvents, [], [], [], none⟩ ::
        reupload_trace FrameEnv.acquire_suboptimal MainLocals.sample) ++
      acquire_event FrameEnv.acquire_suboptimal MainLocals.sample
        World.sample.g_TempVulkan :: [] := by
    rw [render_loop_body_steady _ _ _ rfl rfl]
    rfl
  exact ⟨ht, nothing_after_out_of_date_acquire _ _ _ _ _ _ ht rfl (Or.inl rfl)⟩

/-! ## Theorems: the flag `recreate_everything` -/

/-- What `acquire_record_submit_present` leaves in the flag when it returns, started
with the flag clear. -/
theorem frame_result_flag (env : FrameEnv) (L : MainLocals) (w w1 : World)
    (hw : w.recreate_everything = false)
    (h : (frame_result env L w).out = .ok ((), w1)) :
    w1.recreate_everything = true ↔
      (Returned (frame_result env L w).trace .vkAcquireNextImageKHR VK_SUBOPTIMAL_KHR ∨
        Returned (frame_result env L w).trace .vkAcquireNextImageKHR
          VK_ERROR_OUT_OF_DATE_KHR ∨
        (Returned (frame_result env L w).trace .vkAcquireNextImageKHR VK_SUCCESS ∧
          (Returned (frame_result env L w).trace .vkQueuePresentKHR VK_SUBOPTIMAL_KHR ∨
            Returned (frame_result env L w).trace .vkQueuePresentKHR
              VK_ERROR_OUT_OF_DATE_KHR))) := by
  revert h
  revert w1
  refine frame_result_cases env L w
    (fun r => ∀ w1, r.out = .ok ((), w1) →
      (w1.recreate_everything = true ↔
        (Returned r.trace .vkAcquireNextImageKHR VK_SUBOPTIMAL_KHR ∨
          Returned r.trace .vkAcquireNextImageKHR VK_ERROR_OUT_OF_DATE_KHR ∨
          (Returned r.trace .vkAcquireNextImageKHR VK_SUCCESS ∧
            (Returned r.trace .vkQueuePresentKHR VK_SUBOPTIMAL_KHR ∨
              Returned r.trace .vkQueuePresentKHR VK_ERROR_OUT_OF_DATE_KHR)))))
    ?_ ?_ ?_ ?_ ?_ ?_ ?_ ?_ ?_ ?_
  · intro h1 w1 h
    injection h with h
    injection h with _ h
    subst h
    simp only [true_iff]
    rcases h1 with h1 | h1
    · exact Or.inl ((returned_take_acquire env L _ 0 _).2 h1)
    · exact Or.inr (Or.inl ((returned_take_acquire env L _ 0 _).2 h1))
  · intro _ _ w1 h; cases h
  · intro _ _ w1 h; cases h
  · intro _ _ w1 h; cases h
  · intro _ _ w1 h; cases h
  · intro _ _ w1 h; cases h
  · intro h2 h7 w1 h
    injection h with h
    injection h with _ h
    subst h
    simp only [true_iff]
    refine Or.inr (Or.inr ⟨(returned_take_acquire env L _ 12 _).2 h2, ?_⟩)
    rcases h7 with h7 | h7
    · exact Or.inl ((returned_take_present env L _ _).2 h7)
    · exact Or.inr ((returned_take_present env L _ _).2 h7)
  · intro _ _ _ w1 h; cases h
  · intro _ _ _ w1 h; cases h
  · intro h2 h8 w1 h
    injection h with h
    injection h with _ h
    subst h
    rw [hw]
    simp only [Bool.false_eq_true, false_iff, not_or, not_and]
    refine ⟨?_, ?_, ?_⟩
    · intro hr
      have := (returned_full_acquire env L _ _).1 hr
      rw [h2] at this
      exact absurd this (by simp only [success_ne_suboptimal, not_false_eq_true])
    · intro hr
      have := (returned_full_acquire env L _ _).1 hr
      rw [h2] at this
      exact absurd this (by simp only [success_ne_out_of_date, not_false_eq_true])
    · intro _
      constructor
      · intro hr
        have := (returned_full_present env L _ _).1 hr
        rw [h8] at this
        exact absurd this (by simp only [success_ne_suboptimal, not_false_eq_true])
      · intro hr
        have := (returned_full_present env L _ _).1 hr
        rw [h8] at this
        exact absurd this (by simp only [success_ne_out_of_date, not_false_eq_true])

/-- C3: for every iteration of the render loop that does not abort, whatever the state
it starts in, `recreate_everything` is true at its end if and only if
`vkAcquireNextImageKHR` returned `VK_SUBOPTIMAL_KHR` or `VK_ERROR_OUT_OF_DATE_KHR`, or it
returned `VK_SUCCESS` and `vkQueuePresentKHR` returned `VK_SUBOPTIMAL_KHR` or
`VK_ERROR_OUT_OF_DATE_KHR`. -/
theorem recreate_flag_at_end (env : FrameEnv) (L : MainLocals) (w w1 : World)
    (h : (render_loop_body env L w).out = .ok ((), w1)) :
    w1.recreate_everything = true ↔
      (Returned (render_loop_body env L w).trace .vkAcquireNextImageKHR
          VK_SUBOPTIMAL_KHR ∨
        Returned (render_loop_body env L w).trace .vkAcquireNextImageKHR
          VK_ERROR_OUT_OF_DATE_KHR ∨
        (Returned (render_loop_body env L w).trace .vkAcquireNextImageKHR VK_SUCCESS ∧
          (Returned (render_loop_body env L w).trace .vkQueuePresentKHR
              VK_SUBOPTIMAL_KHR ∨
            Returned (render_loop_body env L w).trace .vkQueuePresentKHR
              VK_ERROR_OUT_OF_DATE_KHR))) := by
  obtain ⟨P, hP, hcase⟩ := body_shape env L w
  have hPa : ∀ x ∈ P, x.fn ≠ .vkAcquireNextImageKHR :=
    fun x hx => (prefixFns_not_frame _ (hP x hx)).1
  have hPp : ∀ x ∈ P, x.fn ≠ .vkQueuePresentKHR :=
    fun x hx => (prefixFns_not_frame _ (hP x hx)).2.1
  rcases hcase with ⟨a, hab⟩ | ⟨w0, hw0, hrun⟩
  · rw [hab] at h
    cases h
  · rw [hrun] at h ⊢
    simp only [Result.prepend] at h ⊢
    rw [returned_skip_front P _ _ _ hPa, returned_skip_front P _ _ _ hPa,
      returned_skip_front P _ _ _ hPa, returned_skip_front P _ _ _ hPp,
      returned_skip_front P _ _ _ hPp]
    exact frame_result_flag env L w0 w1 hw0 h

/-- The theorem `recreate_flag_at_end` applies to an iteration that starts with the flag
set, recreates everything and then presents an image with the result
`VK_ERROR_OUT_OF_DATE_KHR`: it ends with the flag set. -/
theorem recreate_flag_at_end_witness :
    (render_loop_body FrameEnv.present_out_of_date MainLocals.sample
        World.sample_recreate).out =
      .ok ((), { create_world CreateEnv.success World.sample_recreate with
        recreate_everything := true }) ∧
    (({ create_world CreateEnv.success World.sample_recreate with
        recreate_everything := true } : World).recreate_everything = true ↔
      (Returned (render_loop_body FrameEnv.present_out_of_date MainLocals.sample
          World.sample_recreate).trace .vkAcquireNextImageKHR VK_SUBOPTIMAL_KHR ∨
        Returned (render_loop_body FrameEnv.present_out_of_date MainLocals.sample
          World.sample_recreate).trace .vkAcquireNextImageKHR VK_ERROR_OUT_OF_DATE_KHR ∨
        (Returned (render_loop_body FrameEnv.present_out_of_date MainLocals.sample
            World.sample_recreate).trace .vkAcquireNextImageKHR VK_SUCCESS ∧
          (Returned (render_loop_body FrameEnv.present_out_of_date MainLocals.sample
              World.sample_recreate).trace .vkQueuePresentKHR VK_SUBOPTIMAL_KHR ∨
            Returned (render_loop_body FrameEnv.present_out_of_date MainLocals.sample
              World.sample_recreate).trace .vkQueuePresentKHR
                VK_ERROR_OUT_OF_DATE_KHR)))) := by
  have hout : (render_loop_body FrameEnv.present_out_of_date MainLocals.sample
      World.sample_recreate).out =
      .ok ((), { create_world CreateEnv.success World.sample_recreate with
        recreate_everything := true }) := by
    rw [render_loop_body_recreate FrameEnv.present_out_of_date MainLocals.sample
      World.sample_recreate _ _ rfl rfl (create_success_run _ _ _ _ _ _ _)]
    rfl
  exact ⟨hout, recreate_flag_at_end _ _ _ _ hout⟩

/-! ## Theorems: recreation at the start of an iteration -/

theorem after_recreate_fns (env : FrameEnv) (L : MainLocals) (w : World) :
    ∀ e ∈ (after_recreate env L w).trace,
      e.fn ≠ .vkDeviceWaitIdle ∧ e.fn ≠ .destroy_basically_everything ∧
        e.fn ≠ .create_basically_everything := by
  have hre : ∀ e ∈ reupload_trace env L,
      e.fn ≠ .vkDeviceWaitIdle ∧ e.fn ≠ .destroy_basically_everything ∧
        e.fn ≠ .create_basically_everything := by
    intro e he
    simp only [reupload_trace, List.mem_cons, List.mem_singleton, List.not_mem_nil,
      or_false] at he
    rcases he with rfl | rfl | rfl | rfl <;>
      simp only [ne_eq, reduceCtorEq, not_false_eq_true, and_self]
  have hfr : ∀ e ∈ frame_trace env L w.g_TempVulkan,
      e.fn ≠ .vkDeviceWaitIdle ∧ e.fn ≠ .destroy_basically_everything ∧
        e.fn ≠ .create_basically_everything := by
    intro e he
    simp only [frame_trace, List.mem_cons, List.mem_singleton, List.not_mem_nil,
      or_false] at he
    rcases he with rfl | rfl | rfl | rfl | rfl | rfl | rfl | rfl | rfl | rfl | rfl | rfl |
      rfl | rfl <;> simp only [ne_eq, reduceCtorEq, not_false_eq_true, and_self]
  intro e he
  unfold after_recreate at he
  by_cases hm : env.vkMapMemory = VK_SUCCESS
  · rw [if_pos hm] at he
    simp only [Result.prepend] at he
    rcases List.mem_append.1 he with h | h
    · exact hre e h
    · obtain ⟨k, hk, _⟩ := frame_result_trace env L w
      rw [hk, ← frame_trace_take] at h
      exact hfr e (List.mem_of_mem_take h)
  · rw [if_neg hm] at he
    exact hre e (List.mem_of_mem_take he)

/-- C4: an iteration that starts with `recreate_everything` true calls
`vkDeviceWaitIdle`, then `destroy_basically_everything`, then
`create_basically_everything`, in this order, right after the poll and before any
`vkAcquireNextImageKHR`, and calls none of the three again; an iteration that starts
with the flag false calls neither `destroy_basically_everything` nor
`create_basically_everything`; and whenever an iteration calls `vkAcquireNextImageKHR`,
the part of the loop body that starts with this call runs in a state in which the flag is
false. -/
theorem recreate_at_start (env : FrameEnv) (L : MainLocals) (w : World) :
    (w.recreate_everything = true →
      ∃ rest : List Event,
        (render_loop_body env L w).trace =
          ⟨.glfwPollEvents, [], [], [], none⟩ ::
          ⟨.vkDeviceWaitIdle, [L.vk_device], [], [], some env.vkDeviceWaitIdle⟩ ::
          ((destroy_basically_everything L.vk_device w).trace ++
            ((create_basically_everything env.create L.window L.vk_physical_device
              L.vk_surface L.vk_device L.vk_graphics_queue L.vk_command_pool w).trace ++
              rest)) ∧
        (∀ e ∈ (destroy_basically_everything L.vk_device w).trace ++
            (create_basically_everything env.create L.window L.vk_physical_device
              L.vk_surface L.vk_device L.vk_graphics_queue L.vk_command_pool w).trace,
          e.fn ≠ .vkAcquireNextImageKHR) ∧
        (∀ e ∈ rest, e.fn ≠ .vkDeviceWaitIdle ∧ e.fn ≠ .destroy_basically_everything ∧
          e.fn ≠ .create_basically_everything)) ∧
    (w.recreate_everything = false →
      ∀ e ∈ (render_loop_body env L w).trace,
        e.fn ≠ .destroy_basically_everything ∧ e.fn ≠ .create_basically_everything) ∧
    (∀ (pre post : List Event) (e : Event),
      (render_loop_body env L w).trace = pre ++ e :: post →
      e.fn = .vkAcquireNextImageKHR →
      ∃ w1 : World, w1.recreate_everything = false ∧
        render_loop_body env L w =
          Result.prepend pre (acquire_record_submit_present env L w1)) := by
  refine ⟨?_, ?_, ?_⟩
  · intro hf
    rw [render_loop_body_run]
    unfold body_result recreate_call
    rw [if_pos hf, destroy_basically_everything_run]
    unfold Result.andThen
    cases hco : (create_basically_everything env.create L.window L.vk_physical_device
      L.vk_surface L.vk_device L.vk_graphics_queue L.vk_command_pool w).out with
    | error a =>
      refine ⟨[], ?_, ?_, ?_⟩
      · simp only [Result.prepend, List.cons_append, List.nil_append, List.append_nil]
      · intro e he
        rcases List.mem_append.1 he with h | h
        · have := allFn_destroy_basically_everything L.vk_device w e
            (by rw [destroy_basically_everything_run]; exact h)
          exact (prefixFns_not_frame _ (prefixFns_of_destroy _ this)).1
        · exact (prefixFns_not_frame _ (prefixFns_of_create _
            (allFn_create_basically_everything _ _ _ _ _ _ _ w e h))).1
      · intro e he; cases he
    | ok p =>
      obtain ⟨_, w1⟩ := p
      refine ⟨(after_recreate env L { w1 with recreate_everything := false }).trace,
        ?_, ?_, ?_⟩
      · simp only [Result.prepend, List.cons_append, List.nil_append, List.append_assoc]
      · intro e he
        rcases List.mem_append.1 he with h | h
        · have := allFn_destroy_basically_everything L.vk_device w e
            (by rw [destroy_basically_everything_run]; exact h)
          exact (prefixFns_not_frame _ (prefixFns_of_destroy _ this)).1
        · exact (prefixFns_not_frame _ (prefixFns_of_create _
            (allFn_create_basically_everything _ _ _ _ _ _ _ w e h))).1
      · exact after_recreate_fns env L _
  · intro hf e he
    rw [render_loop_body_run] at he
    unfold body_result at he
    rw [if_neg (by rw [hf]; exact Bool.false_ne_true)] at he
    simp only [Result.prepend, List.cons_append, List.nil_append, List.mem_cons] at he
    rcases he with rfl | he
    · simp only [ne_eq, reduceCtorEq, not_false_eq_true, and_self]
    · exact (after_recreate_fns env L w e he).2
  · intro pre post e ht hfn
    obtain ⟨w1, hw1, hrun, _⟩ := cut_at_acquire env L w pre post e ht hfn
    exact ⟨w1, hw1, by rw [acquire_record_submit_present_run]; exact hrun⟩

/-- The theorem `recreate_at_start` applies to an iteration that starts with the flag
set (its first part) and to one that starts with the flag clear (its second part). -/
theorem recreate_at_start_witness :
    (∃ rest : List Event,
      (render_loop_body FrameEnv.success MainLocals.sample World.sample_recreate).trace =
        ⟨.glfwPollEvents, [], [], [], none⟩ ::
        ⟨.vkDeviceWaitIdle, [MainLocals.sample.vk_device], [], [],
          some FrameEnv.success.vkDeviceWaitIdle⟩ ::
        ((destroy_basically_everything MainLocals.sample.vk_device
            World.sample_recreate).trace ++
          ((create_basically_everything FrameEnv.success.create MainLocals.sample.window
            MainLocals.sample.vk_physical_device MainLocals.sample.vk_surface
            MainLocals.sample.vk_device MainLocals.sample.vk_graphics_queue
            MainLocals.sample.vk_command_pool World.sample_recreate).trace ++ rest)) ∧
      (∀ e ∈ (destroy_basically_everything MainLocals.sample.vk_device
            World.sample_recreate).trace ++
          (create_basically_everything FrameEnv.success.create MainLocals.sample.window
            MainLocals.sample.vk_physical_device MainLocals.sample.vk_surface
            MainLocals.sample.vk_device MainLocals.sample.vk_graphics_queue
            MainLocals.sample.vk_command_pool World.sample_recreate).trace,
        e.fn ≠ .vkAcquireNextImageKHR) ∧
      (∀ e ∈ rest, e.fn ≠ .vkDeviceWaitIdle ∧ e.fn ≠ .destroy_basically_everything ∧
        e.fn ≠ .create_basically_everything)) ∧
    (∀ e ∈ (render_loop_body FrameEnv.success MainLocals.sample World.sample).trace,
      e.fn ≠ .destroy_basically_everything ∧ e.fn ≠ .create_basically_everything) :=
  ⟨(recreate_at_start FrameEnv.success MainLocals.sample World.sample_recreate).1 rfl,
    (recreate_at_start FrameEnv.success MainLocals.sample World.sample).2.1 rfl⟩

/-! ## Theorems: the results that stop the program -/

/-- What `acquire_record_submit_present` does when the acquire returns a result other
than `VK_SUCCESS`, `VK_SUBOPTIMAL_KHR` and `VK_ERROR_OUT_OF_DATE_KHR`. -/
theorem frame_result_acquire_other (env : FrameEnv) (L : MainLocals) (w : World)
    (h0 : env.vkAcquireNextImageKHR ≠ VK_SUCCESS)
    (h1 : env.vkAcquireNextImageKHR ≠ VK_SUBOPTIMAL_KHR)
    (h2 : env.vkAcquireNextImageKHR ≠ VK_ERROR_OUT_OF_DATE_KHR) :
    frame_result env L w =
      ⟨[acquire_event env L w.g_TempVulkan],
        .error (.fatal "Failed to acquire next image")⟩ := by
  unfold frame_result
  simp only []
  rw [if_neg (not_or.2 ⟨h1, h2⟩), if_pos h0]
  rfl

/-- What the iteration ends with when its present returned a result other than
`VK_SUCCESS`, `VK_SUBOPTIMAL_KHR` and `VK_ERROR_OUT_OF_DATE_KHR`. -/
theorem frame_result_present_other (env : FrameEnv) (L : MainLocals) (w : World)
    (r : VkResult) (h0 : r ≠ VK_SUCCESS) (h1 : r ≠ VK_SUBOPTIMAL_KHR)
    (h2 : r ≠ VK_ERROR_OUT_OF_DATE_KHR)
    (hp : Returned (frame_result env L w).trace .vkQueuePresentKHR r) :
    (frame_result env L w).out = .error (.fatal "Error when presenting") := by
  revert hp
  refine frame_result_cases env L w
    (fun x => Returned x.trace .vkQueuePresentKHR r →
      x.out = .error (.fatal "Error when presenting")) ?_ ?_ ?_ ?_ ?_ ?_ ?_ ?_ ?_ ?_
  · intro _ hp
    exact absurd hp (returned_take_present_lt env L _ 1 (by omega) _)
  · intro _ _ hp
    exact absurd hp (returned_take_present_lt env L _ 1 (by omega) _)
  · intro _ _ hp
    exact absurd hp (returned_take_present_lt env L _ 3 (by omega) _)
  · intro _ _ hp
    exact absurd hp (returned_take_present_lt env L _ 3 (by omega) _)
  · intro _ _ hp
    exact absurd hp (returned_take_present_lt env L _ 11 (by omega) _)
  · intro _ _ hp
    exact absurd hp (returned_take_present_lt env L _ 12 (by omega) _)
  · intro _ h7 hp
    have := (returned_take_present env L _ _).1 hp
    rw [this] at h7
    rcases h7 with h | h
    · exact absurd h h1
    · exact absurd h h2
  · intro _ _ _ _; rfl
  · intro _ h8 _ hp
    have := (returned_full_present env L _ _).1 hp
    rw [h8] at this
    exact absurd this.symm h0
  · intro _ h8 hp
    have := (returned_full_present env L _ _).1 hp
    rw [h8] at this
    exact absurd this.symm h0

theorem submit_mem_create_trace (env : CreateEnv) (a b c d e f : Handle) (w : World) :
    ∃ x ∈ create_trace env a b c d e f w, x.fn = .vkQueueSubmit := by
  refine ⟨⟨.vkQueueSubmit,
    [e, ⟨.vk_texture_command_buffer, 0,
      (create_uniform_buffer_part_world (create_swapchain_part_world env w)).next + 4⟩],
    [], [], some VK_SUCCESS⟩, ?_, rfl⟩
  unfold create_trace
  refine List.mem_cons_of_mem _ ?_
  simp only [List.mem_append]
  refine Or.inl (Or.inl (Or.inr ?_))
  unfold create_texture_part_trace
  simp only [List.mem_append, List.mem_cons, true_or, or_true]

/-- C5, as the code has it: if `vkAcquireNextImageKHR` returned a result `r` other than
`VK_SUCCESS`, `VK_SUBOPTIMAL_KHR` and `VK_ERROR_OUT_OF_DATE_KHR`, the iteration ends in
`fatal "Failed to acquire next image"`, it does not call `vkQueuePresentKHR` at all, and
no call follows the acquire (so no `vkQueueSubmit` follows it); if `vkQueuePresentKHR`
returned such a result, the iteration ends in `fatal "Error when presenting"`. -/
theorem acquire_or_present_failure_aborts (env : FrameEnv) (L : MainLocals) (w : World)
    (r : VkResult) (h0 : r ≠ VK_SUCCESS) (h1 : r ≠ VK_SUBOPTIMAL_KHR)
    (h2 : r ≠ VK_ERROR_OUT_OF_DATE_KHR) :
    (Returned (render_loop_body env L w).trace .vkAcquireNextImageKHR r →
      (render_loop_body env L w).out = .error (.fatal "Failed to acquire next image") ∧
      (∀ e ∈ (render_loop_body env L w).trace, e.fn ≠ .vkQueuePresentKHR) ∧
      (∀ (pre post : List Event) (e : Event),
        (render_loop_body env L w).trace = pre ++ e :: post →
        e.fn = .vkAcquireNextImageKHR → post = [])) ∧
    (Returned (render_loop_body env L w).trace .vkQueuePresentKHR r →
      (render_loop_body env L w).out = .error (.fatal "Error when presenting")) := by
  constructor
  · rintro ⟨e, he, hfn, hres⟩
    obtain ⟨pre, post, ht⟩ := List.append_of_mem he
    obtain ⟨w1, _, hrun, hev, _, hpre⟩ := cut_at_acquire env L w pre post e ht hfn
    have hacq : env.vkAcquireNextImageKHR = r := by
      rw [hev] at hres
      exact Option.some.inj hres
    have g0 : env.vkAcquireNextImageKHR ≠ VK_SUCCESS := by rw [hacq]; exact h0
    have g1 : env.vkAcquireNextImageKHR ≠ VK_SUBOPTIMAL_KHR := by rw [hacq]; exact h1
    have g2 : env.vkAcquireNextImageKHR ≠ VK_ERROR_OUT_OF_DATE_KHR := by
      rw [hacq]; exact h2
    refine ⟨?_, ?_, ?_⟩
    · rw [hrun, frame_result_acquire_other env L w1 g0 g1 g2]
      rfl
    · rw [hrun, frame_result_acquire_other env L w1 g0 g1 g2]
      intro x hx
      simp only [Result.prepend, List.mem_append, List.mem_singleton] at hx
      rcases hx with hx | rfl
      · exact (prefixFns_not_frame _ (hpre x hx)).2.1
      · simp only [acquire_event, ne_eq, reduceCtorEq, not_false_eq_true]
    · intro pre2 post2 e2 ht2 hfn2
      obtain ⟨w2, _, _, _, hpost, _⟩ := cut_at_acquire env L w pre2 post2 e2 ht2 hfn2
      rw [frame_result_acquire_other env L w2 g0 g1 g2] at hpost
      injection hpost with _ h
      exact h.symm
  · intro hp
    obtain ⟨P, hP, hcase⟩ := body_shape env L w
    have hPp : ∀ x ∈ P, x.fn ≠ .vkQueuePresentKHR :=
      fun x hx => (prefixFns_not_frame _ (hP x hx)).2.1
    rcases hcase with ⟨a, hab⟩ | ⟨w1, _, hrun⟩
    · exfalso
      rw [hab] at hp
      obtain ⟨e, he, h1, _⟩ := hp
      exact hPp e he h1
    · rw [hrun] at hp ⊢
      simp only [Result.prepend] at hp ⊢
      rw [returned_skip_front P _ _ _ hPp] at hp
      exact frame_result_present_other env L w1 r h0 h1 h2 hp

theorem device_lost_other :
    VK_ERROR_DEVICE_LOST ≠ VK_SUCCESS ∧ VK_ERROR_DEVICE_LOST ≠ VK_SUBOPTIMAL_KHR ∧
      VK_ERROR_DEVICE_LOST ≠ VK_ERROR_OUT_OF_DATE_KHR := by
  simp only [VK_ERROR_DEVICE_LOST, VK_SUCCESS, VK_SUBOPTIMAL_KHR, VK_ERROR_OUT_OF_DATE_KHR]
  decide

/-- The iteration `FrameEnv.acquire_lost` started in `World.sample_recreate`: it
recreates everything and then its acquire returns `VK_ERROR_DEVICE_LOST`. -/
theorem acquire_lost_run :
    render_loop_body FrameEnv.acquire_lost MainLocals.sample World.sample_recreate =
      ⟨(⟨.glfwPollEvents, [], [], [], none⟩ ::
          ⟨.vkDeviceWaitIdle, [MainLocals.sample.vk_device], [], [], some VK_SUCCESS⟩ ::
          (destroy_trace MainLocals.sample.vk_device World.sample_recreate.g_TempVulkan ++
            (create_trace CreateEnv.success MainLocals.sample.window
                MainLocals.sample.vk_physical_device MainLocals.sample.vk_surface
                MainLocals.sample.vk_device MainLocals.sample.vk_graphics_queue
                MainLocals.sample.vk_command_pool World.sample_recreate ++
              reupload_trace FrameEnv.acquire_lost MainLocals.sample))) ++
        [acquire_event FrameEnv.acquire_lost MainLocals.sample
          (create_world CreateEnv.success World.sample_recreate).g_TempVulkan],
        .error (.fatal "Failed to acquire next image")⟩ := by
  rw [render_loop_body_recreate FrameEnv.acquire_lost MainLocals.sample
    World.sample_recreate _ _ rfl rfl (create_success_run _ _ _ _ _ _ _),
    frame_result_acquire_other _ _ _ device_lost_other.1 device_lost_other.2.1
      device_lost_other.2.2]
  rfl

/-- The theorem `acquire_or_present_failure_aborts` applies to the iteration
`FrameEnv.acquire_lost` started in `World.sample_recreate`. -/
theorem acquire_or_present_failure_aborts_witness :
    (VK_ERROR_DEVICE_LOST ≠ VK_SUCCESS ∧ VK_ERROR_DEVICE_LOST ≠ VK_SUBOPTIMAL_KHR ∧
      VK_ERROR_DEVICE_LOST ≠ VK_ERROR_OUT_OF_DATE_KHR) ∧
    Returned (render_loop_body FrameEnv.acquire_lost MainLocals.sample
      World.sample_recreate).trace .vkAcquireNextImageKHR VK_ERROR_DEVICE_LOST ∧
    (render_loop_body FrameEnv.acquire_lost MainLocals.sample World.sample_recreate).out =
      .error (.fatal "Failed to acquire next image") := by
  have hret : Returned (render_loop_body FrameEnv.acquire_lost MainLocals.sample
      World.sample_recreate).trace .vkAcquireNextImageKHR VK_ERROR_DEVICE_LOST := by
    rw [acquire_lost_run]
    exact ⟨_, List.mem_append_right _ (List.mem_singleton_self _), rfl, rfl⟩
  exact ⟨device_lost_other, hret,
    ((acquire_or_present_failure_aborts FrameEnv.acquire_lost MainLocals.sample
      World.sample_recreate VK_ERROR_DEVICE_LOST device_lost_other.1 device_lost_other.2.1
      device_lost_other.2.2).1 hret).1⟩

/-- C5 as it is written fails: the iteration `FrameEnv.acquire_lost` started in
`World.sample_recreate` recreates everything, which submits the texture upload with
`vkQueueSubmit`, and then its `vkAcquireNextImageKHR` returns `VK_ERROR_DEVICE_LOST`,
a result other than the three: the iteration has called `vkQueueSubmit`. -/
theorem acquire_failure_after_submit :
    Returned (render_loop_body FrameEnv.acquire_lost MainLocals.sample
      World.sample_recreate).trace .vkAcquireNextImageKHR VK_ERROR_DEVICE_LOST ∧
    (VK_ERROR_DEVICE_LOST ≠ VK_SUCCESS ∧ VK_ERROR_DEVICE_LOST ≠ VK_SUBOPTIMAL_KHR ∧
      VK_ERROR_DEVICE_LOST ≠ VK_ERROR_OUT_OF_DATE_KHR) ∧
    ¬ (∀ e ∈ (render_loop_body FrameEnv.acquire_lost MainLocals.sample
        World.sample_recreate).trace,
      e.fn ≠ .vkQueueSubmit ∧ e.fn ≠ .vkQueuePresentKHR) := by
  rw [acquire_lost_run]
  refine ⟨⟨_, List.mem_append_right _ (List.mem_singleton_self _), rfl, rfl⟩,
    device_lost_other, ?_⟩
  intro hall
  obtain ⟨x, hx, hfn⟩ := submit_mem_create_trace CreateEnv.success
    MainLocals.sample.window MainLocals.sample.vk_physical_device
    MainLocals.sample.vk_surface MainLocals.sample.vk_device
    MainLocals.sample.vk_graphics_queue MainLocals.sample.vk_command_pool
    World.sample_recreate
  refine (hall x ?_).1 hfn
  simp only [List.mem_append, List.mem_cons]
  exact Or.inl (Or.inr (Or.inr (Or.inr (Or.inl hx))))

/-- C6: `acquire_record_submit_present` never ends in
`fatal "Failed to reset command buffer"`; and in the iteration `FrameEnv.reset_fails`,
in which `vkResetCommandBuffer` returns `VK_ERROR_DEVICE_LOST`, the program goes on to
`vkBeginCommandBuffer`, records, submits, presents and ends the iteration normally. -/
theorem reset_failure_not_checked :
    (∀ (env : FrameEnv) (L : MainLocals) (w : World),
      (acquire_record_submit_present env L w).out ≠
        .error (.fatal "Failed to reset command buffer")) ∧
    Returned (render_loop_body FrameEnv.reset_fails MainLocals.sample World.sample).trace
      .vkResetCommandBuffer VK_ERROR_DEVICE_LOST ∧
    (render_loop_body FrameEnv.reset_fails MainLocals.sample World.sample).out =
      .ok ((), World.sample) ∧
    (render_loop_body FrameEnv.reset_fails MainLocals.sample World.sample).trace.map
        Event.fn =
      [ .glfwPollEvents, .glfwGetWindowSize, .vkMapMemory, .memcpy, .vkUnmapMemory,
        .vkAcquireNextImageKHR, .vkResetCommandBuffer, .vkBeginCommandBuffer,
        .vkCmdBeginRenderPass, .vkCmdBindDescriptorSets, .vkCmdBindPipeline,
        .vkCmdBindVertexBuffers, .vkCmdBindIndexBuffer, .vkCmdDrawIndexed,
        .vkCmdEndRenderPass, .vkEndCommandBuffer, .vkQueueSubmit, .vkQueuePresentKHR,
        .vkQueueWaitIdle ] := by
  have hrun : render_loop_body FrameEnv.reset_fails MainLocals.sample World.sample =
      ⟨(⟨.glfwPollEvents, [], [], [], none⟩ ::
          reupload_trace FrameEnv.reset_fails MainLocals.sample) ++
        frame_trace FrameEnv.reset_fails MainLocals.sample World.sample.g_TempVulkan,
        .ok ((), World.sample)⟩ := by
    rw [render_loop_body_steady _ _ _ rfl rfl]
    rfl
  refine ⟨?_, ?_, ?_, ?_⟩
  · intro env L w
    rw [acquire_record_submit_present_run]
    refine frame_result_cases env L w
      (fun x => x.out ≠ .error (.fatal "Failed to reset command buffer"))
      ?_ ?_ ?_ ?_ ?_ ?_ ?_ ?_ ?_ ?_ <;> intros <;> simp only [ne_eq, reduceCtorEq,
        not_false_eq_true, Except.error.injEq, Abort.fatal.injEq, String.reduceEq]
  · rw [hrun]
    refine ⟨⟨.vkResetCommandBuffer, [MainLocals.sample.vk_command_buffer], [], [],
      some VK_ERROR_DEVICE_LOST⟩, ?_, rfl, rfl⟩
    simp only [frame_trace, FrameEnv.reset_fails, List.mem_append, List.mem_cons,
      true_or, or_true]
  · rw [hrun]
  · rw [hrun]
    rfl

/-! ## Theorems: what a call of `create_basically_everything` leaves to
`destroy_basically_everything` -/

/-- C9, as the code has it: every object that a call of `create_basically_everything`
that returns has created or allocated and has not itself released is released exactly
once by a following call of `destroy_basically_everything` (one that finds `g_TempVulkan`
as the call left it), except the command buffer allocated for the texture copy, which
`destroy_basically_everything` does not release. -/
theorem create_then_destroy_releases (env : CreateEnv)
    (window vk_physical_device vk_surface vk_device vk_graphics_queue vk_command_pool :
      Handle) (w w1 w2 : World) (h : Handle)
    (hc : (create_basically_everything env window vk_physical_device vk_surface vk_device
      vk_graphics_queue vk_command_pool w).out = .ok ((), w1))
    (hw2 : w2.g_TempVulkan = w1.g_TempVulkan)
    (hcreated : h ∈ created (create_basically_everything env window vk_physical_device
      vk_surface vk_device vk_graphics_queue vk_command_pool w).trace)
    (hkept : h ∉ released
      (create_basically_everything env window vk_physical_device vk_surface vk_device
        vk_graphics_queue vk_command_pool w).trace
      (create_basically_everything env window vk_physical_device vk_surface vk_device
        vk_graphics_queue vk_command_pool w).trace) :
    (released
      (create_basically_everything env window vk_physical_device vk_surface vk_device
        vk_graphics_queue vk_command_pool w).trace
      (destroy_basically_everything vk_device w2).trace).count h =
      if h.site = .vk_texture_command_buffer then 0 else 1 := by
  obtain ⟨ht, hw1⟩ := create_basically_everything_ok env window vk_physical_device
    vk_surface vk_device vk_graphics_queue vk_command_pool w w1 hc
  rw [ht] at hcreated hkept ⊢
  rw [created_create_trace] at hcreated
  rw [released_create_trace] at hkept
  rw [destroy_basically_everything_run]
  simp only []
  rw [hw2, hw1, released_destroy_trace]
  exact create_destroy_release_count w.next h hcreated hkept

theorem create_success_out (a b c d e f : Handle) (w : World) :
    (create_basically_everything CreateEnv.success a b c d e f w).out =
      .ok ((), create_world CreateEnv.success w) := by
  rw [create_success_run]

/-- The theorem `create_then_destroy_releases` applies to the first call of
`create_basically_everything` in a run in which every call succeeds: the swapchain it
creates is released once by `destroy_basically_everything`. -/
theorem create_then_destroy_releases_witness :
    (released
      (create_basically_everything CreateEnv.success MainLocals.sample.window
        MainLocals.sample.vk_physical_device MainLocals.sample.vk_surface
        MainLocals.sample.vk_device MainLocals.sample.vk_graphics_queue
        MainLocals.sample.vk_command_pool World.after_init).trace
      (destroy_basically_everything MainLocals.sample.vk_device World.sample).trace).count
        ⟨.swapchain, 0, 13⟩ = 1 := by
  have h := create_then_destroy_releases CreateEnv.success MainLocals.sample.window
    MainLocals.sample.vk_physical_device MainLocals.sample.vk_surface
    MainLocals.sample.vk_device MainLocals.sample.vk_graphics_queue
    MainLocals.sample.vk_command_pool World.after_init World.sample World.sample
    ⟨.swapchain, 0, 13⟩ (create_success_out _ _ _ _ _ _ _) rfl
    (by rw [create_success_run, created_create_trace]
        simp [create_created, World.after_init, World.initial])
    (by rw [create_success_run, released_create_trace]
        simp [create_released, World.after_init, World.initial])
  simpa using h

/-- C9 as it is written fails for the command buffer of the texture copy: the first call
of `create_basically_everything` in a run in which every call succeeds allocates it and
does not release it, and the following call of `destroy_basically_everything` does not
release it either. -/
theorem texture_command_buffer_not_released :
    (⟨.vk_texture_command_buffer, 0, 27⟩ : Handle) ∈ created
      (create_basically_everything CreateEnv.success MainLocals.sample.window
        MainLocals.sample.vk_physical_device MainLocals.sample.vk_surface
        MainLocals.sample.vk_device MainLocals.sample.vk_graphics_queue
        MainLocals.sample.vk_command_pool World.after_init).trace ∧
    (⟨.vk_texture_command_buffer, 0, 27⟩ : Handle) ∉ released
      (create_basically_everything CreateEnv.success MainLocals.sample.window
        MainLocals.sample.vk_physical_device MainLocals.sample.vk_surface
        MainLocals.sample.vk_device MainLocals.sample.vk_graphics_queue
        MainLocals.sample.vk_command_pool World.after_init).trace
      (create_basically_everything CreateEnv.success MainLocals.sample.window
        MainLocals.sample.vk_physical_device MainLocals.sample.vk_surface
        MainLocals.sample.vk_device MainLocals.sample.vk_graphics_queue
        MainLocals.sample.vk_command_pool World.after_init).trace ∧
    (create_basically_everything CreateEnv.success MainLocals.sample.window
        MainLocals.sample.vk_physical_device MainLocals.sample.vk_surface
        MainLocals.sample.vk_device MainLocals.sample.vk_graphics_queue
        MainLocals.sample.vk_command_pool World.after_init).out =
      .ok ((), World.sample) ∧
    (released
      (create_basically_everything CreateEnv.success MainLocals.sample.window
        MainLocals.sample.vk_physical_device MainLocals.sample.vk_surface
        MainLocals.sample.vk_device MainLocals.sample.vk_graphics_queue
        MainLocals.sample.vk_command_pool World.after_init).trace
      (destroy_basically_everything MainLocals.sample.vk_device World.sample).trace).count
        ⟨.vk_texture_command_buffer, 0, 27⟩ = 0 := by
  rw [create_success_run, destroy_basically_everything_run]
  simp only []
  refine ⟨?_, ?_, rfl, ?_⟩
  · rw [created_create_trace]
    simp [create_created, World.after_init, World.initial]
  · rw [released_create_trace]
    simp [create_released, World.after_init, World.initial]
  · have hs : World.sample = create_world CreateEnv.success World.after_init := rfl
    rw [hs, released_destroy_trace]
    simp [destroy_released, World.after_init, World.initial]

/-! ## Theorems: the initialisation in `main` -/

theorem query_present_support_run (env : InitEnv) (pd surf : Handle) (fuel i : Nat)
    (w : World) :
    query_present_support env pd surf fuel i w =
      ⟨query_present_support_trace env pd surf fuel i, .ok ((), w)⟩ := by
  induction fuel generalizing i with
  | zero => rfl
  | succ fuel ih =>
    simp only [query_present_support, bind_run, vk_run, andThen_ok, ih, prepend_mk,
      List.cons_append, List.nil_append, query_present_support_trace]

theorem newHandles_length (site : Site) (s n i : Nat) :
    (newHandles site s n i).length = n := by
  induction n generalizing i with
  | zero => rfl
  | succ n ih => simp only [newHandles, List.length_cons, ih]

theorem newHandles_getElem_zero (site : Site) (s n i : Nat)
    (h : 0 < (newHandles site s n i).length) :
    (newHandles site s n i)[0] = ⟨site, i, s + i⟩ := by
  cases n with
  | zero => simp only [newHandles, List.length_nil, Nat.lt_irrefl] at h
  | succ n => simp only [newHandles, List.getElem_cons_zero]

set_option maxHeartbeats 2000000 in
theorem main_init_ok (env : InitEnv) (w w1 : World) (L : MainLocals)
    (h : (main_init env w).out = .ok (L, w1)) :
    (main_init env w).trace = main_init_trace env w.next ∧
      L = main_init_locals w.next env.physical_device_count ∧
      w1 = { w with next := w.next + 3 + env.physical_device_count + 8 } := by
  unfold main_init create_host_buffer at h ⊢
  simp only [bind_run, pure_run, vk_run, call_run, callNew_run, vkNew_run, vkNewArray_run,
    check_run, assert_run, index_run, modifyG_run, setRecreate_run, getWorld_run,
    run_find_memory_type_run, query_present_support_run,
    andThen_ok, andThen_error, andThen_ite, andThen_dite, prepend_mk, prepend_ite,
    prepend_dite, List.nil_append, List.cons_append, List.append_nil, Nat.reduceAdd,
    Nat.reduceLT, ↓reduceIte, ↓reduceDIte] at h ⊢
  have h1 : env.vkCreateInstance = VK_SUCCESS := by
    by_contra hn; rw [if_neg hn] at h; cases h
  rw [if_pos h1] at h
  have h2 : env.glfwCreateWindowSurface = VK_SUCCESS := by
    by_contra hn; rw [if_neg hn] at h; cases h
  rw [if_pos h2] at h
  have h3 : env.vkEnumeratePhysicalDevices_count = VK_SUCCESS := by
    by_contra hn; rw [if_neg hn] at h; cases h
  rw [if_pos h3] at h
  have h4 : env.vkEnumeratePhysicalDevices_data = VK_SUCCESS := by
    by_contra hn; rw [if_neg hn] at h; cases h
  rw [if_pos h4] at h
  have hlen : (0 < (if env.vkEnumeratePhysicalDevices_data = VK_SUCCESS then
      newHandles Site.vk_physical_device
        ((w.next + 1 + if env.vkCreateInstance = VK_SUCCESS then 1 else 0) +
          if env.glfwCreateWindowSurface = VK_SUCCESS then 1 else 0)
        env.physical_device_count 0
      else []).length) ↔ 0 < env.physical_device_count := by
    rw [if_pos h4, newHandles_length]
  have h5 : 0 < env.physical_device_count := by
    by_contra hn; rw [dif_neg (fun hc => hn (hlen.1 hc))] at h; cases h
  rw [dif_pos (hlen.2 h5)] at h
  have h6 : env.vkCreateDevice = VK_SUCCESS := by
    by_contra hn; rw [if_neg hn] at h; cases h
  rw [if_pos h6] at h
  have h7 : env.vkCreateBuffer_vertex = VK_SUCCESS := by
    by_contra hn; rw [if_neg hn] at h; cases h
  rw [if_pos h7] at h
  have h8 : (find_memory_type env.mem_props env.memoryTypeBits_vertex
      (VK_MEMORY_PROPERTY_HOST_VISIBLE_BIT ||| VK_MEMORY_PROPERTY_HOST_COHERENT_BIT)).toBool
      = true := by
    by_contra hn; rw [if_neg hn] at h; cases h
  rw [if_pos h8] at h
  have h9 : env.vkAllocateMemory_vertex = VK_SUCCESS := by
    by_contra hn; rw [if_neg hn] at h; cases h
  rw [if_pos h9] at h
  have h10 : env.vkBindBufferMemory_vertex = VK_SUCCESS := by
    by_contra hn; rw [if_neg hn] at h; cases h
  rw [if_pos h10] at h
  have h11 : env.vkMapMemory_vertex = VK_SUCCESS := by
    by_contra hn; rw [if_neg hn] at h; cases h
  rw [if_pos h11] at h
  have h12 : env.vkCreateBuffer_index = VK_SUCCESS := by
    by_contra hn; rw [if_neg hn] at h; cases h
  rw [if_pos h12] at h
  have h13 : (find_memory_type env.mem_props env.memoryTypeBits_index
      (VK_MEMORY_PROPERTY_HOST_VISIBLE_BIT ||| VK_MEMORY_PROPERTY_HOST_COHERENT_BIT)).toBool
      = true := by
    by_contra hn; rw [if_neg hn] at h; cases h
  rw [if_pos h13] at h
  have h14 : env.vkAllocateMemory_index = VK_SUCCESS := by
    by_contra hn; rw [if_neg hn] at h; cases h
  rw [if_pos h14] at h
  have h15 : env.vkBindBufferMemory_index = VK_SUCCESS := by
    by_contra hn; rw [if_neg hn] at h; cases h
  rw [if_pos h15] at h
  have h16 : env.vkMapMemory_index = VK_SUCCESS := by
    by_contra hn; rw [if_neg hn] at h; cases h
  rw [if_pos h16] at h
  have h17 : env.vkCreateCommandPool = VK_SUCCESS := by
    by_contra hn; rw [if_neg hn] at h; cases h
  rw [if_pos h17] at h
  have h18 : env.vkAllocateCommandBuffers = VK_SUCCESS := by
    by_contra hn; rw [if_neg hn] at h; cases h
  rw [if_pos h18] at h
  injection h with h
  injection h with hL hw
  subst hL
  subst hw
  simp only [h1, h2, h3, h4, h6, h7, h8, h9, h10, h11, h12, h13, h14, h15, h16, h17, h18,
    ↓reduceIte, ↓reduceDIte, newHandles_length, h5, newHandles_getElem_zero, Nat.add_zero,
    main_init_trace, main_init_locals, create_host_buffer_trace, find_memory_type_trace,
    List.cons_append, List.nil_append, List.append_assoc, Nat.add_assoc, Nat.reduceAdd,
    and_self]

/-! ## Theorems: the objects that the render loop creates and destroys -/

theorem created_append (a b : List Event) : created (a ++ b) = created a ++ created b := by
  induction a with
  | nil => rfl
  | cons e a ih =>
    show e.created ++ created (a ++ b) = (e.created ++ created a) ++ created b
    rw [ih, List.append_assoc]

theorem destroyed_append (a b : List Event) :
    destroyed (a ++ b) = destroyed a ++ destroyed b := by
  induction a with
  | nil => rfl
  | cons e a ih =>
    show e.destroyed ++ destroyed (a ++ b) = (e.destroyed ++ destroyed a) ++ destroyed b
    rw [ih, List.append_assoc]

theorem created_nil : created [] = [] := rfl

theorem destroyed_nil : destroyed [] = [] := rfl

theorem created_cons (e : Event) (t : List Event) :
    created (e :: t) = e.created ++ created t := rfl

theorem destroyed_cons (e : Event) (t : List Event) :
    destroyed (e :: t) = e.destroyed ++ destroyed t := rfl

theorem created_eq_nil (t : List Event) (h : ∀ e ∈ t, e.fn.creates = false) :
    created t = [] := by
  induction t with
  | nil => rfl
  | cons e t ih =>
    simp only [created, Event.created, h e (List.mem_cons_self _ _), Bool.false_eq_true,
      ↓reduceIte, List.nil_append]
    exact ih (fun x hx => h x (List.mem_cons_of_mem _ hx))

theorem destroyed_eq_nil (t : List Event) (h : ∀ e ∈ t, e.destroyed = []) :
    destroyed t = [] := by
  induction t with
  | nil => rfl
  | cons e t ih =>
    simp only [destroyed, h e (List.mem_cons_self _ _), List.nil_append]
    exact ih (fun x hx => h x (List.mem_cons_of_mem _ hx))

theorem noMain_nil : NoMain [] := by
  intro h hh
  cases hh

theorem noMain_append {a b : List Handle} (ha : NoMain a) (hb : NoMain b) :
    NoMain (a ++ b) := by
  intro h hh
  rcases List.mem_append.1 hh with h1 | h1
  · exact ha h h1
  · exact hb h h1

theorem noMain_create_created (n : Nat) : NoMain (create_created n) := by
  intro h hh
  simp only [create_created, List.mem_cons, List.mem_singleton, List.not_mem_nil,
    or_false] at hh
  rcases hh with rfl | rfl | rfl | rfl | rfl | rfl | rfl | rfl | rfl | rfl | rfl | rfl | rfl |
    rfl | rfl | rfl | rfl | rfl | rfl | rfl | rfl | rfl | rfl | rfl <;> rfl

theorem destroyed_create_trace (env : CreateEnv) (a b c d e f : Handle) (w : World) :
    destroyed (create_trace env a b c d e f w) = create_released w.next := by
  simp only [create_trace, create_swapchain_part_trace, create_uniform_buffer_part_trace,
    create_texture_part_trace, create_descriptor_part_trace, create_pipeline_part_trace,
    create_shader_module_trace, find_memory_type_trace,
    create_swapchain_part_world, create_uniform_buffer_part_world,
    create_texture_part_world, create_descriptor_part_world, create_pipeline_part_world,
    List.cons_append, List.nil_append, List.append_assoc,
    destroyed, Event.destroyed, Nat.add_assoc, Nat.reduceAdd, ↓reduceIte,
    reduceCtorEq, List.append_nil, create_released, List.drop_succ_cons, List.drop_zero,
    List.take_succ_cons, List.take_zero, List.drop_nil, List.take_nil]

theorem noMain_create_released (n : Nat) : NoMain (create_released n) := by
  intro h hh
  simp only [create_released, List.mem_cons, List.mem_singleton, List.not_mem_nil,
    or_false] at hh
  rcases hh with rfl | rfl | rfl | rfl <;> rfl

set_option maxHeartbeats 1000000 in
theorem noMain_destroy_after_create (env : CreateEnv) (vk_device : Handle) (w : World) :
    NoMain (destroyed (destroy_trace vk_device (create_world env w).g_TempVulkan)) := by
  intro h hh
  simp only [destroy_trace, create_world,
    create_swapchain_part_world, create_uniform_buffer_part_world,
    create_texture_part_world, create_descriptor_part_world, create_pipeline_part_world,
    List.cons_append, List.nil_append, List.append_assoc, List.map_cons, List.map_nil,
    destroyed, Event.destroyed, List.append_nil, List.drop_succ_cons, List.drop_zero,
    List.take_succ_cons, List.take_zero, List.drop_nil, List.take_nil,
    List.mem_cons, List.mem_singleton, List.not_mem_nil, or_false] at hh
  rcases hh with rfl | rfl | rfl | rfl | rfl | rfl | rfl | rfl | rfl | rfl | rfl | rfl | rfl |
    rfl | rfl | rfl | rfl | rfl <;> rfl

theorem after_recreate_no_objects (env : FrameEnv) (L : MainLocals) (w : World) :
    created (after_recreate env L w).trace = [] ∧
      destroyed (after_recreate env L w).trace = [] := by
  have hre : ∀ e ∈ reupload_trace env L, e.fn.creates = false ∧ e.destroyed = [] := by
    intro e he
    simp only [reupload_trace, List.mem_cons, List.mem_singleton, List.not_mem_nil,
      or_false] at he
    rcases he with rfl | rfl | rfl | rfl <;> exact ⟨rfl, rfl⟩
  have hfr : ∀ e ∈ frame_trace env L w.g_TempVulkan,
      e.fn.creates = false ∧ e.destroyed = [] := by
    intro e he
    simp only [frame_trace, List.mem_cons, List.mem_singleton, List.not_mem_nil,
      or_false] at he
    rcases he with rfl | rfl | rfl | rfl | rfl | rfl | rfl | rfl | rfl | rfl | rfl | rfl |
      rfl | rfl <;> exact ⟨rfl, rfl⟩
  have hall : ∀ e ∈ (after_recreate env L w).trace,
      e.fn.creates = false ∧ e.destroyed = [] := by
    intro e he
    unfold after_recreate at he
    by_cases hm : env.vkMapMemory = VK_SUCCESS
    · rw [if_pos hm] at he
      simp only [Result.prepend] at he
      rcases List.mem_append.1 he with h | h
      · exact hre e h
      · obtain ⟨k, hk, _⟩ := frame_result_trace env L w
        rw [hk, ← frame_trace_take] at h
        exact hfr e (List.mem_of_mem_take h)
    · rw [if_neg hm] at he
      exact hre e (List.mem_of_mem_take he)
  exact ⟨created_eq_nil _ (fun e he => (hall e he).1),
    destroyed_eq_nil _ (fun e he => (hall e he).2)⟩

theorem frame_result_g (env : FrameEnv) (L : MainLocals) (w w1 : World)
    (h : (frame_result env L w).out = .ok ((), w1)) :
    w1.g_TempVulkan = w.g_TempVulkan := by
  revert h
  refine frame_result_cases env L w
    (fun r => r.out = .ok ((), w1) → w1.g_TempVulkan = w.g_TempVulkan)
    ?_ ?_ ?_ ?_ ?_ ?_ ?_ ?_ ?_ ?_
  · intro _ h; injection h with h; injection h with _ h; rw [← h]
  · intro _ _ h; cases h
  · intro _ _ h; cases h
  · intro _ _ h; cases h
  · intro _ _ h; cases h
  · intro _ _ h; cases h
  · intro _ _ h; injection h with h; injection h with _ h; rw [← h]
  · intro _ _ _ h; cases h
  · intro _ _ _ h; cases h
  · intro _ _ h; injection h with h; injection h with _ h; rw [← h]

theorem after_recreate_g (env : FrameEnv) (L : MainLocals) (w w1 : World)
    (h : (after_recreate env L w).out = .ok ((), w1)) :
    w1.g_TempVulkan = w.g_TempVulkan := by
  unfold after_recreate at h
  by_cases hm : env.vkMapMemory = VK_SUCCESS
  · rw [if_pos hm] at h
    exact frame_result_g env L w w1 h
  · rw [if_neg hm] at h
    cases h

theorem render_loop_body_no_close (env : FrameEnv) (L : MainLocals) (w : World) :
    ∀ e ∈ (render_loop_body env L w).trace, e.fn ≠ .glfwWindowShouldClose := by
  obtain ⟨P, hP, hcase⟩ := body_shape env L w
  have hPc : ∀ x ∈ P, x.fn ≠ .glfwWindowShouldClose := by
    intro x hx hc
    have := hP x hx
    rw [hc] at this
    exact Bool.noConfusion this
  rcases hcase with ⟨a, hab⟩ | ⟨w1, _, hrun⟩
  · rw [hab]
    exact hPc
  · rw [hrun]
    intro e he
    simp only [Result.prepend] at he
    rcases List.mem_append.1 he with h | h
    · exact hPc e h
    · obtain ⟨k, hk, _⟩ := frame_result_trace env L w1
      rw [hk, ← frame_trace_take] at h
      have h2 := List.mem_of_mem_take h
      simp only [frame_trace, List.mem_cons, List.mem_singleton, List.not_mem_nil,
        or_false] at h2
      rcases h2 with rfl | rfl | rfl | rfl | rfl | rfl | rfl | rfl | rfl | rfl | rfl | rfl |
        rfl | rfl <;> simp only [ne_eq, reduceCtorEq, not_false_eq_true]

/-- An iteration that returns creates and destroys none of the objects of `main`, and
it leaves in `g_TempVulkan` only objects that are none of them, if it found it so. -/
theorem render_loop_body_objects (env : FrameEnv) (L : MainLocals) (w w1 : World)
    (h : (render_loop_body env L w).out = .ok ((), w1))
    (hg : ∀ d, NoMain (destroyed (destroy_trace d w.g_TempVulkan))) :
    (∀ d, NoMain (destroyed (destroy_trace d w1.g_TempVulkan))) ∧
      NoMain (created (render_loop_body env L w).trace) ∧
      NoMain (destroyed (render_loop_body env L w).trace) := by
  rw [render_loop_body_run] at h ⊢
  unfold body_result at h ⊢
  by_cases hf : w.recreate_everything = true
  · rw [if_pos hf] at h ⊢
    unfold recreate_call at h ⊢
    unfold Result.andThen at h ⊢
    cases hco : (create_basically_everything env.create L.window L.vk_physical_device
      L.vk_surface L.vk_device L.vk_graphics_queue L.vk_command_pool w).out with
    | error a =>
      rw [hco] at h
      cases h
    | ok p =>
      obtain ⟨_, w2⟩ := p
      obtain ⟨htr, hw2⟩ := create_basically_everything_ok _ _ _ _ _ _ _ w w2 hco
      rw [hco] at h
      simp only [Result.prepend] at h ⊢
      rw [htr]
      have hg1 := after_recreate_g env L _ w1 h
      have hno := after_recreate_no_objects env L { w2 with recreate_everything := false }
      simp only at hg1
      refine ⟨?_, ?_, ?_⟩
      · intro d
        rw [hg1, hw2]
        exact noMain_destroy_after_create _ _ _
      · simp only [List.cons_append, List.nil_append, created_cons, Event.created, Fn.creates,
          Bool.false_eq_true, ↓reduceIte, created_append, hno.1, List.append_nil,
          created_create_trace]
        refine noMain_append ?_ (noMain_create_created _)
        rw [created_eq_nil]
        · exact noMain_nil
        · intro e he
          have := allFn_destroy_basically_everything L.vk_device w e
            (by rw [destroy_basically_everything_run]; exact he)
          revert this
          cases e.fn <;> intro h <;> first | rfl | exact Bool.noConfusion h
      · simp only [List.cons_append, List.nil_append, destroyed_cons, Event.destroyed,
          destroyed_append, hno.2, List.append_nil, destroyed_create_trace]
        exact noMain_append (hg _) (noMain_create_released _)
  · rw [if_neg hf] at h ⊢
    simp only [Result.prepend] at h ⊢
    have hg1 := after_recreate_g env L _ w1 h
    have hno := after_recreate_no_objects env L w
    refine ⟨?_, ?_, ?_⟩
    · intro d
      rw [hg1]
      exact hg d
    · simp only [List.cons_append, List.nil_append, created_cons, Event.created, Fn.creates,
        Bool.false_eq_true, ↓reduceIte, hno.1]
      exact noMain_nil
    · simp only [List.cons_append, List.nil_append, destroyed_cons, Event.destroyed, hno.2]
      exact noMain_nil

/-- The render loop, when it returns, has created and destroyed none of the objects of
`main`; its first and its last call are the loop test. -/
theorem render_loop_objects (L : MainLocals) (frames : List FrameEnv) (w w1 : World)
    (h : (render_loop L frames w).out = .ok ((), w1))
    (hg : ∀ d, NoMain (destroyed (destroy_trace d w.g_TempVulkan))) :
    (∀ d, NoMain (destroyed (destroy_trace d w1.g_TempVulkan))) ∧
      NoMain (created (render_loop L frames w).trace) ∧
      NoMain (destroyed (render_loop L frames w).trace) := by
  induction frames generalizing w with
  | nil =>
    unfold render_loop at h ⊢
    rw [call_run] at h ⊢
    injection h with h
    injection h with _ h
    subst h
    exact ⟨hg, noMain_nil, noMain_nil⟩
  | cons env rest ih =>
    unfold render_loop at h ⊢
    obtain ⟨_, w2, h1, h2, ht1⟩ := bind_ok_inv _ _ _ _ _ h
    rw [ht1]
    rw [call_run] at h1 ⊢
    injection h1 with h1
    injection h1 with _ h1
    subst h1
    obtain ⟨_, w3, h3, h4, ht2⟩ := bind_ok_inv _ _ _ _ _ h2
    rw [ht2]
    obtain ⟨hg3, hc3, hd3⟩ := render_loop_body_objects env L _ w3 h3 hg
    obtain ⟨hg1, hc1, hd1⟩ := ih w3 h4 hg3
    refine ⟨hg1, ?_, ?_⟩
    · simp only [List.cons_append, List.nil_append, created_cons, Event.created, Fn.creates,
        Bool.false_eq_true, ↓reduceIte, created_append]
      exact noMain_append hc3 hc1
    · simp only [List.cons_append, List.nil_append, destroyed_cons, Event.destroyed,
        destroyed_append]
      exact noMain_append hd3 hd1

/-! ## Theorems: the objects of `main` -/

theorem created_query_present_support_trace (env : InitEnv) (pd surf : Handle)
    (fuel i : Nat) : created (query_present_support_trace env pd surf fuel i) = [] := by
  induction fuel generalizing i with
  | zero => rfl
  | succ fuel ih =>
    simp only [query_present_support_trace, created_cons, ih, Event.created, Fn.creates,
      Bool.false_eq_true, ↓reduceIte, List.append_nil]

theorem destroyed_query_present_support_trace (env : InitEnv) (pd surf : Handle)
    (fuel i : Nat) : destroyed (query_present_support_trace env pd surf fuel i) = [] := by
  induction fuel generalizing i with
  | zero => rfl
  | succ fuel ih =>
    simp only [query_present_support_trace, destroyed_cons, ih, Event.destroyed,
      List.append_nil]

theorem created_main_init_trace (env : InitEnv) (n : Nat) :
    created (main_init_trace env n) =
      [ (main_init_locals n env.physical_device_count).window,
        (main_init_locals n env.physical_device_count).vk_instance,
        (main_init_locals n env.physical_device_count).vk_surface,
        (main_init_locals n env.physical_device_count).vk_device,
        (main_init_locals n env.physical_device_count).vk_vertex_buffer,
        (main_init_locals n env.physical_device_count).vk_vertex_buffer_memory,
        (main_init_locals n env.physical_device_count).vk_index_buffer,
        (main_init_locals n env.physical_device_count).vk_index_buffer_memory,
        (main_init_locals n env.physical_device_count).vk_command_pool,
        (main_init_locals n env.physical_device_count).vk_command_buffer ] := by
  simp only [main_init_trace, create_host_buffer_trace, find_memory_type_trace,
    created_append, created_cons, created_query_present_support_trace, Event.created,
    Fn.creates, Bool.false_eq_true, ↓reduceIte, List.append_nil, List.nil_append,
    List.cons_append, created_nil]

theorem destroyed_main_init_trace (env : InitEnv) (n : Nat) :
    destroyed (main_init_trace env n) = [] := by
  simp only [main_init_trace, create_host_buffer_trace, find_memory_type_trace,
    destroyed_append, destroyed_cons, destroyed_query_present_support_trace,
    Event.destroyed, List.append_nil, List.nil_append, List.cons_append, destroyed_nil]

theorem created_destroy_trace (vk_device : Handle) (g : VulkanBasicallyEverything) :
    created (destroy_trace vk_device g) = [] := by
  apply created_eq_nil
  intro e he
  have := allFn_destroy_basically_everything vk_device
    { g_TempVulkan := g, recreate_everything := false, next := 0 } e
    (by rw [destroy_basically_everything_run]; exact he)
  revert this
  cases e.fn <;> intro h <;> first | rfl | exact Bool.noConfusion h

theorem main_shutdown_run (L : MainLocals) (w : World) :
    main_shutdown L w = ⟨main_shutdown_trace L w.g_TempVulkan, .ok ((), w)⟩ := by
  unfold main_shutdown
  simp only [bind_run, call_run, destroy_basically_everything_run, andThen_ok, prepend_mk,
    main_shutdown_trace, List.nil_append, List.cons_append, List.append_nil,
    List.append_assoc]

theorem created_main_shutdown_trace (L : MainLocals) (g : VulkanBasicallyEverything) :
    created (main_shutdown_trace L g) = [] := by
  simp only [main_shutdown_trace, created_append, created_cons, created_destroy_trace,
    Event.created, Fn.creates, Bool.false_eq_true, ↓reduceIte, List.append_nil,
    List.nil_append, created_nil]

theorem destroyed_main_shutdown_trace (L : MainLocals) (g : VulkanBasicallyEverything) :
    destroyed (main_shutdown_trace L g) =
      [ L.vk_command_pool, L.vk_index_buffer_memory, L.vk_index_buffer,
        L.vk_vertex_buffer_memory, L.vk_vertex_buffer ] ++
      (destroyed (destroy_trace L.vk_device g) ++
        [ L.vk_device, L.vk_surface, L.vk_instance, L.window ]) := by
  simp only [main_shutdown_trace, destroyed_append, destroyed_cons, Event.destroyed,
    List.append_nil, List.nil_append, List.cons_append, destroyed_nil, List.drop_succ_cons,
    List.drop_zero, List.take_succ_cons, List.take_zero, List.take_nil, List.drop_nil,
    List.append_assoc]

theorem of_main_main_objects (n c : Nat) :
    ∀ h ∈ main_objects (main_init_locals n c), h.site.of_main = true := by
  intro h hh
  simp only [main_objects, main_init_locals, List.mem_cons, List.mem_singleton,
    List.not_mem_nil, or_false] at hh
  rcases hh with rfl | rfl | rfl | rfl | rfl | rfl | rfl | rfl <;> rfl

theorem not_mem_of_noMain {hs : List Handle} (hno : NoMain hs) {h : Handle}
    (hm : h.site.of_main = true) : h ∉ hs := by
  intro hh
  have := hno h hh
  rw [hm] at this
  exact Bool.noConfusion this

theorem count_eq_zero_of_noMain {hs : List Handle} (hno : NoMain hs) {h : Handle}
    (hm : h.site.of_main = true) : hs.count h = 0 :=
  List.count_eq_zero_of_not_mem (not_mem_of_noMain hno hm)

theorem count_created_main_init (env : InitEnv) (n : Nat) :
    ∀ h ∈ main_objects (main_init_locals n env.physical_device_count),
      (created (main_init_trace env n)).count h = 1 := by
  intro h hh
  rw [created_main_init_trace]
  simp only [main_objects, main_init_locals, List.mem_cons, List.mem_singleton,
    List.not_mem_nil, or_false] at hh
  rcases hh with rfl | rfl | rfl | rfl | rfl | rfl | rfl | rfl <;>
    simp [main_init_locals, List.count_cons]

theorem count_destroyed_main_shutdown (n c : Nat) (g : VulkanBasicallyEverything)
    (hg : NoMain (destroyed (destroy_trace (main_init_locals n c).vk_device g))) :
    ∀ h ∈ main_objects (main_init_locals n c),
      (destroyed (main_shutdown_trace (main_init_locals n c) g)).count h = 1 := by
  intro h hh
  rw [destroyed_main_shutdown_trace, List.count_append, List.count_append,
    count_eq_zero_of_noMain hg (of_main_main_objects n c h hh)]
  simp only [main_objects, main_init_locals, List.mem_cons, List.mem_singleton,
    List.not_mem_nil, or_false] at hh
  rcases hh with rfl | rfl | rfl | rfl | rfl | rfl | rfl | rfl <;>
    simp [main_init_locals, List.count_cons]

/-- C8: in every run of `main` that terminates normally, with any number of iterations
of the render loop, each of the instance, the surface, the logical device, the vertex
buffer and its memory, the index buffer and its memory, and the command pool is created
exactly once before the render loop, is destroyed exactly once after it, and is neither
created nor destroyed inside the loop (nor destroyed before it, nor created after it). -/
theorem main_objects_once (env : MainEnv) (w w' : World)
    (h : (main env w).out = .ok ((), w')) :
    ∃ (L : MainLocals) (w0 w1 w2 : World),
      (main_init env.init w).out = .ok (L, w0) ∧
      (main env w).trace =
        ((main_init env.init w).trace ++
          (create_basically_everything env.create L.window L.vk_physical_device
            L.vk_surface L.vk_device L.vk_graphics_queue L.vk_command_pool w0).trace) ++
        ((render_loop L env.frames w1).trace ++ (main_shutdown L w2).trace) ∧
      ∀ x ∈ main_objects L,
        (created ((main_init env.init w).trace ++
          (create_basically_everything env.create L.window L.vk_physical_device
            L.vk_surface L.vk_device L.vk_graphics_queue L.vk_command_pool w0).trace)).count
            x = 1 ∧
        x ∉ destroyed ((main_init env.init w).trace ++
          (create_basically_everything env.create L.window L.vk_physical_device
            L.vk_surface L.vk_device L.vk_graphics_queue L.vk_command_pool w0).trace) ∧
        x ∉ created (render_loop L env.frames w1).trace ∧
        x ∉ destroyed (render_loop L env.frames w1).trace ∧
        x ∉ created (main_shutdown L w2).trace ∧
        (destroyed (main_shutdown L w2).trace).count x = 1 := by
  unfold main at h ⊢
  obtain ⟨L, w0, h0, h, ht0⟩ := bind_ok_inv _ _ _ _ _ h
  obtain ⟨_, wc, hc, h, ht1⟩ := bind_ok_inv _ _ _ _ _ h
  obtain ⟨_, w1, hs, h, ht2⟩ := bind_ok_inv _ _ _ _ _ h
  obtain ⟨_, w2, hl, h, ht3⟩ := bind_ok_inv _ _ _ _ _ h
  rw [setRecreate_run] at hs ht2
  injection hs with hs
  injection hs with _ hs
  refine ⟨L, w0, w1, w2, h0, ?_, ?_⟩
  · rw [ht0, ht1, ht2, ht3]
    simp only [List.nil_append, List.append_assoc]
  · obtain ⟨hti, hL, _⟩ := main_init_ok env.init w w0 L h0
    obtain ⟨htc, hwc⟩ := create_basically_everything_ok _ _ _ _ _ _ _ w0 wc hc
    have hg1 : ∀ d, NoMain (destroyed (destroy_trace d w1.g_TempVulkan)) := by
      intro d
      rw [← hs, hwc]
      exact noMain_destroy_after_create _ _ _
    obtain ⟨hg2, hcl, hdl⟩ := render_loop_objects L env.frames w1 w2 hl hg1
    intro x hx
    rw [hti, htc, main_shutdown_run, created_append, destroyed_append,
      created_create_trace, destroyed_create_trace, destroyed_main_init_trace]
    simp only [created_main_shutdown_trace, List.nil_append]
    have hm : x.site.of_main = true := by
      rw [hL] at hx
      exact of_main_main_objects _ _ x hx
    refine ⟨?_, not_mem_of_noMain (noMain_create_released _) hm,
      not_mem_of_noMain hcl hm, not_mem_of_noMain hdl hm, List.not_mem_nil _, ?_⟩
    · rw [List.count_append, count_eq_zero_of_noMain (noMain_create_created _) hm]
      rw [hL] at hx
      exact count_created_main_init env.init w.next x hx
    · have := hg2 L.vk_device
      rw [hL] at hx this ⊢
      exact count_destroyed_main_shutdown _ _ _ this x hx

/-! ## Theorems: a run of `main` that terminates normally -/

set_option maxHeartbeats 2000000 in
theorem main_init_success_run :
    main_init InitEnv.success World.initial =
      ⟨main_init_trace InitEnv.success 1, .ok (MainLocals.sample, World.after_init)⟩ := by
  unfold main_init create_host_buffer
  simp only [bind_run, pure_run, vk_run, call_run, callNew_run, vkNew_run, vkNewArray_run,
    check_run, assert_run, index_run, modifyG_run, setRecreate_run, getWorld_run,
    run_find_memory_type_run, query_present_support_run,
    andThen_ok, andThen_error, andThen_ite, andThen_dite, prepend_mk, prepend_ite,
    prepend_dite, List.nil_append, List.cons_append, List.append_nil, Nat.reduceAdd,
    Nat.reduceLT, ↓reduceIte, ↓reduceDIte, InitEnv.success, World.initial,
    find_memory_type_sample_host, newHandles, List.length_cons, List.length_nil,
    Nat.zero_add, Nat.lt_add_one, List.getElem_cons_zero, Nat.add_zero,
    main_init_trace, main_init_locals, create_host_buffer_trace, find_memory_type_trace,
    List.append_assoc, MainLocals.sample, World.after_init]

theorem render_loop_nil_out (L : MainLocals) (w : World) :
    (render_loop L [] w).out = .ok ((), w) := rfl

theorem render_loop_cons_out (env : FrameEnv) (rest : List FrameEnv) (L : MainLocals)
    (w w1 w2 : World) (hb : (render_loop_body env L w).out = .ok ((), w1))
    (hr : (render_loop L rest w1).out = .ok ((), w2)) :
    (render_loop L (env :: rest) w).out = .ok ((), w2) := by
  unfold render_loop
  rw [bind_ok _ _ w w () rfl, Result.prepend, bind_ok _ _ w w1 () hb, Result.prepend]
  exact hr

theorem main_out (env : MainEnv) (w w0 wc w2 : World) (L : MainLocals)
    (h0 : (main_init env.init w).out = .ok (L, w0))
    (hc : (create_basically_everything env.create L.window L.vk_physical_device
      L.vk_surface L.vk_device L.vk_graphics_queue L.vk_command_pool w0).out =
        .ok ((), wc))
    (hl : (render_loop L env.frames { wc with recreate_everything := false }).out =
      .ok ((), w2)) :
    (main env w).out = .ok ((), w2) := by
  unfold main
  rw [bind_ok _ _ w w0 L h0, Result.prepend, bind_ok _ _ w0 wc () hc, Result.prepend,
    bind_ok _ _ wc { wc with recreate_everything := false } () rfl, Result.prepend,
    bind_ok _ _ _ w2 () hl, Result.prepend, main_shutdown_run]

theorem main_sample_out :
    (main MainEnv.sample World.initial).out =
      .ok ((), { create_world CreateEnv.success World.sample_recreate with
        recreate_everything := false }) := by
  refine main_out MainEnv.sample World.initial World.after_init World.sample _
    MainLocals.sample ?_ ?_ ?_
  · show (main_init InitEnv.success World.initial).out = _
    rw [main_init_success_run]
  · exact create_success_out _ _ _ _ _ _ _
  · refine render_loop_cons_out _ _ _ _ World.sample_recreate _ ?_ ?_
    · rw [render_loop_body_steady _ _ _ rfl rfl]
      rfl
    · refine render_loop_cons_out _ _ _ _ _ _ ?_ (render_loop_nil_out _ _)
      rw [render_loop_body_recreate FrameEnv.success MainLocals.sample
        World.sample_recreate _ _ rfl rfl (create_success_run _ _ _ _ _ _ _)]
      rfl

/-- The theorem `main_objects_once` applies to the run `MainEnv.sample`, whose loop
runs two iterations and recreates everything once. -/
theorem main_objects_once_witness :
    (main MainEnv.sample World.initial).out =
      .ok ((), { create_world CreateEnv.success World.sample_recreate with
        recreate_everything := false }) ∧
    ∃ (L : MainLocals) (w0 w1 w2 : World),
      (main_init MainEnv.sample.init World.initial).out = .ok (L, w0) ∧
      (main MainEnv.sample World.initial).trace =
        ((main_init MainEnv.sample.init World.initial).trace ++
          (create_basically_everything MainEnv.sample.create L.window L.vk_physical_device
            L.vk_surface L.vk_device L.vk_graphics_queue L.vk_command_pool w0).trace) ++
        ((render_loop L MainEnv.sample.frames w1).trace ++ (main_shutdown L w2).trace) ∧
      ∀ x ∈ main_objects L,
        (created ((main_init MainEnv.sample.init World.initial).trace ++
          (create_basically_everything MainEnv.sample.create L.window L.vk_physical_device
            L.vk_surface L.vk_device L.vk_graphics_queue L.vk_command_pool w0).trace)).count
            x = 1 ∧
        x ∉ destroyed ((main_init MainEnv.sample.init World.initial).trace ++
          (create_basically_everything MainEnv.sample.create L.window L.vk_physical_device
            L.vk_surface L.vk_device L.vk_graphics_queue L.vk_command_pool w0).trace) ∧
        x ∉ created (render_loop L MainEnv.sample.frames w1).trace ∧
        x ∉ destroyed (render_loop L MainEnv.sample.frames w1).trace ∧
        x ∉ created (main_shutdown L w2).trace ∧
        (destroyed (main_shutdown L w2).trace).count x = 1 :=
  ⟨main_sample_out, main_objects_once MainEnv.sample World.initial _ main_sample_out⟩

/-! ## Theorems: `lin_math.hpp` -/

theorem m4.ext {α : Type} (a b : m4 α) (h : ∀ i, a.d i = b.d i) : a = b := by
  cases a; cases b
  congr
  funext i
  exact h i

theorem m4.set_d {α : Type} (m : m4 α) (i j : Fin 16) (v : α) :
    (m.set i v).d j = if j = i then v else m.d j := by
  unfold m4.set
  simp only [Function.update_apply]

theorem m4.set_d_self {α : Type} (m : m4 α) (i : Fin 16) (v : α) : (m.set i v).d i = v := by
  rw [m4.set_d, if_pos rfl]

theorem m4.set_set {α : Type} (m : m4 α) (i : Fin 16) (v v2 : α) :
    (m.set i v).set i v2 = m.set i v2 := by
  unfold m4.set
  simp only [Function.update_idem]

theorem m4.at_0_0 : m4.at 0 0 = 0 := rfl

theorem m4.at_0_1 : m4.at 0 1 = 1 := rfl

theorem m4.at_0_2 : m4.at 0 2 = 2 := rfl

theorem m4.at_0_3 : m4.at 0 3 = 3 := rfl

theorem m4.at_1_0 : m4.at 1 0 = 4 := rfl

theorem m4.at_1_1 : m4.at 1 1 = 5 := rfl

theorem m4.at_1_2 : m4.at 1 2 = 6 := rfl

theorem m4.at_1_3 : m4.at 1 3 = 7 := rfl

theorem m4.at_2_0 : m4.at 2 0 = 8 := rfl

theorem m4.at_2_1 : m4.at 2 1 = 9 := rfl

theorem m4.at_2_2 : m4.at 2 2 = 10 := rfl

theorem m4.at_2_3 : m4.at 2 3 = 11 := rfl

theorem m4.at_3_0 : m4.at 3 0 = 12 := rfl

theorem m4.at_3_1 : m4.at 3 1 = 13 := rfl

theorem m4.at_3_2 : m4.at 3 2 = 14 := rfl

theorem m4.at_3_3 : m4.at 3 3 = 15 := rfl

theorem m4.ext_at {α : Type} (a b : m4 α)
    (h : ∀ col row, a.d (m4.at col row) = b.d (m4.at col row)) : a = b := by
  apply m4.ext
  intro i
  fin_cases i
  · exact h 0 0
  · exact h 0 1
  · exact h 0 2
  · exact h 0 3
  · exact h 1 0
  · exact h 1 1
  · exact h 1 2
  · exact h 1 3
  · exact h 2 0
  · exact h 2 1
  · exact h 2 2
  · exact h 2 3
  · exact h 3 0
  · exact h 3 1
  · exact h 3 2
  · exact h 3 3

theorem finRange_four : List.finRange 4 = [0, 1, 2, 3] := rfl

/-- The function `m4_mul` written out: sixteen assignments, one for every element, in
the order of the loops. -/
theorem lin_math_d.m4_mul_unfold {α : Type} [Zero α] [Add α] [Mul α]
    (m a b : m4 α) :
    lin_math_d.m4_mul m a b =
      (List.finRange 4).foldl (fun m col =>
        (List.finRange 4).foldl (fun m row =>
          m.set (m4.at col row)
            (0 + a.d (m4.at 0 row) * b.d (m4.at col 0) +
              a.d (m4.at 1 row) * b.d (m4.at col 1) +
              a.d (m4.at 2 row) * b.d (m4.at col 2) +
              a.d (m4.at 3 row) * b.d (m4.at col 3))) m) m := by
  unfold lin_math_d.m4_mul
  congr 1
  funext m col
  congr 1
  funext m row
  simp only [finRange_four, List.foldl_cons, List.foldl_nil, m4.set_d_self, m4.set_set]

/-- Element `(col, row)` of the product that `m4_mul` returns, whatever the contents
that its `m4 m;` starts from. -/
theorem lin_math_d.m4_mul_d {α : Type} [Zero α] [Add α] [Mul α]
    (m a b : m4 α) (col row : Fin 4) :
    (lin_math_d.m4_mul m a b).d (m4.at col row) =
      0 + a.d (m4.at 0 row) * b.d (m4.at col 0) + a.d (m4.at 1 row) * b.d (m4.at col 1) +
        a.d (m4.at 2 row) * b.d (m4.at col 2) + a.d (m4.at 3 row) * b.d (m4.at col 3) := by
  rw [lin_math_d.m4_mul_unfold]
  simp only [finRange_four, List.foldl_cons, List.foldl_nil, m4.set_d]
  fin_cases col <;> fin_cases row <;>
    simp [m4.at_0_0, m4.at_0_1, m4.at_0_2, m4.at_0_3, m4.at_1_0, m4.at_1_1, m4.at_1_2, m4.at_1_3,
      m4.at_2_0, m4.at_2_1, m4.at_2_2, m4.at_2_3, m4.at_3_0, m4.at_3_1, m4.at_3_2, m4.at_3_3]

theorem lin_math_f_lighting.m4_mul_eq {α : Type} [Zero α] [Add α] [Mul α]
    (m a b : m4 α) :
    lin_math_f_lighting.m4_mul m a b = lin_math_d.m4_mul m a b := rfl

theorem m4_identity_b_d {α : Type} [Zero α] [One α]
    (m : m4 α) :
    (lin_math_b.m4_identity : m4 α) = lin_math_d.m4_identity m := by
  apply m4.ext
  intro i
  simp only [lin_math_b.m4_identity, lin_math_d.m4_identity, m4.set_d, m4.zero]
  fin_cases i <;> simp

theorem m4_identity_d_f {α : Type} [Zero α] [One α]
    (m1 m2 : m4 α) :
    lin_math_d.m4_identity m1 = lin_math_f_lighting.m4_identity m2 := by
  apply m4.ext
  intro i
  simp only [lin_math_d.m4_identity, lin_math_f_lighting.m4_identity, m4.set_d]
  fin_cases i <;> simp

theorem m4_proj_ortho_b_d {α : Type} [Zero α] [One α] [NatCast α] [Add α] [Sub α] [Div α] [Neg α]
    (m1 m2 : m4 α) (left right bottom top near far : α) :
    lin_math_b.m4_proj_ortho m1 left right bottom top near far =
      lin_math_d.m4_proj_ortho m2 left right bottom top near far := by
  apply m4.ext
  intro i
  simp only [lin_math_b.m4_proj_ortho, lin_math_d.m4_proj_ortho, m4.set_d]
  fin_cases i <;> simp

theorem m4_proj_ortho_d_f {α : Type} [Zero α] [One α] [NatCast α] [Add α] [Sub α] [Div α] [Neg α]
    (m1 m2 : m4 α) (left right bottom top near far : α) :
    lin_math_d.m4_proj_ortho m1 left right bottom top near far =
      lin_math_f_lighting.m4_proj_ortho m2 left right bottom top near far := by
  apply m4.ext
  intro i
  simp only [lin_math_d.m4_proj_ortho, lin_math_f_lighting.m4_proj_ortho, m4.set_d]
  fin_cases i <;> simp

theorem m4_translate_d_f {α : Type} [Zero α] [One α]
    (m1 m2 : m4 α) (x y z : α) :
    lin_math_d.m4_translate m1 x y z = lin_math_f_lighting.m4_translate m2 x y z := by
  apply m4.ext
  intro i
  simp only [lin_math_d.m4_translate, lin_math_f_lighting.m4_translate,
    lin_math_d.m4_identity, lin_math_f_lighting.m4_identity, m4.set_d]
  fin_cases i <;> simp

theorem m4_mul_d_f {α : Type} [Zero α] [Add α] [Mul α]
    (m1 m2 a b : m4 α) :
    lin_math_d.m4_mul m1 a b = lin_math_f_lighting.m4_mul m2 a b := by
  apply m4.ext_at
  intro col row
  rw [lin_math_f_lighting.m4_mul_eq, lin_math_d.m4_mul_d, lin_math_d.m4_mul_d]

/-- C11: the matrix helpers of the three copies of `lin_math.hpp` return equal results
for all inputs, when every float operation is read as the same operation in the copies
(an arbitrary carrier with arbitrary operations), whatever the contents that a matrix
declared without initialiser starts from: `m4_identity` and `m4_proj_ortho` of
`src/b`, `src/d` and `src/f-lighting`, and `m4_proj_perspective`, `m4_translate`,
`m4_mul` and `deg_to_rad` of `src/d` and `src/f-lighting`. -/
theorem lin_math_copies_agree {α : Type} [Zero α] [One α] [NatCast α] [Add α] [Sub α]
    [Mul α] [Div α] [Neg α] :
    (∀ m1 m2 : m4 α,
      (lin_math_b.m4_identity : m4 α) = lin_math_d.m4_identity m1 ∧
      lin_math_d.m4_identity m1 = lin_math_f_lighting.m4_identity m2) ∧
    (∀ (m1 m2 m3 : m4 α) (left right bottom top near far : α),
      lin_math_b.m4_proj_ortho m1 left right bottom top near far =
        lin_math_d.m4_proj_ortho m2 left right bottom top near far ∧
      lin_math_d.m4_proj_ortho m2 left right bottom top near far =
        lin_math_f_lighting.m4_proj_ortho m3 left right bottom top near far) ∧
    (∀ (tanf : α → α) (fov aspect znear zfar : α),
      lin_math_d.m4_proj_perspective tanf fov aspect znear zfar =
        lin_math_f_lighting.m4_proj_perspective tanf fov aspect znear zfar) ∧
    (∀ (m1 m2 : m4 α) (x y z : α),
      lin_math_d.m4_translate m1 x y z = lin_math_f_lighting.m4_translate m2 x y z) ∧
    (∀ m1 m2 a b : m4 α, lin_math_d.m4_mul m1 a b = lin_math_f_lighting.m4_mul m2 a b) ∧
    (∀ deg : α, lin_math_d.deg_to_rad deg = lin_math_f_lighting.deg_to_rad deg) :=
  ⟨fun m1 m2 => ⟨m4_identity_b_d m1, m4_identity_d_f m1 m2⟩,
    fun m1 m2 m3 left right bottom top near far =>
      ⟨m4_proj_ortho_b_d m1 m2 left right bottom top near far,
        m4_proj_ortho_d_f m2 m3 left right bottom top near far⟩,
    fun _ _ _ _ _ => rfl,
    m4_translate_d_f,
    m4_mul_d_f,
    fun _ => rfl⟩

/-- The product of `m4_mul` is the matrix product in column-major order: its column
`col` is the first matrix times column `col` of the second. -/
theorem m4_mul_is_mul_vec (m a b : m4 ℝ) (col row : Fin 4) :
    (lin_math_f_lighting.m4_mul m a b).d (m4.at col row) =
      a.mul_vec (b.d (m4.at col 0)) (b.d (m4.at col 1)) (b.d (m4.at col 2))
        (b.d (m4.at col 3)) row := by
  rw [lin_math_f_lighting.m4_mul_eq, lin_math_d.m4_mul_d, m4.mul_vec, zero_add]

/-- C13: over the real numbers, for `right ≠ left`, `top ≠ bottom` and `far ≠ near`, the
matrix that `m4_proj_ortho` returns, multiplied as a column-major matrix by the column
vector `(x, y, z, 1)`, gives
`((2x - right - left)/(right - left), (2y - top - bottom)/(top - bottom),
(-2z - far - near)/(far - near), 1)`; in particular `x = left` goes to `-1`, `x = right`
to `1`, `y = bottom` to `-1`, `y = top` to `1`, `z = -near` to `-1` and `z = -far`
to `1`. -/
theorem m4_proj_ortho_maps_to_cube (m : m4 ℝ) (left right bottom top near far x y z : ℝ)
    (hrl : right ≠ left) (htb : top ≠ bottom) (hfn : far ≠ near) :
    ((lin_math_f_lighting.m4_proj_ortho m left right bottom top near far).mul_vec
        x y z 1 0 = (2 * x - right - left) / (right - left) ∧
      (lin_math_f_lighting.m4_proj_ortho m left right bottom top near far).mul_vec
        x y z 1 1 = (2 * y - top - bottom) / (top - bottom) ∧
      (lin_math_f_lighting.m4_proj_ortho m left right bottom top near far).mul_vec
        x y z 1 2 = (-2 * z - far - near) / (far - near) ∧
      (lin_math_f_lighting.m4_proj_ortho m left right bottom top near far).mul_vec
        x y z 1 3 = 1) ∧
    ((lin_math_f_lighting.m4_proj_ortho m left right bottom top near far).mul_vec
        left y z 1 0 = -1 ∧
      (lin_math_f_lighting.m4_proj_ortho m left right bottom top near far).mul_vec
        right y z 1 0 = 1 ∧
      (lin_math_f_lighting.m4_proj_ortho m left right bottom top near far).mul_vec
        x bottom z 1 1 = -1 ∧
      (lin_math_f_lighting.m4_proj_ortho m left right bottom top near far).mul_vec
        x top z 1 1 = 1 ∧
      (lin_math_f_lighting.m4_proj_ortho m left right bottom top near far).mul_vec
        x y (-near) 1 2 = -1 ∧
      (lin_math_f_lighting.m4_proj_ortho m left right bottom top near far).mul_vec
        x y (-far) 1 2 = 1) := by
  have h1 : right - left ≠ 0 := sub_ne_zero.2 hrl
  have h2 : top - bottom ≠ 0 := sub_ne_zero.2 htb
  have h3 : far - near ≠ 0 := sub_ne_zero.2 hfn
  simp only [m4.mul_vec, lin_math_f_lighting.m4_proj_ortho, m4.set_d,
    m4.at_0_0, m4.at_0_1, m4.at_0_2, m4.at_0_3, m4.at_1_0, m4.at_1_1, m4.at_1_2, m4.at_1_3,
      m4.at_2_0, m4.at_2_1, m4.at_2_2, m4.at_2_3, m4.at_3_0, m4.at_3_1, m4.at_3_2, m4.at_3_3]
  refine ⟨⟨?_, ?_, ?_, ?_⟩, ?_, ?_, ?_, ?_, ?_, ?_⟩ <;> simp <;> field_simp <;> ring

/-- The theorem `m4_proj_ortho_maps_to_cube` applies to the call of `main.cpp`,
`m4_proj_ortho(0, w, 0, h, -1, 1)`, for a window of 1000 by 900: the corner
`(1000, 900)` of the window, at depth 0, goes to `(1, 1, 0, 1)`. -/
theorem m4_proj_ortho_maps_to_cube_witness :
    ((1000 : ℝ) ≠ 0 ∧ (900 : ℝ) ≠ 0 ∧ (1 : ℝ) ≠ -1) ∧
    (lin_math_f_lighting.m4_proj_ortho (m4.zero : m4 ℝ) 0 1000 0 900 (-1) 1).mul_vec
      1000 900 0 1 0 = (2 * 1000 - 1000 - 0) / (1000 - 0) := by
  have h1 : (1000 : ℝ) ≠ 0 := by norm_num
  have h2 : (900 : ℝ) ≠ 0 := by norm_num
  have h3 : (1 : ℝ) ≠ -1 := by norm_num
  have h := m4_proj_ortho_maps_to_cube (m4.zero : m4 ℝ) 0 1000 0 900 (-1) 1 1000 900 0 h1 h2 h3
  exact ⟨⟨h1, h2, h3⟩, h.1.1⟩

/-- C14: over the real numbers, for every `fov` with `tan(fov/2) ≠ 0`, the matrix that
`m4_proj_perspective` returns, multiplied by the column vector `(x, y, z, 1)`, has the y
component `-y / tan(fov/2)` and the x component `x / (aspect * tan(fov/2))`; so for
`aspect > 0` and `tan(fov/2) > 0` the y component has the sign opposite to `y` and the x
component has the sign of `x`. -/
theorem m4_proj_perspective_flips_y (fov aspect znear zfar x y z : ℝ)
    (ht : Real.tan (fov / 2) ≠ 0) :
    (lin_math_f_lighting.m4_proj_perspective Real.tan fov aspect znear zfar).mul_vec
        x y z 1 1 = -y / Real.tan (fov / 2) ∧
      (lin_math_f_lighting.m4_proj_perspective Real.tan fov aspect znear zfar).mul_vec
        x y z 1 0 = x / (aspect * Real.tan (fov / 2)) ∧
      (0 < aspect → 0 < Real.tan (fov / 2) →
        ((lin_math_f_lighting.m4_proj_perspective Real.tan fov aspect znear zfar).mul_vec
            x y z 1 1 < 0 ↔ 0 < y) ∧
        (0 < (lin_math_f_lighting.m4_proj_perspective Real.tan fov aspect znear
            zfar).mul_vec x y z 1 0 ↔ 0 < x)) := by
  have e1 : (lin_math_f_lighting.m4_proj_perspective Real.tan fov aspect znear
      zfar).mul_vec x y z 1 1 = -y / Real.tan (fov / 2) := by
    simp only [m4.mul_vec, lin_math_f_lighting.m4_proj_perspective, m4.set_d, m4.zero,
      m4.at_0_0, m4.at_0_1, m4.at_0_2, m4.at_0_3, m4.at_1_0, m4.at_1_1, m4.at_1_2, m4.at_1_3,
      m4.at_2_0, m4.at_2_1, m4.at_2_2, m4.at_2_3, m4.at_3_0, m4.at_3_1, m4.at_3_2, m4.at_3_3]
    simp
    ring
  have e0 : (lin_math_f_lighting.m4_proj_perspective Real.tan fov aspect znear
      zfar).mul_vec x y z 1 0 = x / (aspect * Real.tan (fov / 2)) := by
    simp only [m4.mul_vec, lin_math_f_lighting.m4_proj_perspective, m4.set_d, m4.zero,
      m4.at_0_0, m4.at_0_1, m4.at_0_2, m4.at_0_3, m4.at_1_0, m4.at_1_1, m4.at_1_2, m4.at_1_3,
      m4.at_2_0, m4.at_2_1, m4.at_2_2, m4.at_2_3, m4.at_3_0, m4.at_3_1, m4.at_3_2, m4.at_3_3]
    simp
    ring
  refine ⟨e1, e0, ?_⟩
  intro ha htan
  rw [e1, e0]
  constructor
  · rw [div_neg_iff]
    constructor
    · rintro (⟨_, h⟩ | ⟨h, _⟩)
      · exact absurd htan (not_lt.2 (le_of_lt h))
      · linarith
    · intro hy
      exact Or.inr ⟨by linarith, htan⟩
  · exact div_pos_iff_of_pos_right (mul_pos ha htan)

/-- The theorem `m4_proj_perspective_flips_y` applies to a field of view of a right
angle, where `tan(fov/2) = 1`. -/
theorem m4_proj_perspective_flips_y_witness :
    Real.tan (Real.pi / 2 / 2) ≠ 0 ∧
    (lin_math_f_lighting.m4_proj_perspective Real.tan (Real.pi / 2) (1 : ℝ) 1 100).mul_vec
      3 5 7 1 1 = -5 / Real.tan (Real.pi / 2 / 2) := by
  have ht : Real.tan (Real.pi / 2 / 2) ≠ 0 := by
    have : Real.pi / 2 / 2 = Real.pi / 4 := by ring
    rw [this, Real.tan_pi_div_four]
    norm_num
  exact ⟨ht, (m4_proj_perspective_flips_y (Real.pi / 2) 1 1 100 3 5 7 ht).1⟩

/-! ## Theorems: the size of the staging buffer -/

theorem wrap_int32_of_fits (x : Int) (h0 : 0 ≤ x) (h1 : x < 2 ^ 31) : wrap_int32 x = x := by
  unfold wrap_int32
  omega

/-- C16, as the code has it: for positive `int` texture dimensions whose product times
four is below `2^31`, so that neither multiplication of `tex_w * tex_h * 4` leaves the
range of `int`, the 64-bit value `image_size` is `4 * tex_w * tex_h`. -/
theorem image_size_four_bytes_per_pixel (tex_w tex_h : Int) (hw : 0 < tex_w)
    (hh : 0 < tex_h) (hfit : 4 * tex_w * tex_h < 2 ^ 31) :
    (image_size tex_w tex_h : Int) = 4 * tex_w * tex_h := by
  have hp : 0 < tex_w * tex_h := Int.mul_pos hw hh
  have h4 : 4 * tex_w * tex_h = tex_w * tex_h * 4 := by ring
  rw [h4] at hfit ⊢
  unfold image_size
  rw [wrap_int32_of_fits (tex_w * tex_h) (le_of_lt hp) (by omega),
    wrap_int32_of_fits (tex_w * tex_h * 4) (by omega) hfit]
  omega

/-- The theorem `image_size_four_bytes_per_pixel` applies to a texture of 4 by 4
pixels: 64 bytes. -/
theorem image_size_four_bytes_per_pixel_witness :
    ((0 : Int) < 4 ∧ (4 : Int) * 4 * 4 < 2 ^ 31) ∧ (image_size 4 4 : Int) = 4 * 4 * 4 :=
  ⟨⟨by decide, by decide⟩,
    image_size_four_bytes_per_pixel 4 4 (by decide) (by decide) (by decide)⟩

/-- C16 as it is written fails: for the positive `int` dimensions 32768 by 32768 the
product `tex_w * tex_h * 4` is `2^32`, which an `int` does not hold; the multiplication
is done in `int` before the conversion to `VkDeviceSize`, and `image_size` is 0. -/
theorem image_size_wraps :
    (0 : Int) < 32768 ∧ (32768 : Int) < 2 ^ 31 ∧ image_size 32768 32768 = 0 ∧
      (image_size 32768 32768 : Int) ≠ 4 * 32768 * 32768 := by
  refine ⟨by decide, by decide, by decide, by decide⟩

/-! ## Theorems: the image views and framebuffers of the swapchain images -/

/-- A call of `create_basically_everything` that returns has found two swapchain
images. -/
theorem create_image_count (env : CreateEnv)
    (window vk_physical_device vk_surface vk_device vk_graphics_queue vk_command_pool :
      Handle) (w w1 : World)
    (h : (create_basically_everything env window vk_physical_device vk_surface vk_device
      vk_graphics_queue vk_command_pool w).out = .ok ((), w1)) :
    env.image_count_written = 2 := by
  unfold create_basically_everything at h
  obtain ⟨_, w0, _, h, _⟩ := bind_ok_inv _ _ _ _ _ h
  obtain ⟨_, wa, ha, _, _⟩ := bind_ok_inv _ _ _ _ _ h
  exact (create_swapchain_part_ok _ _ _ _ _ _ ha).2.2.2

/-- C15: after every call of `create_basically_everything` that returns,
`g_TempVulkan.image_views` and `g_TempVulkan.framebuffers` have exactly 2 elements each,
as many as the swapchain has images; framebuffer `i` was created on image view `i`,
which was created on swapchain image `i`; and for every index below 2 that the acquire
of an iteration returns, the read `g_TempVulkan.framebuffers[next_image_index]` of the
render loop is in bounds and yields framebuffer `next_image_index`. -/
theorem framebuffers_match_swapchain_images (env : CreateEnv)
    (window vk_physical_device vk_surface vk_device vk_graphics_queue vk_command_pool :
      Handle) (w w1 : World)
    (h : (create_basically_everything env window vk_physical_device vk_surface vk_device
      vk_graphics_queue vk_command_pool w).out = .ok ((), w1)) :
    env.image_count_written = 2 ∧
    w1.g_TempVulkan.image_views.length = 2 ∧
    w1.g_TempVulkan.framebuffers.length = 2 ∧
    (∃ images : List Handle, images.length = 2 ∧
      (⟨.vkGetSwapchainImagesKHR, [vk_device, w1.g_TempVulkan.swapchain], images, [2],
        some VK_SUCCESS⟩ : Event) ∈
        (create_basically_everything env window vk_physical_device vk_surface vk_device
          vk_graphics_queue vk_command_pool w).trace ∧
      ∀ i, i < 2 →
        (⟨.vkCreateImageView, [vk_device, images.getD i VK_NULL_HANDLE],
          [w1.g_TempVulkan.image_views.getD i VK_NULL_HANDLE], [],
          some VK_SUCCESS⟩ : Event) ∈
          (create_basically_everything env window vk_physical_device vk_surface
            vk_device vk_graphics_queue vk_command_pool w).trace ∧
        (⟨.vkCreateFramebuffer,
          [vk_device, w1.g_TempVulkan.render_pass,
            w1.g_TempVulkan.image_views.getD i VK_NULL_HANDLE],
          [w1.g_TempVulkan.framebuffers.getD i VK_NULL_HANDLE], [],
          some VK_SUCCESS⟩ : Event) ∈
          (create_basically_everything env window vk_physical_device vk_surface
            vk_device vk_graphics_queue vk_command_pool w).trace) ∧
    (∀ (fenv : FrameEnv) (L : MainLocals) (w2 : World),
      w2.g_TempVulkan = w1.g_TempVulkan → fenv.next_image_index < 2 →
      (index w2.g_TempVulkan.framebuffers fenv.next_image_index w2).out =
        .ok (w1.g_TempVulkan.framebuffers.getD fenv.next_image_index VK_NULL_HANDLE,
          w2) ∧
      (acquire_record_submit_present fenv L w2).out ≠ .error .out_of_bounds) := by
  have hcount := create_image_count env window vk_physical_device vk_surface vk_device
    vk_graphics_queue vk_command_pool w w1 h
  obtain ⟨ht, hw1⟩ := create_basically_everything_ok env window vk_physical_device
    vk_surface vk_device vk_graphics_queue vk_command_pool w w1 h
  have hviews : w1.g_TempVulkan.image_views =
      [⟨.image_views, 0, w.next + 3⟩, ⟨.image_views, 1, w.next + 4⟩] := by
    rw [hw1]; rfl
  have hfbs : w1.g_TempVulkan.framebuffers =
      [⟨.framebuffers, 0, w.next + 6⟩, ⟨.framebuffers, 1, w.next + 7⟩] := by
    rw [hw1]; rfl
  have hsc : w1.g_TempVulkan.swapchain = ⟨.swapchain, 0, w.next⟩ := by
    rw [hw1]; rfl
  have hrp : w1.g_TempVulkan.render_pass = ⟨.render_pass, 0, w.next + 5⟩ := by
    rw [hw1]; rfl
  have hsub : ∀ e ∈ create_swapchain_part_trace env vk_physical_device vk_surface
      vk_device w.next,
      e ∈ (create_basically_everything env window vk_physical_device vk_surface vk_device
        vk_graphics_queue vk_command_pool w).trace := by
    intro e he
    rw [ht]
    unfold create_trace
    refine List.mem_cons_of_mem _ ?_
    simp only [List.mem_append]
    exact Or.inl (Or.inl (Or.inl (Or.inl he)))
  refine ⟨hcount, by rw [hviews]; rfl, by rw [hfbs]; rfl, ?_, ?_⟩
  · refine ⟨[⟨.vk_swapchain_images, 0, w.next + 1⟩, ⟨.vk_swapchain_images, 1, w.next + 2⟩],
      rfl, ?_, ?_⟩
    · apply hsub
      rw [hsc]
      simp only [create_swapchain_part_trace, List.mem_cons, true_or, or_true]
    · intro i hi
      rw [hviews, hfbs, hrp]
      have hi2 : i = 0 ∨ i = 1 := by omega
      rcases hi2 with rfl | rfl
      · constructor <;> apply hsub <;>
          simp only [create_swapchain_part_trace, List.getD_cons_zero, List.mem_cons,
            true_or, or_true]
      · constructor <;> apply hsub <;>
          simp only [create_swapchain_part_trace, List.getD_cons_zero,
            List.getD_cons_succ, List.mem_cons, true_or, or_true]
  · intro fenv L w2 hg hidx
    have hlen : fenv.next_image_index < w2.g_TempVulkan.framebuffers.length := by
      rw [hg, hfbs]; exact hidx
    constructor
    · rw [index_run, dif_pos hlen]
      simp only [hg, List.getD_eq_getElem?_getD, List.getElem?_eq_getElem (hg ▸ hlen),
        Option.getD_some]
    · rw [acquire_record_submit_present_run]
      refine frame_result_cases fenv L w2 (fun r => r.out ≠ .error .out_of_bounds)
        ?_ ?_ ?_ ?_ ?_ ?_ ?_ ?_ ?_ ?_
      · intro _ hc; cases hc
      · intro _ _ hc; cases hc
      · intro _ _ hc; cases hc
      · intro _ hb _; exact hb hlen
      · intro _ _ hc; cases hc
      · intro _ _ hc; cases hc
      · intro _ _ hc; cases hc
      · intro _ _ _ hc; cases hc
      · intro _ _ _ hc; cases hc
      · intro _ _ hc; cases hc

/-- The theorem `framebuffers_match_swapchain_images` applies to the first call of
`create_basically_everything` in the run in which every call succeeds. -/
theorem framebuffers_match_swapchain_images_witness :
    (create_basically_everything CreateEnv.success MainLocals.sample.window
      MainLocals.sample.vk_physical_device MainLocals.sample.vk_surface
      MainLocals.sample.vk_device MainLocals.sample.vk_graphics_queue
      MainLocals.sample.vk_command_pool World.after_init).out = .ok ((), World.sample) ∧
    World.sample.g_TempVulkan.image_views.length = 2 ∧
    World.sample.g_TempVulkan.framebuffers.length = 2 :=
  ⟨create_success_out _ _ _ _ _ _ _,
    (framebuffers_match_swapchain_images CreateEnv.success MainLocals.sample.window
      MainLocals.sample.vk_physical_device MainLocals.sample.vk_surface
      MainLocals.sample.vk_device MainLocals.sample.vk_graphics_queue
      MainLocals.sample.vk_command_pool World.after_init World.sample
      (create_success_out _ _ _ _ _ _ _)).2.1,
    (framebuffers_match_swapchain_images CreateEnv.success MainLocals.sample.window
      MainLocals.sample.vk_physical_device MainLocals.sample.vk_surface
      MainLocals.sample.vk_device MainLocals.sample.vk_graphics_queue
      MainLocals.sample.vk_command_pool World.after_init World.sample
      (create_success_out _ _ _ _ _ _ _)).2.2.1⟩

/-! ## Theorems: the texture upload, the descriptors, the vertex input -/

/-- C17: in a call of `create_basically_everything` that returns, the commands of the
texture upload that name an image layout are recorded in this order, on one command
buffer and one image: the barrier from `UNDEFINED` to `TRANSFER_DST_OPTIMAL`, the copy
with the layout `TRANSFER_DST_OPTIMAL`, the barrier from `TRANSFER_DST_OPTIMAL` to
`SHADER_READ_ONLY_OPTIMAL`; so the new layout of the first barrier is the layout named
in the copy and the old layout of the second barrier, and the final layout is the
`imageLayout` written into the descriptor for binding 1. -/
theorem texture_layout_transitions (env : CreateEnv)
    (window vk_physical_device vk_surface vk_device vk_graphics_queue vk_command_pool :
      Handle) (w w1 : World)
    (h : (create_basically_everything env window vk_physical_device vk_surface vk_device
      vk_graphics_queue vk_command_pool w).out = .ok ((), w1)) :
    (∃ command_buffer staging : Handle,
      (create_basically_everything env window vk_physical_device vk_surface vk_device
        vk_graphics_queue vk_command_pool w).trace.filter
          (fun e => e.fn == .vkCmdPipelineBarrier || e.fn == .vkCmdCopyBufferToImage) =
        [ ⟨.vkCmdPipelineBarrier, [command_buffer, w1.g_TempVulkan.texture_image], [],
            [VK_IMAGE_LAYOUT_UNDEFINED, VK_IMAGE_LAYOUT_TRANSFER_DST_OPTIMAL], none⟩,
          ⟨.vkCmdCopyBufferToImage,
            [command_buffer, staging, w1.g_TempVulkan.texture_image], [],
            [VK_IMAGE_LAYOUT_TRANSFER_DST_OPTIMAL], none⟩,
          ⟨.vkCmdPipelineBarrier, [command_buffer, w1.g_TempVulkan.texture_image], [],
            [VK_IMAGE_LAYOUT_TRANSFER_DST_OPTIMAL,
              VK_IMAGE_LAYOUT_SHADER_READ_ONLY_OPTIMAL], none⟩ ]) ∧
    ((create_basically_everything env window vk_physical_device vk_surface vk_device
        vk_graphics_queue vk_command_pool w).trace.filter
          (fun e => e.fn == .vkUpdateDescriptorSets)).map (fun e => e.data) =
      [ [0, VK_DESCRIPTOR_TYPE_UNIFORM_BUFFER, 1],
        [1, VK_DESCRIPTOR_TYPE_COMBINED_IMAGE_SAMPLER, 1,
          VK_IMAGE_LAYOUT_SHADER_READ_ONLY_OPTIMAL] ] ∧
    texture_image_memory_barrier1.newLayout = VK_IMAGE_LAYOUT_TRANSFER_DST_OPTIMAL ∧
    texture_image_memory_barrier2.oldLayout = texture_image_memory_barrier1.newLayout ∧
    texture_sampler_write_descriptor_set.imageLayout =
      some texture_image_memory_barrier2.newLayout := by
  obtain ⟨ht, hw1⟩ := create_basically_everything_ok env window vk_physical_device
    vk_surface vk_device vk_graphics_queue vk_command_pool w w1 h
  rw [ht, hw1]
  refine ⟨⟨⟨.vk_texture_command_buffer, 0, w.next + 14⟩,
    ⟨.vk_texture_staging_buffer, 0, w.next + 10⟩, ?_⟩, ?_, rfl, rfl, rfl⟩
  · simp [create_trace, create_swapchain_part_trace, create_uniform_buffer_part_trace,
      create_texture_part_trace, create_descriptor_part_trace, create_pipeline_part_trace,
      create_shader_module_trace, find_memory_type_trace, create_world,
      create_swapchain_part_world, create_uniform_buffer_part_world,
      create_texture_part_world, create_descriptor_part_world, create_pipeline_part_world,
      List.filter_cons, texture_image_memory_barrier1, texture_image_memory_barrier2,
      Nat.add_assoc]
  · simp [create_trace, create_swapchain_part_trace, create_uniform_buffer_part_trace,
      create_texture_part_trace, create_descriptor_part_trace, create_pipeline_part_trace,
      create_shader_module_trace, find_memory_type_trace, List.filter_cons,
      VkWriteDescriptorSet.data, uniform_buffer_write_descriptor_set,
      texture_sampler_write_descriptor_set]

/-- The theorem `texture_layout_transitions` applies to the first call of
`create_basically_everything` in the run in which every call succeeds. -/
theorem texture_layout_transitions_witness :
    (create_basically_everything CreateEnv.success MainLocals.sample.window
      MainLocals.sample.vk_physical_device MainLocals.sample.vk_surface
      MainLocals.sample.vk_device MainLocals.sample.vk_graphics_queue
      MainLocals.sample.vk_command_pool World.after_init).out = .ok ((), World.sample) ∧
    ((create_basically_everything CreateEnv.success MainLocals.sample.window
        MainLocals.sample.vk_physical_device MainLocals.sample.vk_surface
        MainLocals.sample.vk_device MainLocals.sample.vk_graphics_queue
        MainLocals.sample.vk_command_pool World.after_init).trace.filter
          (fun e => e.fn == .vkUpdateDescriptorSets)).map (fun e => e.data) =
      [ [0, VK_DESCRIPTOR_TYPE_UNIFORM_BUFFER, 1],
        [1, VK_DESCRIPTOR_TYPE_COMBINED_IMAGE_SAMPLER, 1,
          VK_IMAGE_LAYOUT_SHADER_READ_ONLY_OPTIMAL] ] :=
  ⟨create_success_out _ _ _ _ _ _ _,
    (texture_layout_transitions CreateEnv.success MainLocals.sample.window
      MainLocals.sample.vk_physical_device MainLocals.sample.vk_surface
      MainLocals.sample.vk_device MainLocals.sample.vk_graphics_queue
      MainLocals.sample.vk_command_pool World.after_init World.sample
      (create_success_out _ _ _ _ _ _ _)).2.1⟩

/-- C19: the vertex input state matches `struct Vertex`: with 4-byte floats and no
padding the stride of the binding is 28 bytes; the three attributes are at the offsets
0, 8 and 16 and have formats of 8, 8 and 12 bytes; the bytes they read, taken one
attribute after the other, are exactly the bytes 0 to 27 of a vertex, each once, so
the attributes do not overlap, lie within the stride and cover a whole `Vertex`; and
they are the members `x, y`, then `u, v`, then `r, g, b`. -/
theorem vertex_input_matches_Vertex :
    vertex_input_binding_description.stride = 28 ∧
    vertex_input_attribute_descriptions.map (fun a => a.offset) = [0, 8, 16] ∧
    vertex_input_attribute_descriptions.map (fun a => format_size a.format) = [8, 8, 12] ∧
    (vertex_input_attribute_descriptions.map
      VkVertexInputAttributeDescription.bytes).flatten =
        List.range vertex_input_binding_description.stride ∧
    (∀ a ∈ vertex_input_attribute_descriptions,
      a.offset + format_size a.format ≤ vertex_input_binding_description.stride ∧
      a.binding = vertex_input_binding_description.binding) ∧
    (vertex_input_attribute_descriptions.map
      VkVertexInputAttributeDescription.bytes).Pairwise List.Disjoint ∧
    vertex_input_attribute_descriptions.map (fun a => (a.offset, a.offset +
        format_size a.format)) =
      [ (Vertex.offsetof "x", Vertex.offsetof "u"),
        (Vertex.offsetof "u", Vertex.offsetof "r"),
        (Vertex.offsetof "r", Vertex.sizeof) ] := by
  refine ⟨by decide, by decide, by decide, by decide, by decide, ?_, by decide⟩
  simp only [vertex_input_attribute_descriptions, List.map_cons, List.map_nil,
    List.pairwise_cons, List.mem_cons, List.mem_singleton, List.not_mem_nil,
    forall_eq_or_imp, forall_eq, List.Pairwise.nil, and_true, IsEmpty.forall_iff,
    implies_true]
  refine ⟨⟨?_, ?_⟩, ?_⟩ <;> (intro b hb1 hb2; revert hb2; revert hb1; revert b; decide)

/-- C20: the descriptor configuration is consistent with itself: the layout has exactly
the bindings 0 (uniform buffer, count 1) and 1 (combined image sampler, count 1); for
every descriptor type the pool holds at least as many descriptors as one set of the
layout has of it, times the one set that is allocated, and `maxSets` is at least the
number of sets allocated, which is 1; and in a call of `create_basically_everything`
that returns, the two calls of `vkUpdateDescriptorSets` write to the set that
`vkAllocateDescriptorSets` handed out, at the bindings 0 and 1, with the descriptor
types that the layout has for these bindings. -/
theorem descriptor_configuration_consistent (env : CreateEnv)
    (window vk_physical_device vk_surface vk_device vk_graphics_queue vk_command_pool :
      Handle) (w w1 : World)
    (h : (create_basically_everything env window vk_physical_device vk_surface vk_device
      vk_graphics_queue vk_command_pool w).out = .ok ((), w1)) :
    descriptor_set_layout_bindings.map
        (fun b => (b.binding, b.descriptorType, b.descriptorCount)) =
      [(0, VK_DESCRIPTOR_TYPE_UNIFORM_BUFFER, 1),
        (1, VK_DESCRIPTOR_TYPE_COMBINED_IMAGE_SAMPLER, 1)] ∧
    (∀ type : Nat,
      layout_descriptor_count type * descriptor_set_allocate_descriptorSetCount ≤
        pool_descriptor_count type) ∧
    descriptor_set_allocate_descriptorSetCount = 1 ∧
    descriptor_set_allocate_descriptorSetCount ≤ descriptor_pool_maxSets ∧
    (∃ pool layout uniform_buffer view sampler : Handle,
      (create_basically_everything env window vk_physical_device vk_surface vk_device
        vk_graphics_queue vk_command_pool w).trace.filter
          (fun e => e.fn == .vkAllocateDescriptorSets ||
            e.fn == .vkUpdateDescriptorSets) =
        [ ⟨.vkAllocateDescriptorSets, [vk_device, pool, layout],
            [w1.g_TempVulkan.descriptor_set], [], some VK_SUCCESS⟩,
          ⟨.vkUpdateDescriptorSets,
            [vk_device, w1.g_TempVulkan.descriptor_set, uniform_buffer], [],
            uniform_buffer_write_descriptor_set.data, none⟩,
          ⟨.vkUpdateDescriptorSets,
            [vk_device, w1.g_TempVulkan.descriptor_set, view, sampler], [],
            texture_sampler_write_descriptor_set.data, none⟩ ]) ∧
    [uniform_buffer_write_descriptor_set, texture_sampler_write_descriptor_set].map
        (fun x => x.dstBinding) = [0, 1] ∧
    (∀ x ∈ [uniform_buffer_write_descriptor_set, texture_sampler_write_descriptor_set],
      (layout_binding x.dstBinding).map (fun b => b.descriptorType) =
        some x.descriptorType ∧
      (layout_binding x.dstBinding).map (fun b => b.descriptorCount) =
        some x.descriptorCount) := by
  obtain ⟨ht, hw1⟩ := create_basically_everything_ok env window vk_physical_device
    vk_surface vk_device vk_graphics_queue vk_command_pool w w1 h
  rw [ht, hw1]
  refine ⟨by decide, ?_, rfl, by decide, ?_, by decide, by decide⟩
  · intro type
    by_cases h6 : type = VK_DESCRIPTOR_TYPE_UNIFORM_BUFFER
    · subst h6; decide
    · by_cases h1 : type = VK_DESCRIPTOR_TYPE_COMBINED_IMAGE_SAMPLER
      · subst h1; decide
      · have e1 : layout_descriptor_count type = 0 := by
          simp only [VK_DESCRIPTOR_TYPE_UNIFORM_BUFFER,
            VK_DESCRIPTOR_TYPE_COMBINED_IMAGE_SAMPLER] at h6 h1
          simp [layout_descriptor_count, descriptor_set_layout_bindings,
            uniform_buffer_descriptor_set_layout_binding,
            texture_sampler_descriptor_set_layout_binding, List.filter_cons,
            VK_DESCRIPTOR_TYPE_UNIFORM_BUFFER, VK_DESCRIPTOR_TYPE_COMBINED_IMAGE_SAMPLER,
            Ne.symm h6, Ne.symm h1]
        rw [e1, Nat.zero_mul]
        exact Nat.zero_le _
  · refine ⟨⟨.descriptor_pool, 0, w.next + 18⟩, ⟨.descriptor_set_layout, 0, w.next + 17⟩,
      ⟨.uniform_buffer, 0, w.next + 8⟩, ⟨.texture_image_view, 0, w.next + 15⟩,
      ⟨.texture_sampler, 0, w.next + 16⟩, ?_⟩
    simp [create_trace, create_swapchain_part_trace, create_uniform_buffer_part_trace,
      create_texture_part_trace, create_descriptor_part_trace, create_pipeline_part_trace,
      create_shader_module_trace, find_memory_type_trace, create_world,
      create_swapchain_part_world, create_uniform_buffer_part_world,
      create_texture_part_world, create_descriptor_part_world, create_pipeline_part_world,
      List.filter_cons, Nat.add_assoc]

/-- The theorem `descriptor_configuration_consistent` applies to the first call of
`create_basically_everything` in the run in which every call succeeds. -/
theorem descriptor_configuration_consistent_witness :
    (create_basically_everything CreateEnv.success MainLocals.sample.window
      MainLocals.sample.vk_physical_device MainLocals.sample.vk_surface
      MainLocals.sample.vk_device MainLocals.sample.vk_graphics_queue
      MainLocals.sample.vk_command_pool World.after_init).out = .ok ((), World.sample) ∧
    descriptor_set_layout_bindings.map
        (fun b => (b.binding, b.descriptorType, b.descriptorCount)) =
      [(0, VK_DESCRIPTOR_TYPE_UNIFORM_BUFFER, 1),
        (1, VK_DESCRIPTOR_TYPE_COMBINED_IMAGE_SAMPLER, 1)] :=
  ⟨create_success_out _ _ _ _ _ _ _,
    (descriptor_configuration_consistent CreateEnv.success MainLocals.sample.window
      MainLocals.sample.vk_physical_device MainLocals.sample.vk_surface
      MainLocals.sample.vk_device MainLocals.sample.vk_graphics_queue
      MainLocals.sample.vk_command_pool World.after_init World.sample
      (create_success_out _ _ _ _ _ _ _)).1⟩

/-! ## Theorems: the semaphores of an iteration -/

/-- C18: in an iteration of the render loop, after its `vkAcquireNextImageKHR` come
calls of `frame_trace`, in their order; a `vkQueueSubmit` among them waits on the
semaphore that was passed to that acquire, `image_available_semaphore`, at the stage
`VK_PIPELINE_STAGE_COLOR_ATTACHMENT_OUTPUT_BIT`, submits the main command buffer and
signals `render_finished_semaphore`; a `vkQueuePresentKHR` among them comes after the
submit, waits on `render_finished_semaphore` and presents, on the swapchain that was
passed to the acquire, the image index that the acquire returned. -/
theorem submit_and_present_use_acquired (env : FrameEnv) (L : MainLocals) (w : World)
    (pre post : List Event) (e : Event)
    (ht : (render_loop_body env L w).trace = pre ++ e :: post)
    (hfn : e.fn = .vkAcquireNextImageKHR) :
    ∃ g : VulkanBasicallyEverything,
      e.args = [L.vk_device, g.swapchain, g.image_available_semaphore] ∧
      e.data = [env.next_image_index] ∧
      post <+: (frame_trace env L g).drop 1 ∧
      (∀ s ∈ post, s.fn = .vkQueueSubmit →
        s.args = [L.vk_graphics_queue, g.image_available_semaphore, L.vk_command_buffer,
          g.render_finished_semaphore] ∧
        s.data = [VK_PIPELINE_STAGE_COLOR_ATTACHMENT_OUTPUT_BIT]) ∧
      (∀ (post1 post2 : List Event) (p : Event), post = post1 ++ p :: post2 →
        p.fn = .vkQueuePresentKHR →
        p.args = [L.vk_graphics_queue, g.render_finished_semaphore, g.swapchain] ∧
        p.data = [env.next_image_index] ∧
        ∃ s ∈ post1, s.fn = .vkQueueSubmit) := by
  obtain ⟨w1, _, _, he, hpost, _⟩ := cut_at_acquire env L w pre post e ht hfn
  obtain ⟨k, hk, _⟩ := frame_result_trace env L w1
  rw [hk] at hpost
  injection hpost with _ hpost
  have hpre : post <+: (frame_trace env L w1.g_TempVulkan).drop 1 := by
    rw [← hpost]
    exact List.take_prefix _ _
  refine ⟨w1.g_TempVulkan, by rw [he]; rfl, by rw [he]; rfl, hpre, ?_, ?_⟩
  · intro s hs hsf
    have hmem := hpre.subset hs
    simp only [frame_trace, List.drop_succ_cons, List.drop_zero, List.mem_cons,
      List.mem_singleton, List.not_mem_nil, or_false] at hmem
    rcases hmem with rfl | rfl | rfl | rfl | rfl | rfl | rfl | rfl | rfl | rfl | rfl | rfl |
      rfl <;> first | exact ⟨rfl, rfl⟩ | cases hsf
  · intro post1 post2 p hsplit hpf
    obtain ⟨rest, hrest⟩ := hpre
    rw [hsplit] at hrest
    have hshape : (frame_trace env L w1.g_TempVulkan).drop 1 =
        ((frame_trace env L w1.g_TempVulkan).drop 1).take 11 ++
          ⟨.vkQueuePresentKHR, [L.vk_graphics_queue,
            w1.g_TempVulkan.render_finished_semaphore, w1.g_TempVulkan.swapchain], [],
            [env.next_image_index], some env.vkQueuePresentKHR⟩ ::
          [⟨.vkQueueWaitIdle, [L.vk_graphics_queue], [], [],
            some env.vkQueueWaitIdle⟩] := by
      simp only [frame_trace, List.drop_succ_cons, List.drop_zero, List.take_succ_cons,
        List.take_zero, List.cons_append, List.nil_append]
    rw [hshape, List.append_assoc, List.cons_append] at hrest
    have hA : ∀ x ∈ ((frame_trace env L w1.g_TempVulkan).drop 1).take 11,
        ¬ x.fn = .vkQueuePresentKHR := by
      intro x hx
      simp only [frame_trace, List.drop_succ_cons, List.drop_zero, List.take_succ_cons,
        List.take_zero, List.mem_cons, List.mem_singleton, List.not_mem_nil,
        or_false] at hx
      rcases hx with rfl | rfl | rfl | rfl | rfl | rfl | rfl | rfl | rfl | rfl | rfl <;>
        simp only [reduceCtorEq, not_false_eq_true]
    have hB : ∀ x ∈ [(⟨.vkQueueWaitIdle, [L.vk_graphics_queue], [], [],
        some env.vkQueueWaitIdle⟩ : Event)], ¬ x.fn = .vkQueuePresentKHR := by
      intro x hx
      rw [List.mem_singleton] at hx
      subst hx
      simp only [reduceCtorEq, not_false_eq_true]
    obtain ⟨h1, h2, _⟩ := split_at_unique (fun x => x.fn = .vkQueuePresentKHR)
      post1 (post2 ++ rest) _ _ p _ hA hB hpf rfl hrest
    refine ⟨by rw [h2], by rw [h2], ⟨.vkQueueSubmit,
      [L.vk_graphics_queue, w1.g_TempVulkan.image_available_semaphore, L.vk_command_buffer,
        w1.g_TempVulkan.render_finished_semaphore], [],
      [VK_PIPELINE_STAGE_COLOR_ATTACHMENT_OUTPUT_BIT], some env.vkQueueSubmit⟩, ?_, rfl⟩
    rw [h1]
    simp only [frame_trace, List.drop_succ_cons, List.drop_zero, List.take_succ_cons,
      List.take_zero, List.mem_cons, List.mem_singleton, true_or, or_true]

/-- The theorem `submit_and_present_use_acquired` applies to the iteration in which
every call succeeds. -/
theorem submit_and_present_use_acquired_witness :
    (render_loop_body FrameEnv.success MainLocals.sample World.sample).trace =
      (⟨.glfwPollEvents, [], [], [], none⟩ ::
        reupload_trace FrameEnv.success MainLocals.sample) ++
      acquire_event FrameEnv.success MainLocals.sample World.sample.g_TempVulkan ::
        (frame_trace FrameEnv.success MainLocals.sample World.sample.g_TempVulkan).drop 1 ∧
    ∃ g : VulkanBasicallyEverything,
      (acquire_event FrameEnv.success MainLocals.sample World.sample.g_TempVulkan).args =
        [MainLocals.sample.vk_device, g.swapchain, g.image_available_semaphore] ∧
      (acquire_event FrameEnv.success MainLocals.sample World.sample.g_TempVulkan).data =
        [FrameEnv.success.next_image_index] ∧
      (frame_trace FrameEnv.success MainLocals.sample World.sample.g_TempVulkan).drop 1 <+:
        (frame_trace FrameEnv.success MainLocals.sample g).drop 1 ∧
      (∀ s ∈ (frame_trace FrameEnv.success MainLocals.sample
          World.sample.g_TempVulkan).drop 1, s.fn = .vkQueueSubmit →
        s.args = [MainLocals.sample.vk_graphics_queue, g.image_available_semaphore,
          MainLocals.sample.vk_command_buffer, g.render_finished_semaphore] ∧
        s.data = [VK_PIPELINE_STAGE_COLOR_ATTACHMENT_OUTPUT_BIT]) ∧
      (∀ (post1 post2 : List Event) (p : Event),
        (frame_trace FrameEnv.success MainLocals.sample World.sample.g_TempVulkan).drop 1 =
          post1 ++ p :: post2 →
        p.fn = .vkQueuePresentKHR →
        p.args = [MainLocals.sample.vk_graphics_queue, g.render_finished_semaphore,
          g.swapchain] ∧
        p.data = [FrameEnv.success.next_image_index] ∧
        ∃ s ∈ post1, s.fn = .vkQueueSubmit) := by
  have ht : (render_loop_body FrameEnv.success MainLocals.sample World.sample).trace =
      (⟨.glfwPollEvents, [], [], [], none⟩ ::
        reupload_trace FrameEnv.success MainLocals.sample) ++
      acquire_event FrameEnv.success MainLocals.sample World.sample.g_TempVulkan ::
        (frame_trace FrameEnv.success MainLocals.sample
          World.sample.g_TempVulkan).drop 1 := by
    rw [render_loop_body_steady _ _ _ rfl rfl, frame_result_success]
    rfl
  exact ⟨ht, submit_and_present_use_acquired _ _ _ _ _ _ ht rfl⟩

/-! ## Theorems: the order of the steps of `create_basically_everything` -/

theorem allFn_query_present_support {Q : Fn → Prop} (env : InitEnv) (pd surf : Handle)
    (fuel i : Nat) (h : Q .vkGetPhysicalDeviceSurfaceSupportKHR) :
    AllFn Q (query_present_support env pd surf fuel i) := by
  induction fuel generalizing i with
  | zero => exact allFn_pure _
  | succ fuel ih =>
    unfold query_present_support
    exact allFn_bind (allFn_vk h) (fun _ => ih _)

theorem allFn_main_init (env : InitEnv) :
    AllFn (fun fn => (fn == .create_basically_everything) = false) (main_init env) := by
  unfold main_init create_host_buffer
  repeat (first
    | exact allFn_check
    | exact allFn_index
    | exact allFn_pure _
    | exact allFn_vk rfl
    | exact allFn_call rfl
    | exact allFn_vkNew rfl
    | exact allFn_vkNewArray rfl
    | exact allFn_run_find_memory_type rfl rfl
    | exact allFn_query_present_support _ _ _ _ _ rfl
    | (intro w e he; rw [callNew_run] at he; simp only [List.mem_singleton] at he
       subst he; rfl)
    | with_reducible refine allFn_bind_pair ?_ (fun _ _ => ?_)
    | with_reducible refine allFn_bind ?_ (fun _ => ?_))

theorem front_of_cut {α : Type} (q : α → Prop) (pre post A B : List α) (e : α)
    (hA : ∀ x ∈ A, ¬ q x) (he : q e) (h : pre ++ e :: post = A ++ B) :
    ∃ mid, pre = A ++ mid := by
  rcases List.append_eq_append_iff.1 h with ⟨a2, h1, h2⟩ | ⟨c2, h1, _⟩
  · cases a2 with
    | nil => exact ⟨[], by rw [h1, List.append_nil, List.append_nil]⟩
    | cons x rest =>
      exfalso
      simp only [List.cons_append] at h2
      injection h2 with h3 _
      apply hA e _ he
      rw [h1, h3]
      exact List.mem_append_right _ (List.mem_cons_self _ _)
  · exact ⟨c2, h1⟩

/-- The calls of `main` when its initialisation returns: those of `main_init`, then
those of the rest. -/
theorem main_trace_of_init (env : MainEnv) (w w0 : World) (L : MainLocals)
    (h0 : (main_init env.init w).out = .ok (L, w0)) :
    ∃ rest, (main env w).trace =
      (main_init env.init w).trace ++
        (⟨.create_basically_everything,
          [L.window, L.vk_physical_device, L.vk_surface, L.vk_device, L.vk_graphics_queue,
            L.vk_command_pool], [], [], none⟩ :: rest) := by
  unfold main
  rw [bind_ok _ _ w w0 L h0]
  simp only [Result.prepend]
  unfold create_basically_everything
  rw [bind_run, bind_run, call_run, andThen_ok, Result.prepend]
  unfold Result.andThen
  split
  · exact ⟨_, rfl⟩
  · exact ⟨_, rfl⟩

/-- C12: every call of `create_basically_everything` that returns has issued its calls
in the order of the steps of its header comment (the list is cut at the steps); and
every call of `create_basically_everything` in a run of `main` comes after the calls
that created the vertex buffer, the index buffer, the command pool and the command
buffer. -/
theorem create_steps_in_order :
    (∀ (env : CreateEnv)
      (window vk_physical_device vk_surface vk_device vk_graphics_queue vk_command_pool :
        Handle) (w w1 : World),
      (create_basically_everything env window vk_physical_device vk_surface vk_device
        vk_graphics_queue vk_command_pool w).out = .ok ((), w1) →
      (create_basically_everything env window vk_physical_device vk_surface vk_device
        vk_graphics_queue vk_command_pool w).trace.map Event.fn =
        [.create_basically_everything] ++
        -- 1. Query physical device-surface capabilities and formats
        [.vkGetPhysicalDeviceSurfaceCapabilitiesKHR, .vkGetPhysicalDeviceSurfaceFormatsKHR,
          .vkGetPhysicalDeviceSurfaceFormatsKHR] ++
        -- 2. Create swapchain
        [.vkCreateSwapchainKHR] ++
        -- 3. Get swapchain images
        [.vkGetSwapchainImagesKHR, .vkGetSwapchainImagesKHR] ++
        -- 4. Create image views for swapchain images
        [.vkCreateImageView, .vkCreateImageView] ++
        -- (the render pass, which the header does not list)
        [.vkCreateRenderPass] ++
        -- 5. Create framebuffers with image view attachments
        [.vkCreateFramebuffer, .vkCreateFramebuffer] ++
        -- 6. Create uniform buffer for MVP, and fill it
        [.glfwGetWindowSize, .vkCreateBuffer, .vkGetBufferMemoryRequirements,
          .find_memory_type, .vkGetPhysicalDeviceMemoryProperties, .vkAllocateMemory,
          .vkBindBufferMemory, .vkMapMemory, .memcpy, .vkUnmapMemory] ++
        -- 7a. Upload texture to staging buffer
        [.stbi_set_flip_vertically_on_load, .stbi_load, .vkCreateBuffer,
          .vkGetBufferMemoryRequirements, .find_memory_type,
          .vkGetPhysicalDeviceMemoryProperties, .vkAllocateMemory, .vkBindBufferMemory,
          .vkMapMemory, .memcpy, .vkUnmapMemory, .free] ++
        -- 7b. Copy texture from staging buffer into an image, one-time command buffer
        [.vkCreateImage, .vkGetImageMemoryRequirements, .find_memory_type,
          .vkGetPhysicalDeviceMemoryProperties, .vkAllocateMemory, .vkBindImageMemory,
          .vkAllocateCommandBuffers, .vkBeginCommandBuffer, .vkCmdPipelineBarrier,
          .vkCmdCopyBufferToImage, .vkCmdPipelineBarrier, .vkEndCommandBuffer,
          .vkQueueSubmit, .vkQueueWaitIdle, .vkFreeMemory, .vkDestroyBuffer] ++
        -- 7c. Create texture image view; 7d. Create texture sampler
        [.vkCreateImageView, .vkCreateSampler] ++
        -- 9. Descriptor set: layout, pool, allocation, the two updates
        [.vkCreateDescriptorSetLayout, .vkCreateDescriptorPool, .vkAllocateDescriptorSets,
          .vkUpdateDescriptorSets, .vkUpdateDescriptorSets] ++
        -- 10. Graphics pipeline: the two shader modules, pipeline layout, pipeline
        [.create_shader_module, .fopen, .malloc, .fread, .fclose, .vkCreateShaderModule,
          .free,
          .create_shader_module, .fopen, .malloc, .fread, .fclose, .vkCreateShaderModule,
          .free,
          .glfwGetFramebufferSize, .vkCreatePipelineLayout, .vkCreateGraphicsPipelines] ++
        -- 11. Can destroy shader modules
        [.vkDestroyShaderModule, .vkDestroyShaderModule] ++
        -- 12. Create image available and render finished semaphores
        [.vkCreateSemaphore, .vkCreateSemaphore]) ∧
    (∀ (env : MainEnv) (w : World) (pre post : List Event) (e : Event),
      (main env w).trace = pre ++ e :: post → e.fn = .create_basically_everything →
      ∃ (L : MainLocals) (w0 : World),
        (main_init env.init w).out = .ok (L, w0) ∧
        (⟨.vkCreateBuffer, [L.vk_device], [L.vk_vertex_buffer], [],
          some VK_SUCCESS⟩ : Event) ∈ pre ∧
        (⟨.vkCreateBuffer, [L.vk_device], [L.vk_index_buffer], [],
          some VK_SUCCESS⟩ : Event) ∈ pre ∧
        (⟨.vkCreateCommandPool, [L.vk_device], [L.vk_command_pool], [],
          some VK_SUCCESS⟩ : Event) ∈ pre ∧
        (⟨.vkAllocateCommandBuffers, [L.vk_device, L.vk_command_pool],
          [L.vk_command_buffer], [], some VK_SUCCESS⟩ : Event) ∈ pre) := by
  constructor
  · intro env window vk_physical_device vk_surface vk_device vk_graphics_queue
      vk_command_pool w w1 h
    rw [(create_basically_everything_ok env window vk_physical_device vk_surface
      vk_device vk_graphics_queue vk_command_pool w w1 h).1]
    rfl
  · intro env w pre post e ht hfn
    have hinit := allFn_main_init env.init w
    cases h0 : (main_init env.init w).out with
    | error a =>
      exfalso
      have hmain : (main env w).trace = (main_init env.init w).trace := by
        unfold main
        rw [bind_run]
        unfold Result.andThen
        rw [h0]
      have hmem : e ∈ (main_init env.init w).trace := by
        rw [← hmain, ht]
        exact List.mem_append_right _ (List.mem_cons_self _ _)
      have := hinit e hmem
      rw [hfn] at this
      exact Bool.noConfusion this
    | ok p =>
      obtain ⟨L, w0⟩ := p
      obtain ⟨rest, hrest⟩ := main_trace_of_init env w w0 L h0
      rw [hrest] at ht
      obtain ⟨mid, hmid⟩ := front_of_cut (fun x => x.fn = .create_basically_everything)
        pre post _ _ e
        (fun x hx hq => by
          have := hinit x hx
          rw [hq] at this
          exact Bool.noConfusion this) hfn ht.symm
      obtain ⟨hti, hL, _⟩ := main_init_ok env.init w w0 L h0
      have hsub : ∀ x ∈ main_init_trace env.init w.next, x ∈ pre := by
        intro x hx
        rw [hmid, hti]
        exact List.mem_append_left _ hx
      refine ⟨L, w0, rfl, ?_, ?_, ?_, ?_⟩ <;> apply hsub <;> rw [hL] <;>
        simp only [main_init_trace, create_host_buffer_trace, List.mem_append,
          List.mem_cons, true_or, or_true]

/-- The theorem `create_steps_in_order` applies to the run `MainEnv.sample`: its first
call of `create_basically_everything` returns, and comes after the initialisation. -/
theorem create_steps_in_order_witness :
    (create_basically_everything CreateEnv.success MainLocals.sample.window
      MainLocals.sample.vk_physical_device MainLocals.sample.vk_surface
      MainLocals.sample.vk_device MainLocals.sample.vk_graphics_queue
      MainLocals.sample.vk_command_pool World.after_init).out = .ok ((), World.sample) ∧
    ((create_basically_everything CreateEnv.success MainLocals.sample.window
      MainLocals.sample.vk_physical_device MainLocals.sample.vk_surface
      MainLocals.sample.vk_device MainLocals.sample.vk_graphics_queue
      MainLocals.sample.vk_command_pool World.after_init).trace.map Event.fn).length =
      78 ∧
    ∃ (pre post : List Event) (e : Event),
      (main MainEnv.sample World.initial).trace = pre ++ e :: post ∧
      e.fn = .create_basically_everything ∧
      ∃ (L : MainLocals) (w0 : World),
        (main_init MainEnv.sample.init World.initial).out = .ok (L, w0) ∧
        (⟨.vkCreateBuffer, [L.vk_device], [L.vk_vertex_buffer], [],
          some VK_SUCCESS⟩ : Event) ∈ pre ∧
        (⟨.vkCreateBuffer, [L.vk_device], [L.vk_index_buffer], [],
          some VK_SUCCESS⟩ : Event) ∈ pre ∧
        (⟨.vkCreateCommandPool, [L.vk_device], [L.vk_command_pool], [],
          some VK_SUCCESS⟩ : Event) ∈ pre ∧
        (⟨.vkAllocateCommandBuffers, [L.vk_device, L.vk_command_pool],
          [L.vk_command_buffer], [], some VK_SUCCESS⟩ : Event) ∈ pre := by
  have h0 : (main_init MainEnv.sample.init World.initial).out =
      .ok (MainLocals.sample, World.after_init) := by
    show (main_init InitEnv.success World.initial).out = _
    rw [main_init_success_run]
  obtain ⟨rest, hrest⟩ := main_trace_of_init MainEnv.sample World.initial
    World.after_init MainLocals.sample h0
  refine ⟨create_success_out _ _ _ _ _ _ _, ?_, _, _, _, hrest, rfl,
    create_steps_in_order.2 MainEnv.sample World.initial _ _ _ hrest rfl⟩
  rw [create_steps_in_order.1 CreateEnv.success _ _ _ _ _ _ World.after_init World.sample
    (create_success_out _ _ _ _ _ _ _)]
  rfl

end VulkanDrafts
